import Mathlib

/-!
Gateway sidecar: authorization gate, route validation, xDS resource builders,
snapshot push, orchestrator client, admin API and view store

A shallow embedding of `ui/gateway-sidecar` (Go) and theorems about it.

Conventions of the embedding

* A Go `string` is a list of characters (`GoString`).  The separators the code
  searches for (`":"` and `"."`) are single ASCII bytes, so positions are counted
  in characters and slicing uses the same unit; `len` is the UTF-8 byte length.
* A Go `map[string]T` is an association list read by first match.
* An `error` result is an `Option`: `none` is `nil`.
* Calls to the orchestrator go through a record of operations over an abstract
  cluster state, mirroring the `kubernetes.Interface` the Go code holds.
* Calls to the snapshot cache of `go-control-plane` go through a record of
  operations over an abstract cache state in the same way.
* Methods that run under a mutex are run one after the other.
* A handler of the view store returns the store afterwards and the number of
  calls it made to `onChange`; a handler that lists endpoint slices takes the
  cluster at the time of the listing.
-/

set_option linter.dupNamespace false

namespace GatewaySidecar

/-! ## Strings (package `strings`, restricted to the calls the sidecar makes) -/

/-- Go `string`. -/
abbrev GoString := List Char

/-- Go `len(s)` of a string: its length in UTF-8 bytes. -/
def len (s : GoString) : Nat := (s.map Char.utf8Size).sum

/-- Go `strings.IndexByte`: position of the first occurrence, `none` for `-1`. -/
def indexByte : GoString → Char → Option Nat
  | [], _ => none
  | x :: xs, c => if x = c then some 0 else (indexByte xs c).map (· + 1)

/-- Go `strings.LastIndex(s, sep)` for a one-byte `sep` (the library dispatches to
`LastIndexByte`): position of the last occurrence, `none` for `-1`. -/
def lastIndexByte : GoString → Char → Option Nat
  | [], _ => none
  | x :: xs, c =>
    match lastIndexByte xs c with
    | some i => some (i + 1)
    | none => if x = c then some 0 else none

/-- Go `strings.HasSuffix`:
`len(s) >= len(suffix) && s[len(s)-len(suffix):] == suffix`. -/
def hasSuffix (s suffix : GoString) : Bool :=
  decide (suffix.length ≤ s.length) && decide (s.drop (s.length - suffix.length) = suffix)

/-- Go `strings.HasPrefix`: `len(s) >= len(p) && s[:len(p)] == p`. -/
def hasPrefix (s p : GoString) : Bool :=
  decide (p.length ≤ s.length) && decide (s.take p.length = p)

/-- Go `strings.TrimSuffix`: `s` without the suffix when it has it, else `s`. -/
def trimSuffix (s suffix : GoString) : GoString :=
  if hasSuffix s suffix then s.take (s.length - suffix.length) else s

/-- Go `strings.TrimPrefix`: `s` without the leading `p` when it has it, else `s`. -/
def trimPrefix (s p : GoString) : GoString :=
  if hasPrefix s p then s.drop p.length else s

/-- Go `strings.Contains(s, sep)` for a one-byte `sep`: `Index(s, sep) >= 0`. -/
def contains (s : GoString) (c : Char) : Bool :=
  (indexByte s c).isSome

/-- Go `strings.SplitN(s, sep, 2)` for a one-byte `sep`: the text before the first
separator and the text after it, or `s` alone when there is no separator. -/
def splitN2 (s : GoString) (c : Char) : List GoString :=
  match indexByte s c with
  | none => [s]
  | some i => [s.take i, s.drop (i + 1)]

/-! ## `types.go` -/

/-- Go `Subset`. -/
structure Subset where
  Cluster : GoString
  Namespace : GoString
  deriving DecidableEq, Repr

/-- Go `Route`. -/
structure Route where
  Name : GoString
  Subset : Subset
  deriving DecidableEq, Repr

/-! ## `viewstore.go` : data and queries -/

/-- Go `ViewEndpoint`; `Port` is an `int32`. -/
structure ViewEndpoint where
  Address : GoString
  Port : Int
  Ready : Bool
  deriving DecidableEq, Repr

/-- Go `ViewState`. -/
structure ViewState where
  Name : GoString
  Subset : Subset
  Endpoints : List ViewEndpoint
  deriving DecidableEq, Repr

/-- Go `ViewStore`, reduced to its data: the `views` map from name to state. -/
structure ViewStore where
  views : List (GoString × ViewState)
  deriving DecidableEq, Repr

/-- Map read `m[k]` with the comma-ok form: the first binding of `k`. -/
def mapGet {β : Type} (m : List (GoString × β)) (k : GoString) : Option β :=
  (m.find? (fun e => decide (e.1 = k))).map (·.2)

/-- Go `ViewStore.GetView`: the state stored under `name`, `none` for `nil`. -/
def ViewStore.GetView (vs : ViewStore) (name : GoString) : Option ViewState :=
  mapGet vs.views name

/-- Go `ViewStore.ListViews`: the values of the map. -/
def ViewStore.ListViews (vs : ViewStore) : List ViewState :=
  vs.views.map (·.2)

/-- Go `ViewStore.ReadyEndpoints`: the endpoints of the view whose `Ready` flag is
set, in stored order; empty when the view is unknown. -/
def ViewStore.ReadyEndpoints (vs : ViewStore) (name : GoString) : List ViewEndpoint :=
  match mapGet vs.views name with
  | none => []
  | some state => state.Endpoints.filter (fun ep => ep.Ready)

/-- Go `ViewStore.HasService`. -/
def ViewStore.HasService (vs : ViewStore) (name : GoString) : Bool :=
  (mapGet vs.views name).isSome

/-! ## `extauthz.go` : view-name extraction -/

/-- Host with its `:port` suffix removed: the first statement of `parseViewName`,
`if idx := strings.LastIndex(host, ":"); idx != -1 { host = host[:idx] }`. -/
def stripPort (host : GoString) : GoString :=
  match lastIndexByte host ':' with
  | some idx => host.take idx
  | none => host

/-- Go `ExtAuthzServer.parseViewName`, with the receiver reduced to its
`baseHostname` field (the only one the method reads). -/
def parseViewName (baseHostname : GoString) (host : GoString) : GoString :=
  let host := stripPort host
  if host = baseHostname then []
  else
    let suffix := '.' :: baseHostname
    if hasSuffix host suffix then trimSuffix host suffix
    else
      match splitN2 host '.' with
      | [p0, _] => if !contains p0 '.' then p0 else []
      | _ => []


/-! ## `k8s.go` : orchestrator objects

The object types of `k8s.io/api`, restricted to the fields the sidecar sets or
reads.  A nil pointer or an unset optional field is `none`. -/

/-- Go `metav1.ObjectMeta`. -/
structure ObjectMeta where
  Name : GoString
  Namespace : GoString
  Labels : List (GoString × GoString)
  Annotations : List (GoString × GoString)
  deriving DecidableEq, Repr

/-- Go `corev1.ContainerPort`. -/
structure ContainerPort where
  Name : GoString
  ContainerPort : Int
  deriving DecidableEq, Repr

/-- Go `corev1.EnvVar`. -/
structure EnvVar where
  Name : GoString
  Value : GoString
  deriving DecidableEq, Repr

/-- Go `corev1.EnvFromSource`, by the name of the secret it refers to. -/
structure EnvFromSource where
  SecretRefName : GoString
  deriving DecidableEq, Repr

/-- Go `corev1.VolumeMount`. -/
structure VolumeMount where
  Name : GoString
  MountPath : GoString
  ReadOnly : Bool
  deriving DecidableEq, Repr

/-- Go `corev1.Probe` with an `HTTPGet` handler. -/
structure Probe where
  HTTPGetPath : GoString
  HTTPGetPort : Int
  InitialDelaySeconds : Int
  PeriodSeconds : Int
  deriving DecidableEq, Repr

/-- Go `corev1.Container`. -/
structure Container where
  Name : GoString
  Image : GoString
  ImagePullPolicy : GoString
  Ports : List ContainerPort
  EnvFrom : List EnvFromSource
  Env : List EnvVar
  VolumeMounts : List VolumeMount
  ReadinessProbe : Option Probe
  deriving DecidableEq, Repr

/-- Go `corev1.Volume` backed by a config map. -/
structure Volume where
  Name : GoString
  ConfigMapName : GoString
  deriving DecidableEq, Repr

/-- Go `corev1.PodSpec`. -/
structure PodSpec where
  RestartPolicy : GoString
  Containers : List Container
  Volumes : List Volume
  deriving DecidableEq, Repr

/-- Go `corev1.PodTemplateSpec`. -/
structure PodTemplateSpec where
  Labels : List (GoString × GoString)
  Spec : PodSpec
  deriving DecidableEq, Repr

/-- Go `batchv1.JobSpec`. -/
structure JobSpec where
  ActiveDeadlineSeconds : Option Int
  BackoffLimit : Option Int
  Template : PodTemplateSpec
  deriving DecidableEq, Repr

/-- Go `batchv1.Job`. -/
structure Job where
  ObjectMeta : ObjectMeta
  Spec : JobSpec
  deriving DecidableEq, Repr

/-- Go `corev1.ServicePort`. -/
structure ServicePort where
  Name : GoString
  Port : Int
  TargetPort : Int
  deriving DecidableEq, Repr

/-- Go `corev1.ServiceSpec`. -/
structure ServiceSpec where
  ClusterIP : GoString
  PublishNotReadyAddresses : Bool
  Selector : List (GoString × GoString)
  Ports : List ServicePort
  deriving DecidableEq, Repr

/-- Go `corev1.Service`. -/
structure Service where
  ObjectMeta : ObjectMeta
  Spec : ServiceSpec
  deriving DecidableEq, Repr

/-- Go `discoveryv1.EndpointConditions`. -/
structure EndpointConditions where
  Ready : Option Bool
  Serving : Option Bool
  deriving DecidableEq, Repr

/-- Go `discoveryv1.Endpoint`. -/
structure Endpoint where
  Addresses : List GoString
  Conditions : EndpointConditions
  deriving DecidableEq, Repr

/-- Go `discoveryv1.EndpointPort`. -/
structure EndpointPort where
  Port : Option Int
  deriving DecidableEq, Repr

/-- Go `discoveryv1.EndpointSlice`. -/
structure EndpointSlice where
  ObjectMeta : ObjectMeta
  Ports : List EndpointPort
  Endpoints : List Endpoint
  deriving DecidableEq, Repr

/-- Failure of an orchestrator call, by the status reason that
`k8s.io/apimachinery/pkg/api/errors` tests for. -/
inductive APIError where
  | AlreadyExists
  | NotFound
  | Other (message : GoString)
  deriving DecidableEq, Repr

/-- Go `k8serrors.IsAlreadyExists(err)`; false for a nil error. -/
def IsAlreadyExists : Option APIError → Bool
  | some .AlreadyExists => true
  | _ => false

/-- Go `error` value built by `fmt.Errorf("...: %w", err)`: the text before the
wrapped error and the wrapped error. -/
structure WrappedError where
  message : GoString
  cause : APIError
  deriving DecidableEq, Repr

/-- Operations of `kubernetes.Interface` the sidecar calls, over a cluster state
`σ`.  Each takes the namespace first and returns the call's error (`none` for
`nil`) with the state after the call. -/
structure KubeInterface (σ : Type) where
  JobsCreate : GoString → Job → σ → Option APIError × σ
  JobsDelete : GoString → GoString → σ → Option APIError × σ
  ServicesCreate : GoString → Service → σ → Option APIError × σ
  ServicesDelete : GoString → GoString → σ → Option APIError × σ
  EndpointSlicesList : GoString → GoString → σ → Except APIError (List EndpointSlice)

def viewNamespace : GoString := "ui".toList
def viewNamePrefix : GoString := "view-".toList
def labelApp : GoString := "lakeview".toList
def labelViewName : GoString := "lakeview.yolean.se/view-name".toList
def annoCluster : GoString := "lakeview.yolean.se/cluster".toList
def annoNamespace : GoString := "lakeview.yolean.se/namespace".toList

/-- Go `K8sClient`. -/
structure K8sClient (σ : Type) where
  client : KubeInterface σ
  namespace_ : GoString

/-- Go `NewK8sClient`. -/
def NewK8sClient {σ : Type} (client : KubeInterface σ) : K8sClient σ :=
  { client := client, namespace_ := viewNamespace }

/-- The `batchv1.Job` literal that `CreateViewJob` submits. -/
def viewJob (ns name : GoString) (subset : Subset) : Job :=
  { ObjectMeta :=
      { Name := viewNamePrefix ++ name
        Namespace := ns
        Labels := [("app".toList, labelApp), (labelViewName, name)]
        Annotations := [(annoCluster, subset.Cluster), (annoNamespace, subset.Namespace)] }
    Spec :=
      { ActiveDeadlineSeconds := some 3600
        BackoffLimit := some 0
        Template :=
          { Labels := [("app".toList, labelApp), (labelViewName, name)]
            Spec :=
              { RestartPolicy := "Never".toList
                Containers :=
                  [ { Name := "duckdb".toList
                      Image := "yolean/duckdb-ui:latest".toList
                      ImagePullPolicy := "Never".toList
                      Ports := []
                      EnvFrom := []
                      Env := []
                      VolumeMounts := []
                      ReadinessProbe := none },
                    { Name := "envoy".toList
                      Image := ("ghcr.io/yolean/envoy:distroless-v1.37.0@sha256:" ++
                        "92fdb97b9fdb47da82fbe3651b83bd1419e544966d264632af4864004652685f").toList
                      ImagePullPolicy := []
                      Ports := [{ Name := "http".toList, ContainerPort := 8080 }]
                      EnvFrom := []
                      Env := []
                      VolumeMounts :=
                        [{ Name := "envoy-config".toList, MountPath := "/etc/envoy".toList,
                           ReadOnly := true }]
                      ReadinessProbe :=
                        some { HTTPGetPath := "/".toList, HTTPGetPort := 8080,
                               InitialDelaySeconds := 5, PeriodSeconds := 5 } } ]
                Volumes :=
                  [{ Name := "envoy-config".toList, ConfigMapName := "duckdb-envoy".toList }] } } } }

/-- Go `K8sClient.CreateViewJob`: submit the job; `AlreadyExists` counts as
success, any other failure is returned wrapped. -/
def K8sClient.CreateViewJob {σ : Type} (k : K8sClient σ) (name : GoString) (subset : Subset)
    (c : σ) : Option WrappedError × σ :=
  let job := viewJob k.namespace_ name subset
  match k.client.JobsCreate k.namespace_ job c with
  | (err, c1) =>
    if IsAlreadyExists err then (none, c1)
    else
      match err with
      | some e => (some ⟨"failed to create job for view ".toList ++ name ++ ": ".toList, e⟩, c1)
      | none => (none, c1)

/-- The `corev1.Service` literal that `CreateViewService` submits. -/
def viewService (ns name : GoString) (subset : Subset) : Service :=
  { ObjectMeta :=
      { Name := viewNamePrefix ++ name
        Namespace := ns
        Labels := [("app".toList, labelApp), (labelViewName, name)]
        Annotations := [(annoCluster, subset.Cluster), (annoNamespace, subset.Namespace)] }
    Spec :=
      { ClusterIP := "None".toList
        PublishNotReadyAddresses := true
        Selector := [(labelViewName, name)]
        Ports := [{ Name := "http".toList, Port := 8080, TargetPort := 8080 }] } }

/-- Go `K8sClient.CreateViewService`: every failure is returned wrapped. -/
def K8sClient.CreateViewService {σ : Type} (k : K8sClient σ) (name : GoString)
    (subset : Subset) (c : σ) : Option WrappedError × σ :=
  let svc := viewService k.namespace_ name subset
  match k.client.ServicesCreate k.namespace_ svc c with
  | (some e, c1) =>
    (some ⟨"failed to create service for view ".toList ++ name ++ ": ".toList, e⟩, c1)
  | (none, c1) => (none, c1)

/-- Go `K8sClient.DeleteViewJob`: every failure is returned wrapped. -/
def K8sClient.DeleteViewJob {σ : Type} (k : K8sClient σ) (name : GoString) (c : σ) :
    Option WrappedError × σ :=
  match k.client.JobsDelete k.namespace_ (viewNamePrefix ++ name) c with
  | (some e, c1) =>
    (some ⟨"failed to delete job for view ".toList ++ name ++ ": ".toList, e⟩, c1)
  | (none, c1) => (none, c1)

/-- Go `K8sClient.DeleteViewService`: every failure is returned wrapped. -/
def K8sClient.DeleteViewService {σ : Type} (k : K8sClient σ) (name : GoString) (c : σ) :
    Option WrappedError × σ :=
  match k.client.ServicesDelete k.namespace_ (viewNamePrefix ++ name) c with
  | (some e, c1) =>
    (some ⟨"failed to delete service for view ".toList ++ name ++ ": ".toList, e⟩, c1)
  | (none, c1) => (none, c1)


/-! ### A cluster in memory

The behaviour of `fake.NewSimpleClientset()` of `k8s.io/client-go`, which the
tests of the sidecar run against: objects are kept by namespace and name, a
create of a present name fails with `AlreadyExists`, a delete of an absent name
fails with `NotFound`. -/

/-- State of the in-memory cluster. -/
structure FakeCluster where
  jobs : List Job
  services : List Service
  slices : List EndpointSlice
  deriving DecidableEq, Repr

/-- Whether `m` is the metadata of the object `ns/name`. -/
def ObjectMeta.isNamed (m : ObjectMeta) (ns name : GoString) : Bool :=
  decide (m.Namespace = ns) && decide (m.Name = name)

/-- Whether labels satisfy an equality selector `key=value`. -/
def matchesSelector (labels : List (GoString × GoString)) (selector : GoString) : Bool :=
  match splitN2 selector '=' with
  | [k, v] => decide (mapGet labels k = some v)
  | _ => true

/-- The in-memory cluster as a `kubernetes.Interface`. -/
def fakeClientset : KubeInterface FakeCluster where
  JobsCreate := fun ns job c =>
    if c.jobs.any (fun j => j.ObjectMeta.isNamed ns job.ObjectMeta.Name) then
      (some .AlreadyExists, c)
    else (none, { c with jobs := c.jobs ++ [job] })
  JobsDelete := fun ns name c =>
    if c.jobs.any (fun j => j.ObjectMeta.isNamed ns name) then
      (none, { c with jobs := c.jobs.filter (fun j => !j.ObjectMeta.isNamed ns name) })
    else (some .NotFound, c)
  ServicesCreate := fun ns svc c =>
    if c.services.any (fun x => x.ObjectMeta.isNamed ns svc.ObjectMeta.Name) then
      (some .AlreadyExists, c)
    else (none, { c with services := c.services ++ [svc] })
  ServicesDelete := fun ns name c =>
    if c.services.any (fun x => x.ObjectMeta.isNamed ns name) then
      (none, { c with services := c.services.filter (fun x => !x.ObjectMeta.isNamed ns name) })
    else (some .NotFound, c)
  EndpointSlicesList := fun ns selector c =>
    .ok (c.slices.filter (fun e =>
      decide (e.ObjectMeta.Namespace = ns) && matchesSelector e.ObjectMeta.Labels selector))

/-- Go `fake.NewSimpleClientset()` with no objects. -/
def emptyCluster : FakeCluster := { jobs := [], services := [], slices := [] }

/-! ## `extauthz.go` : the authorization check -/

/-- Status codes of `google.golang.org/grpc/codes` that the gate uses, as the
`int32` stored in the response. -/
def codes.OK : Int := 0
def codes.DeadlineExceeded : Int := 4
def codes.NotFound : Int := 5
def codes.Internal : Int := 13

/-- Go `authv3.DeniedHttpResponse`: HTTP status code and body. -/
structure DeniedHttpResponse where
  Status : Nat
  Body : GoString
  deriving DecidableEq, Repr

/-- Go `authv3.CheckResponse`: the gRPC status code and, for a denial, the HTTP
response to send. -/
structure CheckResponse where
  Status : Int
  DeniedResponse : Option DeniedHttpResponse
  deriving DecidableEq, Repr

/-- Go `okResponse`. -/
def okResponse : CheckResponse :=
  { Status := codes.OK, DeniedResponse := none }

/-- Go `deniedResponse`. -/
def deniedResponse (code : Int) (httpStatus : Nat) (body : GoString) : CheckResponse :=
  { Status := code, DeniedResponse := some { Status := httpStatus, Body := body } }

/-- Go `authv3.CheckRequest`, by what `GetAttributes().GetRequest().GetHttp().GetHost()`
returns for it (the empty string when any level is absent). -/
structure CheckRequest where
  Host : GoString
  deriving DecidableEq, Repr

/-- The case a `select` of the cold-start loop takes. -/
inductive SelectCase where
  | ctxDone
  | deadline
  | tick
  deriving DecidableEq, Repr

/-- One round of the cold-start loop as the scheduler resolves it: the caller's
context is done, the 60 s timer fired, or the 500 ms ticker fired while the
view store held `store`. -/
inductive SelectEvent where
  | ctxDone
  | deadline
  | tick (store : ViewStore)
  deriving DecidableEq, Repr

/-- What `Check` does outside itself, in program order. -/
inductive Effect where
  | GetView (name : GoString)
  | ReadyEndpoints (name : GoString)
  | CreateViewJob (name : GoString) (subset : Subset)
  | Select (case : SelectCase)
  deriving DecidableEq, Repr

/-- Go `ExtAuthzServer`.  The view store it points to is shared and mutable, so
its contents are passed to `Check` where they are read. -/
structure ExtAuthzServer (σ : Type) where
  k8s : K8sClient σ
  baseHostname : GoString

/-- Go `NewExtAuthzServer`. -/
def NewExtAuthzServer {σ : Type} (k8s : K8sClient σ) (baseHostname : GoString) :
    ExtAuthzServer σ :=
  { k8s := k8s, baseHostname := baseHostname }

/-- A run of `Check`: the response (`none` while the loop is still blocked in
`select` at the end of the schedule), the effects in order, and the cluster
afterwards. -/
structure CheckRun (σ : Type) where
  response : Option CheckResponse
  effects : List Effect
  cluster : σ

/-- The `for { select { ... } }` loop of `Check`, run over the rounds the
scheduler delivers. -/
def coldStartLoop (viewName : GoString) : List SelectEvent → Option CheckResponse × List Effect
  | [] => (none, [])
  | .ctxDone :: _ =>
    (some (deniedResponse codes.DeadlineExceeded 504 "request cancelled".toList),
      [.Select .ctxDone])
  | .deadline :: _ =>
    (some (deniedResponse codes.DeadlineExceeded 503 "workload not ready".toList),
      [.Select .deadline])
  | .tick store :: rest =>
    if (store.ReadyEndpoints viewName).length > 0 then
      (some okResponse, [.Select .tick, .ReadyEndpoints viewName])
    else
      let r := coldStartLoop viewName rest
      (r.1, .Select .tick :: .ReadyEndpoints viewName :: r.2)

/-- Go `ExtAuthzServer.Check`.  `store` is the view store at the time of the
call, `schedule` the rounds of the cold-start loop, `c` the cluster. -/
def ExtAuthzServer.Check {σ : Type} (s : ExtAuthzServer σ) (store : ViewStore)
    (schedule : List SelectEvent) (req : CheckRequest) (c : σ) : CheckRun σ :=
  let host := req.Host
  let viewName := parseViewName s.baseHostname host
  if viewName = [] then
    { response := some okResponse, effects := [], cluster := c }
  else
    match store.GetView viewName with
    | none =>
      { response := some (deniedResponse codes.NotFound 404 "view not found".toList)
        effects := [.GetView viewName]
        cluster := c }
    | some view =>
      if (store.ReadyEndpoints viewName).length > 0 then
        { response := some okResponse
          effects := [.GetView viewName, .ReadyEndpoints viewName]
          cluster := c }
      else
        match s.k8s.CreateViewJob viewName view.Subset c with
        | (some _, c1) =>
          { response := some (deniedResponse codes.Internal 503 "failed to create workload".toList)
            effects := [.GetView viewName, .ReadyEndpoints viewName,
              .CreateViewJob viewName view.Subset]
            cluster := c1 }
        | (none, c1) =>
          let r := coldStartLoop viewName schedule
          { response := r.1
            effects := [.GetView viewName, .ReadyEndpoints viewName,
              .CreateViewJob viewName view.Subset] ++ r.2
            cluster := c1 }


/-! ## `types.go` : route validation -/

/-- A character class `[...]`: any one of the listed characters. -/
def charClass (cs : List Char) : RegularExpression Char :=
  cs.foldr (fun c r => RegularExpression.char c + r) 0

/-- The characters of `a-z`. -/
def lowerChars : List Char := "abcdefghijklmnopqrstuvwxyz".toList

/-- The characters of `0-9`. -/
def digitChars : List Char := "0123456789".toList

/-- Go `nameRegex`, the pattern `^[a-z][a-z0-9-]*[a-z0-9]$`.  It is anchored at both
ends, so a string matches when the whole of it is in the language of
`[a-z][a-z0-9-]*[a-z0-9]`. -/
def nameRegex : RegularExpression Char :=
  charClass lowerChars * (charClass (lowerChars ++ digitChars ++ ['-'])).star *
    charClass (lowerChars ++ digitChars)

/-- Go `nameRegex.MatchString`. -/
def nameRegexMatchString (s : GoString) : Bool :=
  nameRegex.rmatch s

/-- Go `nameRegex.String()`. -/
def nameRegexString : GoString := "^[a-z][a-z0-9-]*[a-z0-9]$".toList

/-- Go `ValidateRoute`: `none` for `nil`, else the text of the error. -/
def ValidateRoute (r : Route) : Option GoString :=
  if len r.Name < 3 ∨ len r.Name > 8 then
    some ("name must be 3-8 characters, got ".toList ++ (Nat.repr (len r.Name)).toList)
  else if !nameRegexMatchString r.Name then
    some ("name must match ".toList ++ nameRegexString)
  else if r.Subset.Cluster = [] then
    some "subset.cluster is required".toList
  else none

/-! ## `xds.go` : resource builders

The resource types of `go-control-plane`, restricted to the fields the builders
set.  Durations are in nanoseconds. -/

/-- Go `core.SocketAddress`. -/
structure SocketAddress where
  Address : GoString
  PortValue : Nat
  deriving DecidableEq, Repr

/-- Go `endpoint.LbEndpoint`, by the socket address of its endpoint. -/
structure LbEndpoint where
  SocketAddress : SocketAddress
  deriving DecidableEq, Repr

/-- Go `endpoint.LocalityLbEndpoints`. -/
structure LocalityLbEndpoints where
  LbEndpoints : List LbEndpoint
  deriving DecidableEq, Repr

/-- Go `endpoint.ClusterLoadAssignment`. -/
structure ClusterLoadAssignment where
  ClusterName : GoString
  Endpoints : List LocalityLbEndpoints
  deriving DecidableEq, Repr

/-- Go `cluster.Cluster_DiscoveryType`, the two values the builder uses. -/
inductive DiscoveryType where
  | STATIC
  | EDS
  deriving DecidableEq, Repr

/-- Go `core.ConfigSource` as the builders fill it: aggregated discovery or not,
and the resource API version. -/
structure ConfigSource where
  Ads : Bool
  ResourceApiVersion : GoString
  deriving DecidableEq, Repr

/-- Go `cluster.Cluster`. -/
structure Cluster where
  Name : GoString
  ConnectTimeout : Nat
  ClusterDiscoveryType : DiscoveryType
  LoadAssignment : Option ClusterLoadAssignment
  EdsClusterConfig : Option ConfigSource
  deriving DecidableEq, Repr

/-- Go `route.RetryPolicy`. -/
structure RetryPolicy where
  RetryOn : GoString
  NumRetries : Nat
  deriving DecidableEq, Repr

/-- Go `route.RouteAction`. -/
structure RouteAction where
  Cluster : GoString
  HostRewriteLiteral : Option GoString
  Timeout : Option Nat
  RetryPolicy : Option RetryPolicy
  deriving DecidableEq, Repr

/-- Go `route.DirectResponseAction` with an inline body. -/
structure DirectResponseAction where
  Status : Nat
  Body : GoString
  deriving DecidableEq, Repr

/-- The `Action` of a `route.Route`. -/
inductive RouteActionSpecifier where
  | Route (action : RouteAction)
  | DirectResponse (action : DirectResponseAction)
  deriving DecidableEq, Repr

/-- Go `ext_authz_filter.ExtAuthzPerRoute` with the `Disabled` override. -/
structure ExtAuthzPerRoute where
  Disabled : Bool
  deriving DecidableEq, Repr

/-- Go `route.Route` of the proxy configuration (not the `Route` of `types.go`). -/
structure XdsRoute where
  MatchPrefix : GoString
  Action : RouteActionSpecifier
  TypedPerFilterConfig : List (GoString × ExtAuthzPerRoute)
  deriving DecidableEq, Repr

/-- Go `route.VirtualHost`. -/
structure VirtualHost where
  Name : GoString
  Domains : List GoString
  Routes : List XdsRoute
  deriving DecidableEq, Repr

/-- Go `route.RouteConfiguration`. -/
structure RouteConfiguration where
  Name : GoString
  VirtualHosts : List VirtualHost
  deriving DecidableEq, Repr

def nodeID : GoString := "gateway".toList

/-- Go `SnapshotManager`, without its snapshot cache.  `store` is what the store
pointer refers to when a method runs; `none` is a nil pointer. -/
structure SnapshotManager where
  version : Int
  store : Option ViewStore
  baseHostname : GoString
  deriving DecidableEq, Repr

/-- Go `NewSnapshotManager`. -/
def NewSnapshotManager (baseHostname : GoString) (store : Option ViewStore) : SnapshotManager :=
  { version := 0, store := store, baseHostname := baseHostname }

/-- Go `SnapshotManager.extAuthzDisabledPerRoute`. -/
def SnapshotManager.extAuthzDisabledPerRoute (_sm : SnapshotManager) :
    List (GoString × ExtAuthzPerRoute) :=
  [("envoy.filters.http.ext_authz".toList, { Disabled := true })]

/-- Go `SnapshotManager.buildDefaultVirtualHost`. -/
def SnapshotManager.buildDefaultVirtualHost (sm : SnapshotManager) : VirtualHost :=
  let disabled := sm.extAuthzDisabledPerRoute
  { Name := "local".toList
    Domains := ["*".toList]
    Routes :=
      [ { MatchPrefix := "/_api/".toList
          Action := .Route
            { Cluster := "sidecar_api".toList, HostRewriteLiteral := none, Timeout := none,
              RetryPolicy := none }
          TypedPerFilterConfig := disabled },
        { MatchPrefix := "/".toList
          Action := .DirectResponse { Status := 200, Body := "gateway ok\n".toList }
          TypedPerFilterConfig := disabled } ] }

/-- Go `SnapshotManager.buildRouteConfig`. -/
def SnapshotManager.buildRouteConfig (sm : SnapshotManager) (views : List ViewState) :
    RouteConfiguration :=
  let vhosts := views.foldl
    (fun vhosts v => vhosts ++
      [{ Name := viewNamePrefix ++ v.Name
         Domains := [v.Name ++ ".".toList ++ sm.baseHostname, v.Name ++ ".*".toList]
         Routes :=
           [{ MatchPrefix := "/".toList
              Action := .Route
                { Cluster := viewNamePrefix ++ v.Name
                  HostRewriteLiteral := some "localhost".toList
                  Timeout := some 0
                  RetryPolicy := some { RetryOn := "connect-failure,reset".toList, NumRetries := 3 } }
              TypedPerFilterConfig := [] }] }])
    [sm.buildDefaultVirtualHost]
  { Name := "local_route".toList, VirtualHosts := vhosts }

/-- The static cluster `sidecar_api` that `buildClusters` starts from. -/
def sidecarApiCluster : Cluster :=
  { Name := "sidecar_api".toList
    ConnectTimeout := 1000000000
    ClusterDiscoveryType := .STATIC
    LoadAssignment := some
      { ClusterName := "sidecar_api".toList
        Endpoints :=
          [{ LbEndpoints := [{ SocketAddress := { Address := "127.0.0.1".toList, PortValue := 18080 } }] }] }
    EdsClusterConfig := none }

/-- Go `SnapshotManager.buildClusters`. -/
def SnapshotManager.buildClusters (_sm : SnapshotManager) (views : List ViewState) :
    List Cluster :=
  views.foldl
    (fun clusters v => clusters ++
      [{ Name := viewNamePrefix ++ v.Name
         ConnectTimeout := 5000000000
         ClusterDiscoveryType := .EDS
         LoadAssignment := none
         EdsClusterConfig := some { Ads := true, ResourceApiVersion := "V3".toList } }])
    [sidecarApiCluster]

/-- Go conversion `uint32(x)` of an `int32`. -/
def uint32 (x : Int) : Nat := (x % 2 ^ 32).toNat

/-- Go `SnapshotManager.buildEndpoints`. -/
def SnapshotManager.buildEndpoints (sm : SnapshotManager) (views : List ViewState) :
    List ClusterLoadAssignment :=
  views.foldl
    (fun endpoints v =>
      let lbEndpoints : List LbEndpoint :=
        match sm.store with
        | some store =>
          (store.ReadyEndpoints v.Name).foldl
            (fun lbEndpoints ep => lbEndpoints ++
              [{ SocketAddress := { Address := ep.Address, PortValue := uint32 ep.Port } }])
            []
        | none => []
      endpoints ++
        [{ ClusterName := viewNamePrefix ++ v.Name
           Endpoints := [{ LbEndpoints := lbEndpoints }] }])
    []

/-! ## `xds.go` : the listener and the snapshot push -/

/-- Go `ext_authz_filter.ExtAuthz` as `buildListener` fills it: the gRPC cluster,
the call timeout in nanoseconds, the transport API version and the failure mode. -/
structure ExtAuthz where
  ClusterName : GoString
  Timeout : Nat
  TransportApiVersion : GoString
  FailureModeAllow : Bool
  deriving DecidableEq, Repr

/-- The typed configuration of an HTTP filter of the listener. -/
inductive HttpFilterConfig where
  | ExtAuthz (cfg : ExtAuthz)
  | Router
  deriving DecidableEq, Repr

/-- Go `hcm.HttpFilter`. -/
structure HttpFilter where
  Name : GoString
  TypedConfig : HttpFilterConfig
  deriving DecidableEq, Repr

/-- Go `hcm.Rds`. -/
structure Rds where
  ConfigSource : ConfigSource
  RouteConfigName : GoString
  deriving DecidableEq, Repr

/-- Go `hcm.HttpConnectionManager`. -/
structure HttpConnectionManager where
  StatPrefix : GoString
  CodecType : GoString
  Rds : Rds
  HttpFilters : List HttpFilter
  deriving DecidableEq, Repr

/-- Go `listener.Filter` holding an HTTP connection manager. -/
structure ListenerFilter where
  Name : GoString
  TypedConfig : HttpConnectionManager
  deriving DecidableEq, Repr

/-- Go `listener.FilterChain`. -/
structure FilterChain where
  Filters : List ListenerFilter
  deriving DecidableEq, Repr

/-- Go `listener.Listener`. -/
structure Listener where
  Name : GoString
  Address : SocketAddress
  FilterChains : List FilterChain
  deriving DecidableEq, Repr

/-- Go `SnapshotManager.buildListener`.  Marshalling the filter configurations
into `anypb.Any` is left out. -/
def SnapshotManager.buildListener (_sm : SnapshotManager) : Listener :=
  let extAuthz : ExtAuthz :=
    { ClusterName := "xds_cluster".toList
      Timeout := 65000000000
      TransportApiVersion := "V3".toList
      FailureModeAllow := false }
  let hcmConfig : HttpConnectionManager :=
    { StatPrefix := "ingress_http".toList
      CodecType := "AUTO".toList
      Rds :=
        { ConfigSource := { Ads := true, ResourceApiVersion := "V3".toList }
          RouteConfigName := "local_route".toList }
      HttpFilters :=
        [ { Name := "envoy.filters.http.ext_authz".toList, TypedConfig := .ExtAuthz extAuthz },
          { Name := "envoy.filters.http.router".toList, TypedConfig := .Router } ] }
  { Name := "main".toList
    Address := { Address := "0.0.0.0".toList, PortValue := 8080 }
    FilterChains :=
      [{ Filters :=
          [{ Name := "envoy.filters.network.http_connection_manager".toList
             TypedConfig := hcmConfig }] }] }

/-- The `map[resource.Type][]types.Resource` that `pushSnapshot` hands to
`cachev3.NewSnapshot`, by its four keys. -/
structure SnapshotResources where
  Listeners : List Listener
  Routes : List RouteConfiguration
  Clusters : List Cluster
  Endpoints : List ClusterLoadAssignment
  deriving DecidableEq, Repr

/-- Go `cachev3.Snapshot`: a version and the resources of each type. -/
structure Snapshot where
  Version : GoString
  Resources : SnapshotResources
  deriving DecidableEq, Repr

/-- The part of package `cachev3` of `go-control-plane` that `pushSnapshot` calls,
over a cache state `κ`: the constructor `NewSnapshot`, the method `Consistent` of
a snapshot, and the methods `SetSnapshot` and `GetSnapshot` of the
`SnapshotCache` interface (node identifier first).  An error is its text. -/
structure SnapshotLibrary (κ : Type) where
  NewSnapshot : GoString → SnapshotResources → Except GoString Snapshot
  Consistent : Snapshot → Option GoString
  SetSnapshot : GoString → Snapshot → κ → Option GoString × κ
  GetSnapshot : GoString → κ → Option Snapshot

/-- Go `error` value built by `fmt.Errorf("...: %w", err)` in `pushSnapshot`. -/
structure SnapshotError where
  message : GoString
  cause : GoString
  deriving DecidableEq, Repr

/-- Go `fmt.Sprintf("%d", v)`. -/
def sprintfInt (v : Int) : GoString := (toString v).toList

/-- A run of `pushSnapshot`: the returned error, the manager afterwards, the
version string of the run, the snapshot `SetSnapshot` was called with (`none`
when it was not called) and the cache afterwards. -/
structure PushRun (κ : Type) where
  err : Option SnapshotError
  sm : SnapshotManager
  versionStr : GoString
  setSnapshot : Option Snapshot
  cache : κ

/-- Go `SnapshotManager.pushSnapshot`.  The counter is a Go `int`; it grows by one
per call from zero and stays far from the 64-bit limit, so it is not wrapped. -/
def SnapshotManager.pushSnapshot {κ : Type} (lib : SnapshotLibrary κ) (sm : SnapshotManager)
    (cache : κ) : PushRun κ :=
  let sm : SnapshotManager := { sm with version := sm.version + 1 }
  let versionStr := sprintfInt sm.version
  let views : List ViewState :=
    match sm.store with
    | some store => store.ListViews
    | none => []
  let clusters := sm.buildClusters views
  let endpoints := sm.buildEndpoints views
  let routes := sm.buildRouteConfig views
  let listeners := [sm.buildListener]
  match lib.NewSnapshot versionStr
      { Listeners := listeners, Routes := [routes], Clusters := clusters,
        Endpoints := endpoints } with
  | .error e =>
    { err := some ⟨"failed to create snapshot: ".toList, e⟩
      sm := sm, versionStr := versionStr, setSnapshot := none, cache := cache }
  | .ok snapshot =>
    match lib.Consistent snapshot with
    | some e =>
      { err := some ⟨"snapshot inconsistent: ".toList, e⟩
        sm := sm, versionStr := versionStr, setSnapshot := none, cache := cache }
    | none =>
      match lib.SetSnapshot nodeID snapshot cache with
      | (some e, cache1) =>
        { err := some ⟨"failed to set snapshot: ".toList, e⟩
          sm := sm, versionStr := versionStr, setSnapshot := some snapshot, cache := cache1 }
      | (none, cache1) =>
        { err := none
          sm := sm, versionStr := versionStr, setSnapshot := some snapshot, cache := cache1 }

/-- Go `SnapshotManager.Rebuild`: `pushSnapshot` under the manager's mutex. -/
def SnapshotManager.Rebuild {κ : Type} (lib : SnapshotLibrary κ) (sm : SnapshotManager)
    (cache : κ) : PushRun κ :=
  sm.pushSnapshot lib cache

/-- Go `SnapshotManager.Initialize`. -/
def SnapshotManager.Initialize {κ : Type} (lib : SnapshotLibrary κ) (sm : SnapshotManager)
    (cache : κ) : PushRun κ :=
  sm.Rebuild lib cache

/-- Successive `Rebuild` calls on one manager and one cache; `stores` gives the
contents of the view store at each call. -/
def rebuildEach {κ : Type} (lib : SnapshotLibrary κ) :
    List (Option ViewStore) → SnapshotManager → κ → List (PushRun κ)
  | [], _, _ => []
  | st :: rest, sm, cache =>
    let r := SnapshotManager.Rebuild lib { sm with store := st } cache
    r :: rebuildEach lib rest r.sm r.cache

/-! ### A snapshot cache in memory

The behaviour of `cachev3.NewSnapshotCache` of `go-control-plane` with no open
watch, which `NewSnapshotManager` creates: snapshots are kept by node
identifier, and a snapshot indexes its resources by name. -/

/-- Map write `m[k] = v`: replace the binding of `k`, or add one. -/
def mapSet {β : Type} (m : List (GoString × β)) (k : GoString) (v : β) : List (GoString × β) :=
  if m.any (fun e => decide (e.1 = k)) then
    m.map (fun e => if e.1 = k then (k, v) else e)
  else m ++ [(k, v)]

/-- Resources indexed by name, as a snapshot holds them: a later resource of a
name replaces an earlier one. -/
def indexByName {α : Type} (name : α → GoString) (items : List α) : List (GoString × α) :=
  items.foldl (fun m r => mapSet m (name r) r) []

/-- The endpoint assignments the clusters of a snapshot refer to: the names of its
EDS clusters. -/
def Snapshot.endpointReferences (s : Snapshot) : List GoString :=
  ((indexByName (·.Name) s.Resources.Clusters).filter
    (fun e => decide (e.2.ClusterDiscoveryType = .EDS))).map (·.1)

/-- The route configurations the listeners of a snapshot refer to. -/
def Snapshot.routeReferences (s : Snapshot) : List GoString :=
  (((indexByName (·.Name) s.Resources.Listeners).map (·.2)).flatMap
    (fun l => l.FilterChains.flatMap
      (fun fc => fc.Filters.map (fun f => f.TypedConfig.Rds.RouteConfigName)))).dedup

/-- The consistency check of a snapshot: the referenced endpoint assignments are
exactly the assignments it holds, and the referenced route configurations are
exactly the route configurations it holds. -/
def Snapshot.Consistent (s : Snapshot) : Option GoString :=
  let endpoints := indexByName (·.ClusterName) s.Resources.Endpoints
  let routes := indexByName (·.Name) s.Resources.Routes
  if s.endpointReferences.length ≠ endpoints.length then
    some "mismatched endpoint reference and resource lengths".toList
  else if !endpoints.all (fun e => decide (e.1 ∈ s.endpointReferences)) then
    some "inconsistent endpoint reference".toList
  else if s.routeReferences.length ≠ routes.length then
    some "mismatched route reference and resource lengths".toList
  else if !routes.all (fun e => decide (e.1 ∈ s.routeReferences)) then
    some "inconsistent route reference".toList
  else none

/-- The snapshot cache in memory as a `SnapshotLibrary`; its state maps node
identifiers to snapshots. -/
def snapshotCache : SnapshotLibrary (List (GoString × Snapshot)) where
  NewSnapshot := fun version resources => .ok { Version := version, Resources := resources }
  Consistent := Snapshot.Consistent
  SetSnapshot := fun node snapshot cache => (none, mapSet cache node snapshot)
  GetSnapshot := fun node cache => mapGet cache node

/-! ## `api.go` : the admin API -/

/-- Go `View`. -/
structure View where
  Name : GoString
  Subset : Subset
  Ready : Bool
  deriving DecidableEq, Repr

/-- What a handler writes as the body of its response: the text of `http.Error`,
or the value given to `writeJSON`. -/
inductive ResponseBody where
  | text (s : GoString)
  | error (message : GoString)
  | view (v : View)
  | views (vs : List View)
  | deleted (name : GoString)
  deriving DecidableEq, Repr

/-- The HTTP response of a handler: status code and body. -/
structure HTTPResponse where
  Status : Nat
  Body : ResponseBody
  deriving DecidableEq, Repr

/-- A call of a handler to a method of `K8sClient`. -/
inductive K8sCall where
  | CreateViewJob (name : GoString) (subset : Subset)
  | CreateViewService (name : GoString) (subset : Subset)
  | DeleteViewJob (name : GoString)
  | DeleteViewService (name : GoString)
  deriving DecidableEq, Repr

/-- Go `APIHandler`.  The view store it points to is shared and mutable, so its
contents are passed to the handlers where they are read. -/
structure APIHandler (σ : Type) where
  k8s : K8sClient σ

/-- Go `NewAPIHandler`. -/
def NewAPIHandler {σ : Type} (k8s : K8sClient σ) : APIHandler σ :=
  { k8s := k8s }

/-- A run of a handler: the response, the calls to `K8sClient` in order, and the
cluster afterwards. -/
structure APIRun (σ : Type) where
  response : HTTPResponse
  calls : List K8sCall
  cluster : σ

def StatusOK : Nat := 200
def StatusCreated : Nat := 201
def StatusBadRequest : Nat := 400
def StatusConflict : Nat := 409
def StatusInternalServerError : Nat := 500

/-- Go `APIHandler.createView`.  `body` is the outcome of decoding the request
body as a `Route`, `none` when decoding failed. -/
def APIHandler.createView {σ : Type} (h : APIHandler σ) (store : ViewStore)
    (body : Option Route) (c : σ) : APIRun σ :=
  match body with
  | none =>
    { response := { Status := StatusBadRequest
                    Body := .text "\x7b\"error\":\"invalid JSON\"\x7d\n".toList }
      calls := [], cluster := c }
  | some route =>
    match ValidateRoute route with
    | some err =>
      { response := { Status := StatusBadRequest, Body := .error err }
        calls := [], cluster := c }
    | none =>
      if store.HasService route.Name then
        { response := { Status := StatusConflict, Body := .error "view already exists".toList }
          calls := [], cluster := c }
      else
        match h.k8s.CreateViewService route.Name route.Subset c with
        | (some _, c1) =>
          { response := { Status := StatusInternalServerError
                          Body := .error "failed to create service".toList }
            calls := [.CreateViewService route.Name route.Subset], cluster := c1 }
        | (none, c1) =>
          { response := { Status := StatusCreated
                          Body := .view { Name := route.Name, Subset := route.Subset,
                                          Ready := false } }
            calls := [.CreateViewService route.Name route.Subset], cluster := c1 }

/-- Go `APIHandler.listViews`. -/
def APIHandler.listViews {σ : Type} (_h : APIHandler σ) (store : ViewStore) : HTTPResponse :=
  { Status := StatusOK
    Body := .views (store.ListViews.map (fun s =>
      { Name := s.Name, Subset := s.Subset
        Ready := decide ((store.ReadyEndpoints s.Name).length > 0) })) }

/-- Go `strings.Split(s, sep)` for a one-byte `sep`. -/
def split : GoString → Char → List GoString
  | [], _ => [[]]
  | x :: xs, c =>
    if x = c then [] :: split xs c
    else
      match split xs c with
      | p :: ps => (x :: p) :: ps
      | [] => [[x]]

/-- The request of `DELETE /_api/views/{name}`, by what `r.PathValue("name")`
returns and by `r.URL.Path`. -/
structure DeleteRequest where
  PathValue : GoString
  URLPath : GoString
  deriving DecidableEq, Repr

/-- Go `APIHandler.deleteView`. -/
def APIHandler.deleteView {σ : Type} (h : APIHandler σ) (r : DeleteRequest) (c : σ) :
    APIRun σ :=
  let name := r.PathValue
  let name :=
    if name = [] then
      let parts := split r.URLPath '/'
      if parts.length ≥ 4 then parts.getD 3 [] else name
    else name
  if name = [] then
    { response := { Status := StatusBadRequest, Body := .error "name is required".toList }
      calls := [], cluster := c }
  else
    let r1 := h.k8s.DeleteViewJob name c
    let r2 := h.k8s.DeleteViewService name r1.2
    { response := { Status := StatusOK, Body := .deleted name }
      calls := [.DeleteViewJob name, .DeleteViewService name]
      cluster := r2.2 }

/-! ## `viewstore.go` : the event handlers -/

/-- Go `discoveryv1.LabelServiceName`. -/
def LabelServiceName : GoString := "kubernetes.io/service-name".toList

/-- Map read `m[k]` of a `map[string]string` in the one-value form: the empty
string when `k` has no binding. -/
def mapGetD (m : List (GoString × GoString)) (k : GoString) : GoString :=
  (mapGet m k).getD []

/-- Map delete `delete(m, k)`. -/
def mapDelete {β : Type} (m : List (GoString × β)) (k : GoString) : List (GoString × β) :=
  m.filter (fun e => !decide (e.1 = k))

/-- The `interface{}` value an informer hands to a handler: a service, an endpoint
slice, a `cache.DeletedFinalStateUnknown` tombstone around such a value, or a
value of another type. -/
inductive InformerObject where
  | Service (svc : Service)
  | EndpointSlice (eps : EndpointSlice)
  | DeletedFinalStateUnknown (key : GoString) (obj : InformerObject)
  | Other
  deriving Repr

/-- Go `NewViewStore`: a store without views. -/
def NewViewStore : ViewStore := { views := [] }

/-- A run of a handler of the store: the store afterwards and the number of calls
to `onChange`. -/
structure StoreRun where
  store : ViewStore
  notifications : Nat
  deriving DecidableEq, Repr

/-- Go `ViewStore.onServiceEvent`. -/
def ViewStore.onServiceEvent (vs : ViewStore) (obj : InformerObject) : StoreRun :=
  match obj with
  | .Service svc =>
    let name := mapGetD svc.ObjectMeta.Labels labelViewName
    if name = [] then { store := vs, notifications := 0 }
    else
      let subset : Subset :=
        { Cluster := mapGetD svc.ObjectMeta.Annotations annoCluster
          Namespace := mapGetD svc.ObjectMeta.Annotations annoNamespace }
      match mapGet vs.views name with
      | none =>
        { store := { views := mapSet vs.views name
                      { Name := name, Subset := subset, Endpoints := [] } }
          notifications := 1 }
      | some existing =>
        { store := { views := mapSet vs.views name { existing with Subset := subset } }
          notifications := 1 }
  | _ => { store := vs, notifications := 0 }

/-- Go `ViewStore.onServiceDelete`. -/
def ViewStore.onServiceDelete (vs : ViewStore) (obj : InformerObject) : StoreRun :=
  let svc? : Option Service :=
    match obj with
    | .Service svc => some svc
    | .DeletedFinalStateUnknown _ (.Service svc) => some svc
    | _ => none
  match svc? with
  | none => { store := vs, notifications := 0 }
  | some svc =>
    let name := mapGetD svc.ObjectMeta.Labels labelViewName
    if name = [] then { store := vs, notifications := 0 }
    else { store := { views := mapDelete vs.views name }, notifications := 1 }

/-- Go `ViewStore.rebuildEndpoints`.  `client` and `ns` are the fields of the
store of those names, `c` is the cluster at the time of the listing. -/
def ViewStore.rebuildEndpoints {σ : Type} (client : KubeInterface σ) (ns : GoString)
    (vs : ViewStore) (viewName : GoString) (c : σ) : ViewStore :=
  match client.EndpointSlicesList ns
      (LabelServiceName ++ "=".toList ++ viewNamePrefix ++ viewName) c with
  | .error _ => vs
  | .ok items =>
    let endpoints : List ViewEndpoint :=
      items.foldl
        (fun endpoints eps =>
          let port : Int :=
            match eps.Ports with
            | p :: _ =>
              match p.Port with
              | some v => v
              | none => 8080
            | [] => 8080
          eps.Endpoints.foldl
            (fun endpoints ep =>
              let ready : Bool :=
                match ep.Conditions.Serving with
                | some b => b
                | none => false
              ep.Addresses.foldl
                (fun endpoints addr =>
                  endpoints ++ [{ Address := addr, Port := port, Ready := ready }])
                endpoints)
            endpoints)
        []
    match mapGet vs.views viewName with
    | some state => { views := mapSet vs.views viewName { state with Endpoints := endpoints } }
    | none => vs

/-- Go `ViewStore.onEndpointSliceEvent`. -/
def ViewStore.onEndpointSliceEvent {σ : Type} (client : KubeInterface σ) (ns : GoString)
    (vs : ViewStore) (obj : InformerObject) (c : σ) : StoreRun :=
  let svcName? : Option GoString :=
    match obj with
    | .EndpointSlice eps => some (mapGetD eps.ObjectMeta.Labels LabelServiceName)
    | .DeletedFinalStateUnknown _ (.EndpointSlice ep) =>
      some (mapGetD ep.ObjectMeta.Labels LabelServiceName)
    | .DeletedFinalStateUnknown _ _ => some []
    | _ => none
  match svcName? with
  | none => { store := vs, notifications := 0 }
  | some svcName =>
    if svcName = [] then { store := vs, notifications := 0 }
    else if !hasPrefix svcName viewNamePrefix then { store := vs, notifications := 0 }
    else
      let viewName := trimPrefix svcName viewNamePrefix
      if (mapGet vs.views viewName).isNone then { store := vs, notifications := 0 }
      else { store := vs.rebuildEndpoints client ns viewName c, notifications := 1 }

/-- What the store goes through: the four ways its data is written.  The events
that list endpoint slices carry the cluster at the time of the listing. -/
inductive StoreEvent (σ : Type) where
  | serviceEvent (obj : InformerObject)
  | serviceDelete (obj : InformerObject)
  | endpointSliceEvent (obj : InformerObject) (cluster : σ)
  | rebuildEndpoints (viewName : GoString) (cluster : σ)

/-- The store after one event. -/
def ViewStore.handle {σ : Type} (client : KubeInterface σ) (ns : GoString) (vs : ViewStore) :
    StoreEvent σ → ViewStore
  | .serviceEvent obj => (vs.onServiceEvent obj).store
  | .serviceDelete obj => (vs.onServiceDelete obj).store
  | .endpointSliceEvent obj c => (vs.onEndpointSliceEvent client ns obj c).store
  | .rebuildEndpoints viewName c => vs.rebuildEndpoints client ns viewName c

/-- The store after a sequence of events, from the empty store of `NewViewStore`. -/
def ViewStore.after {σ : Type} (client : KubeInterface σ) (ns : GoString)
    (events : List (StoreEvent σ)) : ViewStore :=
  events.foldl (ViewStore.handle client ns) NewViewStore

/-! ## Auxiliary definitions used to state the theorems -/

/-- A round of the cold-start loop that is a tick at which the view has no ready
endpoint. -/
def SelectEvent.isIdleTick (viewName : GoString) : SelectEvent → Bool
  | .tick store => decide ((store.ReadyEndpoints viewName).length = 0)
  | _ => false

/-- A cluster interface whose every call fails with `e`, as a fake clientset with
a reactor returning that error does. -/
def failingClientset (e : APIError) : KubeInterface FakeCluster where
  JobsCreate := fun _ _ c => (some e, c)
  JobsDelete := fun _ _ c => (some e, c)
  ServicesCreate := fun _ _ c => (some e, c)
  ServicesDelete := fun _ _ c => (some e, c)
  EndpointSlicesList := fun _ _ _ => .error e

/-- Go `newTestExtAuthz` of `extauthz_test.go`: base hostname `gateway.test` over an
in-memory cluster. -/
def newTestExtAuthz : ExtAuthzServer FakeCluster :=
  NewExtAuthzServer (NewK8sClient fakeClientset) "gateway.test".toList

/-- The store of `TestCheckReadyEndpoints`: view `test01` with one ready endpoint. -/
def readyStore : ViewStore :=
  { views := [("test01".toList,
      { Name := "test01".toList, Subset := { Cluster := "dev".toList, Namespace := [] },
        Endpoints := [{ Address := "10.0.0.1".toList, Port := 8080, Ready := true }] })] }

/-- The store of `TestCheckColdStartTimeout`: view `cold` without endpoints. -/
def coldStore : ViewStore :=
  { views := [("cold".toList,
      { Name := "cold".toList, Subset := { Cluster := "dev".toList, Namespace := [] },
        Endpoints := [] })] }

/-- The store `coldStore` after an endpoint of view `cold` became ready. -/
def warmStore : ViewStore :=
  { views := [("cold".toList,
      { Name := "cold".toList, Subset := { Cluster := "dev".toList, Namespace := [] },
        Endpoints := [{ Address := "10.0.0.2".toList, Port := 8080, Ready := true }] })] }

/-- A store with the views of `coldStore` and `readyStore`. -/
def mixedStore : ViewStore :=
  { views := coldStore.views ++ readyStore.views }

/-- Go `NewSnapshotManager("gateway.test", store)` of `xds_test.go`, over `mixedStore`. -/
def mixedManager : SnapshotManager :=
  NewSnapshotManager "gateway.test".toList (some mixedStore)

/-- The cluster names the routes of a route configuration send traffic to. -/
def RouteConfiguration.clusterReferences (rc : RouteConfiguration) : List GoString :=
  rc.VirtualHosts.flatMap (fun vh => vh.Routes.filterMap (fun r =>
    match r.Action with
    | .Route action => some action.Cluster
    | .DirectResponse _ => none))

/-- A snapshot library whose `NewSnapshot` fails with `e`. -/
def failingNewSnapshot (e : GoString) : SnapshotLibrary (List (GoString × Snapshot)) :=
  { snapshotCache with NewSnapshot := fun _ _ => .error e }

/-- A snapshot library whose consistency check fails with `e`. -/
def failingConsistent (e : GoString) : SnapshotLibrary (List (GoString × Snapshot)) :=
  { snapshotCache with Consistent := fun _ => some e }

/-- A snapshot cache that stores the snapshot under the node and then reports `e`,
as a cache does that fails to answer an open watch after the update. -/
def watchFailingCache (e : GoString) : SnapshotLibrary (List (GoString × Snapshot)) :=
  { snapshotCache with
    SetSnapshot := fun node snapshot cache => (some e, mapSet cache node snapshot) }

/-- Go `newTestStore` of `xds_test.go`: a store without views. -/
def newTestStore : ViewStore := { views := [] }

/-- The route `abc` with subset cluster `dev` of the unit tests and scenarios. -/
def abcRoute : Route :=
  { Name := "abc".toList, Subset := { Cluster := "dev".toList, Namespace := [] } }

/-- The store after the informer saw the service of view `abc`. -/
def abcStore : ViewStore :=
  { views := [("abc".toList,
      { Name := "abc".toList, Subset := { Cluster := "dev".toList, Namespace := [] },
        Endpoints := [] })] }

/-- A store whose view `dup` lists the same ready endpoint twice, as two endpoint
slices naming one address give it. -/
def dupStore : ViewStore :=
  { views := [("dup".toList,
      { Name := "dup".toList, Subset := { Cluster := "dev".toList, Namespace := [] },
        Endpoints := [{ Address := "10.0.0.1".toList, Port := 8080, Ready := true },
                      { Address := "10.0.0.1".toList, Port := 8080, Ready := true }] })] }

/-- The `endpoint.LbEndpoint` that `buildEndpoints` makes of an endpoint of a view:
its address, and its port converted to `uint32`. -/
def ViewEndpoint.toLbEndpoint (ep : ViewEndpoint) : LbEndpoint :=
  { SocketAddress := { Address := ep.Address, PortValue := uint32 ep.Port } }

/-- The state of view `test01` in `readyStore` and `mixedStore`. -/
def test01View : ViewState :=
  { Name := "test01".toList, Subset := { Cluster := "dev".toList, Namespace := [] },
    Endpoints := [{ Address := "10.0.0.1".toList, Port := 8080, Ready := true }] }

/-- Internal consistency of the resources of one snapshot: every cluster a route
refers to is among the clusters, every EDS cluster has an endpoint assignment of
its name, and every endpoint assignment has a cluster of its name. -/
def SnapshotResources.InternallyConsistent (r : SnapshotResources) : Prop :=
  (∀ rc ∈ r.Routes, ∀ n ∈ rc.clusterReferences, ∃ c ∈ r.Clusters, c.Name = n) ∧
    (∀ c ∈ r.Clusters, c.ClusterDiscoveryType = .EDS →
      ∃ a ∈ r.Endpoints, a.ClusterName = c.Name) ∧
    (∀ a ∈ r.Endpoints, ∃ c ∈ r.Clusters, c.Name = a.ClusterName)

/-- Adding a key to the keys of a map: nothing changes when it is present. -/
def insertKey (ks : List GoString) (k : GoString) : List GoString :=
  if k ∈ ks then ks else ks ++ [k]

/-- Value of a string of decimal digits. -/
def decimalValue (l : List Char) : Nat :=
  l.foldl (fun acc c => acc * 10 + (c.toNat - 48)) 0

/-- The resources that `pushSnapshot` builds and hands to `NewSnapshot`. -/
def SnapshotManager.snapshotResources (sm : SnapshotManager) : SnapshotResources :=
  let views : List ViewState :=
    match sm.store with
    | some store => store.ListViews
    | none => []
  { Listeners := [sm.buildListener], Routes := [sm.buildRouteConfig views]
    Clusters := sm.buildClusters views, Endpoints := sm.buildEndpoints views }

/-- The cache after `Initialize` on a fresh manager over `newTestStore`: version
`1` is published for node `gateway`. -/
def initializedCache : List (GoString × Snapshot) :=
  ((NewSnapshotManager "gateway.test".toList (some newTestStore)).Initialize snapshotCache []).cache

/-- The manager after that `Initialize`, now reading `abcStore`. -/
def initializedManager : SnapshotManager :=
  { ((NewSnapshotManager "gateway.test".toList (some newTestStore)).Initialize
      snapshotCache []).sm with store := some abcStore }

/-- The in-memory cluster holding the service of view `abc`. -/
def abcCluster : FakeCluster :=
  { emptyCluster with services := [viewService viewNamespace abcRoute.Name abcRoute.Subset] }

/-- The admin API of the unit tests: a handler over the in-memory cluster. -/
def testAPIHandler : APIHandler FakeCluster :=
  NewAPIHandler (NewK8sClient fakeClientset)

/-- The endpoints that a listing of endpoint slices stands for: one entry per
address of every endpoint of every slice, with the first port of the slice, or
8080 when there is none or it is unset, ready when the endpoint is serving. -/
def listedEndpoints (items : List EndpointSlice) : List ViewEndpoint :=
  items.flatMap (fun eps =>
    eps.Endpoints.flatMap (fun ep =>
      ep.Addresses.map (fun addr =>
        { Address := addr
          Port := (eps.Ports.head?.bind (fun p => p.Port)).getD 8080
          Ready := decide (ep.Conditions.Serving = some true) })))

/-- The label selector of the endpoint slices of a view. -/
def sliceSelector (viewName : GoString) : GoString :=
  "kubernetes.io/service-name=view-".toList ++ viewName

/-- The service of view `test01` with subset `dev/logs`, as `CreateViewService`
submits it. -/
def test01Service : Service :=
  viewService viewNamespace "test01".toList ⟨"dev".toList, "logs".toList⟩

/-- The service of view `test01` after its subset has become `prod`. -/
def test01ServiceProd : Service :=
  viewService viewNamespace "test01".toList ⟨"prod".toList, []⟩

/-- A service of the namespace without the view-name label. -/
def unlabelledService : Service :=
  { ObjectMeta :=
      { Name := "other".toList, Namespace := viewNamespace
        Labels := [("app".toList, labelApp)], Annotations := [(annoCluster, "dev".toList)] }
    Spec := { ClusterIP := "None".toList, PublishNotReadyAddresses := false
              Selector := [], Ports := [] } }

/-- Metadata of an endpoint slice of the service `svc`. -/
def sliceMeta (name svc : GoString) : ObjectMeta :=
  { Name := name, Namespace := viewNamespace
    Labels := [(LabelServiceName, svc)], Annotations := [] }

/-- Three endpoint slices of the service of view `test01`: one with two ports and
two endpoints, one without ports, one whose first port is unset. -/
def test01Slices : List EndpointSlice :=
  [ { ObjectMeta := sliceMeta "view-test01-a".toList "view-test01".toList
      Ports := [⟨some 9000⟩, ⟨some 1⟩]
      Endpoints :=
        [ { Addresses := ["10.0.0.1".toList, "10.0.0.2".toList]
            Conditions := { Ready := some false, Serving := some true } },
          { Addresses := ["10.0.0.3".toList]
            Conditions := { Ready := some true, Serving := none } } ] },
    { ObjectMeta := sliceMeta "view-test01-b".toList "view-test01".toList
      Ports := []
      Endpoints :=
        [ { Addresses := ["10.0.0.4".toList]
            Conditions := { Ready := some true, Serving := some false } } ] },
    { ObjectMeta := sliceMeta "view-test01-c".toList "view-test01".toList
      Ports := [⟨none⟩, ⟨some 2⟩]
      Endpoints :=
        [ { Addresses := ["10.0.0.5".toList]
            Conditions := { Ready := none, Serving := some true } } ] } ]

/-- An endpoint slice of the service of another view. -/
def otherSlice : EndpointSlice :=
  { ObjectMeta := sliceMeta "view-other-a".toList "view-other".toList
    Ports := [⟨some 8080⟩]
    Endpoints :=
      [ { Addresses := ["10.0.1.1".toList]
          Conditions := { Ready := some true, Serving := some true } } ] }

/-- A cluster with the service of view `test01` and the endpoint slices above. -/
def sliceCluster : FakeCluster :=
  { jobs := [], services := [test01Service], slices := otherSlice :: test01Slices }

/-- A store with the views `test01`, with one endpoint that is not ready, and
`other`. -/
def twoViewStore : ViewStore :=
  { views :=
      [ ("test01".toList,
          { Name := "test01".toList, Subset := ⟨"dev".toList, "logs".toList⟩
            Endpoints := [{ Address := "10.0.0.9".toList, Port := 8080, Ready := false }] }),
        ("other".toList,
          { Name := "other".toList, Subset := ⟨"prod".toList, []⟩
            Endpoints := [{ Address := "10.0.1.1".toList, Port := 8080, Ready := true }] }) ] }

/-- The keys of the store are distinct and not empty, and the state under a key
has the key as its name. -/
def ViewStore.WellKeyed (vs : ViewStore) : Prop :=
  (vs.views.map (·.1)).Nodup ∧ ∀ e ∈ vs.views, e.1 ≠ [] ∧ e.2.Name = e.1

instance ViewStore.decidableWellKeyed (vs : ViewStore) : Decidable vs.WellKeyed := by
  unfold ViewStore.WellKeyed
  infer_instance

/-- A life of view `test01` on the cluster `sliceCluster`: its service is added,
an endpoint slice of it is seen, its service is updated to subset `prod`, a slice
of a service that is not of a view and a service without the label are seen, the
endpoints are rebuilt. -/
def test01Events : List (StoreEvent FakeCluster) :=
  [ .serviceEvent (.Service test01Service),
    .endpointSliceEvent (.EndpointSlice otherSlice) sliceCluster,
    .endpointSliceEvent (.EndpointSlice
      { ObjectMeta := sliceMeta "view-test01-d".toList "view-test01".toList
        Ports := [], Endpoints := [] }) emptyCluster,
    .serviceEvent (.Service test01ServiceProd),
    .endpointSliceEvent (.EndpointSlice
      { ObjectMeta := sliceMeta "kubernetes".toList "kubernetes".toList
        Ports := [], Endpoints := [] }) sliceCluster,
    .serviceEvent (.Service unlabelledService),
    .serviceDelete (.Service unlabelledService),
    .rebuildEndpoints "test01".toList sliceCluster ]

/-! ## Lemmas on the string functions -/

theorem lastIndexByte_eq_none {s : GoString} {c : Char} :
    lastIndexByte s c = none ↔ c ∉ s := by
  induction s with
  | nil => simp [lastIndexByte]
  | cons x xs ih =>
    simp only [lastIndexByte]
    cases h : lastIndexByte xs c with
    | some i =>
      have : ¬ (c ∉ xs) := fun hc => by simp [ih.mpr hc] at h
      simp; tauto
    | none =>
      have hc := ih.mp h
      by_cases hx : x = c
      · simp [hx]
      · simp [hx, hc]; exact fun h => hx h.symm

theorem lastIndexByte_append {c : Char} (x p : GoString) (hp : c ∉ p) :
    lastIndexByte (x ++ c :: p) c = some x.length := by
  induction x with
  | nil => simp [lastIndexByte, lastIndexByte_eq_none.mpr hp]
  | cons y ys ih => simp [lastIndexByte, ih]

theorem indexByte_eq_none {s : GoString} {c : Char} :
    indexByte s c = none ↔ c ∉ s := by
  induction s with
  | nil => simp [indexByte]
  | cons x xs ih =>
    by_cases hx : x = c
    · simp [indexByte, hx]
    · have hx2 : ¬ c = x := fun h => hx h.symm
      simp [indexByte, hx, hx2, ih]

theorem indexByte_eq_some {s : GoString} {c : Char} {i : Nat} (h : indexByte s c = some i) :
    s.take i = s.takeWhile (fun x => decide (x ≠ c)) := by
  induction s generalizing i with
  | nil => simp [indexByte] at h
  | cons x xs ih =>
    by_cases hx : x = c
    · simp [indexByte, hx] at h
      simp [← h, hx]
    · simp only [indexByte, hx, if_false, Option.map_eq_some'] at h
      obtain ⟨j, hj, rfl⟩ := h
      simp [List.takeWhile, hx, ih hj]

theorem hasSuffix_iff {s suffix : GoString} :
    hasSuffix s suffix = true ↔ ∃ p, s = p ++ suffix := by
  simp only [hasSuffix, Bool.and_eq_true, decide_eq_true_eq]
  constructor
  · rintro ⟨_, h⟩
    exact ⟨s.take (s.length - suffix.length), by
      conv_lhs => rw [← List.take_append_drop (s.length - suffix.length) s]
      rw [h]⟩
  · rintro ⟨p, rfl⟩
    simp

theorem trimSuffix_append (p suffix : GoString) : trimSuffix (p ++ suffix) suffix = p := by
  have : hasSuffix (p ++ suffix) suffix = true := hasSuffix_iff.mpr ⟨p, rfl⟩
  simp [trimSuffix, this]


theorem stripPort_of_not_mem {h : GoString} (hc : ':' ∉ h) : stripPort h = h := by
  simp [stripPort, lastIndexByte_eq_none.mpr hc]

theorem stripPort_append (h p : GoString) (hp : ':' ∉ p) : stripPort (h ++ ':' :: p) = h := by
  simp [stripPort, lastIndexByte_append h p hp]

theorem contains_eq_false {s : GoString} {c : Char} : contains s c = false ↔ c ∉ s := by
  simp [contains, ← indexByte_eq_none]

theorem not_mem_takeWhile_ne (s : GoString) (c : Char) :
    c ∉ s.takeWhile (fun x => decide (x ≠ c)) := by
  intro h
  have := List.mem_takeWhile_imp h
  simp at this

/-- With a dot in `s`, `SplitN(s, ".", 2)` has two parts and the first is the text
before the first dot. -/
theorem splitN2_of_mem {s : GoString} {c : Char} (h : c ∈ s) :
    ∃ rest, splitN2 s c = [s.takeWhile (fun x => decide (x ≠ c)), rest] := by
  cases hi : indexByte s c with
  | none => exact absurd h (indexByte_eq_none.mp hi)
  | some i => exact ⟨s.drop (i + 1), by simp [splitN2, hi, indexByte_eq_some hi]⟩

theorem splitN2_of_not_mem {s : GoString} {c : Char} (h : c ∉ s) : splitN2 s c = [s] := by
  simp [splitN2, indexByte_eq_none.mpr h]

/-! ## View-name extraction -/

/-- The steps of `parseViewName` after the port is stripped, for a host of the
form `x.b`. -/
theorem parseViewName_of_stripPort_eq_append {b host x : GoString}
    (h : stripPort host = x ++ '.' :: b) : parseViewName b host = x := by
  have hne : x ++ '.' :: b ≠ b := by
    intro he
    have := congrArg List.length he
    simp at this
    omega
  have hs : hasSuffix (x ++ '.' :: b) ('.' :: b) = true := hasSuffix_iff.mpr ⟨x, rfl⟩
  simp only [parseViewName, h, hne, if_false, hs, if_true]
  exact trimSuffix_append x ('.' :: b)

/-- Claim C1: for x, b and p without a colon, `parseViewName` with base hostname b
returns x for the host `x.b` and for the host `x.b:p`. -/
theorem parseViewName_subdomain (x b p : GoString)
    (hx : ':' ∉ x) (hb : ':' ∉ b) (hp : ':' ∉ p) :
    parseViewName b (x ++ '.' :: b) = x ∧
      parseViewName b (x ++ '.' :: b ++ ':' :: p) = x := by
  have hxb : ':' ∉ x ++ '.' :: b := by
    simp only [List.mem_append, List.mem_cons, not_or]
    exact ⟨hx, by decide, hb⟩
  exact ⟨parseViewName_of_stripPort_eq_append (stripPort_of_not_mem hxb),
    parseViewName_of_stripPort_eq_append (stripPort_append _ p hp)⟩

theorem parseViewName_subdomain_witness :
    (':' ∉ "test01".toList ∧ ':' ∉ "gateway.test".toList ∧ ':' ∉ "8080".toList) ∧
      parseViewName "gateway.test".toList ("test01".toList ++ '.' :: "gateway.test".toList)
        = "test01".toList ∧
      parseViewName "gateway.test".toList
        ("test01".toList ++ '.' :: "gateway.test".toList ++ ':' :: "8080".toList)
        = "test01".toList :=
  ⟨by decide,
    parseViewName_subdomain "test01".toList "gateway.test".toList "8080".toList
      (by decide) (by decide) (by decide)⟩

/-- Claim C3: a host that, with its port stripped, has a dot, is not the base
hostname and does not end with `.` followed by the base hostname, yields the text
before its first dot; the first part of the split never contains a dot. -/
theorem parseViewName_first_label (b host : GoString)
    (hdot : '.' ∈ stripPort host) (hne : stripPort host ≠ b)
    (hsuf : ¬ ('.' :: b) <:+ stripPort host) :
    parseViewName b host = (stripPort host).takeWhile (fun x => decide (x ≠ '.')) ∧
      ∀ p0 rest, splitN2 (stripPort host) '.' = [p0, rest] → contains p0 '.' = false := by
  obtain ⟨rest, hsplit⟩ := splitN2_of_mem hdot
  have hguard : contains ((stripPort host).takeWhile (fun x => decide (x ≠ '.'))) '.' = false :=
    contains_eq_false.mpr (not_mem_takeWhile_ne _ _)
  have hs : hasSuffix (stripPort host) ('.' :: b) = false := by
    cases hh : hasSuffix (stripPort host) ('.' :: b) with
    | false => rfl
    | true =>
      obtain ⟨p, hp⟩ := hasSuffix_iff.mp hh
      exact absurd ⟨p, hp.symm⟩ hsuf
  refine ⟨?_, ?_⟩
  · simp only [parseViewName, hne, if_false, hs, hsplit, hguard]
    simp
  · intro p0 rest2 h2
    rw [hsplit] at h2
    simp only [List.cons.injEq, and_true] at h2
    rw [← h2.1]
    exact hguard

theorem parseViewName_first_label_witness :
    ('.' ∈ stripPort "a.b.c:80".toList ∧ stripPort "a.b.c:80".toList ≠ "gateway.test".toList ∧
      ¬ ('.' :: "gateway.test".toList) <:+ stripPort "a.b.c:80".toList) ∧
    (parseViewName "gateway.test".toList "a.b.c:80".toList
        = (stripPort "a.b.c:80".toList).takeWhile (fun x => decide (x ≠ '.')) ∧
      ∀ p0 rest, splitN2 (stripPort "a.b.c:80".toList) '.' = [p0, rest] →
        contains p0 '.' = false) :=
  ⟨by decide,
    parseViewName_first_label "gateway.test".toList "a.b.c:80".toList
      (by decide) (by decide) (by decide)⟩

/-- A host without a dot after its port is stripped has an empty view name. -/
theorem parseViewName_of_no_dot (b host : GoString) (h : '.' ∉ stripPort host) :
    parseViewName b host = [] := by
  have hs : hasSuffix (stripPort host) ('.' :: b) = false := by
    cases hh : hasSuffix (stripPort host) ('.' :: b) with
    | false => rfl
    | true =>
      obtain ⟨p, hp⟩ := hasSuffix_iff.mp hh
      exact absurd (by rw [hp]; simp) h
  simp only [parseViewName, hs, splitN2_of_not_mem h]
  split <;> simp

/-! ## The authorization check -/

theorem mapGet_eq_none_iff {β : Type} (m : List (GoString × β)) (k : GoString) :
    mapGet m k = none ↔ k ∉ m.map (·.1) := by
  simp only [mapGet, Option.map_eq_none', List.find?_eq_none, decide_eq_true_eq, List.mem_map,
    not_exists, not_and]

/-- An empty view name is answered at once, whatever the store and the cluster. -/
theorem Check_of_parseViewName_nil {σ : Type} (s : ExtAuthzServer σ) (store : ViewStore)
    (schedule : List SelectEvent) (req : CheckRequest) (c : σ)
    (h : parseViewName s.baseHostname req.Host = []) :
    s.Check store schedule req c = { response := some okResponse, effects := [], cluster := c } := by
  simp [ExtAuthzServer.Check, h]

/-- Claim C2, as the code has it: when the base hostname has no colon, a request
whose host is the base hostname has an empty view name and is allowed with no
read of the store and no call to the orchestrator. -/
theorem Check_base_hostname {σ : Type} (s : ExtAuthzServer σ) (store : ViewStore)
    (schedule : List SelectEvent) (req : CheckRequest) (c : σ)
    (hb : ':' ∉ s.baseHostname) (hreq : req.Host = s.baseHostname) :
    parseViewName s.baseHostname req.Host = [] ∧
      (s.Check store schedule req c).response = some okResponse ∧
      okResponse.Status = codes.OK ∧
      (s.Check store schedule req c).effects = [] ∧
      (s.Check store schedule req c).cluster = c := by
  have hp : parseViewName s.baseHostname req.Host = [] := by
    simp [parseViewName, hreq, stripPort_of_not_mem hb]
  rw [Check_of_parseViewName_nil s store schedule req c hp]
  exact ⟨hp, rfl, rfl, rfl, rfl⟩

theorem Check_base_hostname_witness :
    (':' ∉ newTestExtAuthz.baseHostname ∧
      (CheckRequest.mk "gateway.test".toList).Host
        = newTestExtAuthz.baseHostname) ∧
    (parseViewName newTestExtAuthz.baseHostname
        (CheckRequest.mk "gateway.test".toList).Host = [] ∧
      (newTestExtAuthz.Check
        ⟨[]⟩ [] ⟨"gateway.test".toList⟩ emptyCluster).response = some okResponse ∧
      okResponse.Status = codes.OK ∧
      (newTestExtAuthz.Check
        ⟨[]⟩ [] ⟨"gateway.test".toList⟩ emptyCluster).effects = [] ∧
      (newTestExtAuthz.Check
        ⟨[]⟩ [] ⟨"gateway.test".toList⟩ emptyCluster).cluster = emptyCluster) :=
  ⟨by decide,
    Check_base_hostname newTestExtAuthz
      ⟨[]⟩ [] ⟨"gateway.test".toList⟩ emptyCluster (by decide) (by decide)⟩

/-- Claim C2 fails as stated: with base hostname `gateway.test:8080` and an empty
store, the request host `gateway.test:8080` equals the base hostname, yet the
derived view name is `gateway` and the answer is the 404 denial. -/
theorem Check_base_hostname_with_colon :
    (CheckRequest.mk "gateway.test:8080".toList).Host
        = (NewExtAuthzServer (NewK8sClient fakeClientset) "gateway.test:8080".toList).baseHostname ∧
    parseViewName "gateway.test:8080".toList "gateway.test:8080".toList = "gateway".toList ∧
    ((NewExtAuthzServer (NewK8sClient fakeClientset) "gateway.test:8080".toList).Check
        ⟨[]⟩ [] ⟨"gateway.test:8080".toList⟩ emptyCluster).response
      = some (deniedResponse codes.NotFound 404 "view not found".toList) ∧
    ((NewExtAuthzServer (NewK8sClient fakeClientset) "gateway.test:8080".toList).Check
        ⟨[]⟩ [] ⟨"gateway.test:8080".toList⟩ emptyCluster).response ≠ some okResponse := by
  decide

/-- Claim C4: a host without a dot after its port is stripped has an empty view
name, and the check allows it whatever the store holds. -/
theorem Check_no_dot {σ : Type} (s : ExtAuthzServer σ) (store : ViewStore)
    (schedule : List SelectEvent) (req : CheckRequest) (c : σ)
    (h : '.' ∉ stripPort req.Host) :
    parseViewName s.baseHostname req.Host = [] ∧
      (s.Check store schedule req c).response = some okResponse ∧
      okResponse.Status = codes.OK := by
  have hp := parseViewName_of_no_dot s.baseHostname req.Host h
  rw [Check_of_parseViewName_nil s store schedule req c hp]
  exact ⟨hp, rfl, rfl⟩

theorem Check_no_dot_witness :
    '.' ∉ stripPort (CheckRequest.mk "test01:8080".toList).Host ∧
    (parseViewName newTestExtAuthz.baseHostname
        (CheckRequest.mk "test01:8080".toList).Host = [] ∧
      (newTestExtAuthz.Check
        ⟨[("test01".toList, ⟨"test01".toList, ⟨"dev".toList, []⟩, []⟩)]⟩ []
        ⟨"test01:8080".toList⟩ emptyCluster).response = some okResponse ∧
      okResponse.Status = codes.OK) :=
  ⟨by decide,
    Check_no_dot newTestExtAuthz
      ⟨[("test01".toList, ⟨"test01".toList, ⟨"dev".toList, []⟩, []⟩)]⟩ []
      ⟨"test01:8080".toList⟩ emptyCluster (by decide)⟩

/-- Claim C5: a request whose view name is not empty and not a key of the store is
denied with gRPC status NotFound, HTTP status 404 and body `view not found`; the
only effect is the store lookup and the cluster is untouched. -/
theorem Check_unknown_view {σ : Type} (s : ExtAuthzServer σ) (store : ViewStore)
    (schedule : List SelectEvent) (req : CheckRequest) (c : σ)
    (hname : parseViewName s.baseHostname req.Host ≠ [])
    (hkey : parseViewName s.baseHostname req.Host ∉ store.views.map (·.1)) :
    (s.Check store schedule req c).response
        = some { Status := codes.NotFound
                 DeniedResponse := some { Status := 404, Body := "view not found".toList } } ∧
      codes.NotFound ≠ codes.OK ∧
      (s.Check store schedule req c).effects
        = [.GetView (parseViewName s.baseHostname req.Host)] ∧
      (s.Check store schedule req c).cluster = c := by
  have hget : store.GetView (parseViewName s.baseHostname req.Host) = none :=
    (mapGet_eq_none_iff _ _).mpr hkey
  have hrun : s.Check store schedule req c
      = { response := some (deniedResponse codes.NotFound 404 "view not found".toList)
          effects := [.GetView (parseViewName s.baseHostname req.Host)]
          cluster := c } := by
    simp only [ExtAuthzServer.Check, hname, if_false, hget]
  rw [hrun]
  exact ⟨rfl, by decide, rfl, rfl⟩

theorem Check_unknown_view_witness :
    (parseViewName newTestExtAuthz.baseHostname
        (CheckRequest.mk "test01.gateway.test".toList).Host ≠ [] ∧
      parseViewName newTestExtAuthz.baseHostname
        (CheckRequest.mk "test01.gateway.test".toList).Host ∉ (ViewStore.mk []).views.map (·.1)) ∧
    ((newTestExtAuthz.Check
        ⟨[]⟩ [] ⟨"test01.gateway.test".toList⟩ emptyCluster).response
        = some { Status := codes.NotFound
                 DeniedResponse := some { Status := 404, Body := "view not found".toList } } ∧
      codes.NotFound ≠ codes.OK ∧
      (newTestExtAuthz.Check
        ⟨[]⟩ [] ⟨"test01.gateway.test".toList⟩ emptyCluster).effects
        = [.GetView (parseViewName
            newTestExtAuthz.baseHostname
            (CheckRequest.mk "test01.gateway.test".toList).Host)] ∧
      (newTestExtAuthz.Check
        ⟨[]⟩ [] ⟨"test01.gateway.test".toList⟩ emptyCluster).cluster = emptyCluster) :=
  ⟨by decide,
    Check_unknown_view newTestExtAuthz
      ⟨[]⟩ [] ⟨"test01.gateway.test".toList⟩ emptyCluster (by decide) (by decide)⟩

theorem ReadyEndpoints_of_GetView {store : ViewStore} {name : GoString} {view : ViewState}
    (h : store.GetView name = some view) :
    store.ReadyEndpoints name = view.Endpoints.filter (fun ep => ep.Ready) := by
  simp only [ViewStore.GetView] at h
  simp [ViewStore.ReadyEndpoints, h]

/-- Claim C6: a request whose view is in the store with an endpoint marked ready is
allowed at once: no workload is created, no round of the wait loop is run, the
cluster is untouched. -/
theorem Check_ready_view {σ : Type} (s : ExtAuthzServer σ) (store : ViewStore)
    (schedule : List SelectEvent) (req : CheckRequest) (c : σ) (view : ViewState)
    (hview : store.GetView (parseViewName s.baseHostname req.Host) = some view)
    (hready : ∃ ep ∈ view.Endpoints, ep.Ready = true) :
    (s.Check store schedule req c).response = some okResponse ∧
      okResponse.Status = codes.OK ∧
      (∀ n sub, Effect.CreateViewJob n sub ∉ (s.Check store schedule req c).effects) ∧
      (∀ k, Effect.Select k ∉ (s.Check store schedule req c).effects) ∧
      (s.Check store schedule req c).cluster = c := by
  by_cases hname : parseViewName s.baseHostname req.Host = []
  · rw [Check_of_parseViewName_nil s store schedule req c hname]
    simp [okResponse]
  · have hlen : 0 < (store.ReadyEndpoints (parseViewName s.baseHostname req.Host)).length := by
      rw [ReadyEndpoints_of_GetView hview]
      obtain ⟨ep, hep, hr⟩ := hready
      exact List.length_pos_of_mem (List.mem_filter.mpr ⟨hep, hr⟩)
    have hrun : s.Check store schedule req c
        = { response := some okResponse
            effects := [.GetView (parseViewName s.baseHostname req.Host),
              .ReadyEndpoints (parseViewName s.baseHostname req.Host)]
            cluster := c } := by
      simp only [ExtAuthzServer.Check, hname, if_false, hview]
      simp [hlen]
    rw [hrun]
    simp [okResponse]

theorem Check_ready_view_witness :
    (readyStore.GetView (parseViewName newTestExtAuthz.baseHostname
          (CheckRequest.mk "test01.gateway.test".toList).Host)
        = some ⟨"test01".toList, ⟨"dev".toList, []⟩, [⟨"10.0.0.1".toList, 8080, true⟩]⟩ ∧
      ∃ ep ∈ (ViewState.mk "test01".toList ⟨"dev".toList, []⟩
          [⟨"10.0.0.1".toList, 8080, true⟩]).Endpoints, ep.Ready = true) ∧
    ((newTestExtAuthz.Check readyStore [.ctxDone] ⟨"test01.gateway.test".toList⟩
        emptyCluster).response = some okResponse ∧
      okResponse.Status = codes.OK ∧
      (∀ n sub, Effect.CreateViewJob n sub ∉ (newTestExtAuthz.Check readyStore [.ctxDone]
        ⟨"test01.gateway.test".toList⟩ emptyCluster).effects) ∧
      (∀ k, Effect.Select k ∉ (newTestExtAuthz.Check readyStore [.ctxDone]
        ⟨"test01.gateway.test".toList⟩ emptyCluster).effects) ∧
      (newTestExtAuthz.Check readyStore [.ctxDone] ⟨"test01.gateway.test".toList⟩
        emptyCluster).cluster = emptyCluster) :=
  ⟨⟨by decide, ⟨"10.0.0.1".toList, 8080, true⟩, by decide, rfl⟩,
    Check_ready_view newTestExtAuthz readyStore [.ctxDone]
      ⟨"test01.gateway.test".toList⟩ emptyCluster
      ⟨"test01".toList, ⟨"dev".toList, []⟩, [⟨"10.0.0.1".toList, 8080, true⟩]⟩
      (by decide) ⟨⟨"10.0.0.1".toList, 8080, true⟩, by decide, rfl⟩⟩

/-- Idle ticks at the head of the schedule do not decide the loop. -/
theorem coldStartLoop_idle_append (viewName : GoString) (pre rest : List SelectEvent)
    (hpre : ∀ e ∈ pre, e.isIdleTick viewName = true) :
    (coldStartLoop viewName (pre ++ rest)).1 = (coldStartLoop viewName rest).1 := by
  induction pre with
  | nil => rfl
  | cons e es ih =>
    have he := hpre e (List.mem_cons_self _ _)
    have hes : ∀ x ∈ es, x.isIdleTick viewName = true :=
      fun x hx => hpre x (List.mem_cons_of_mem _ hx)
    cases e with
    | ctxDone => simp [SelectEvent.isIdleTick] at he
    | deadline => simp [SelectEvent.isIdleTick] at he
    | tick store =>
      simp only [SelectEvent.isIdleTick, decide_eq_true_eq] at he
      simp only [List.cons_append, coldStartLoop, he]
      simpa using ih hes

/-- A schedule of idle ticks only leaves the loop blocked. -/
theorem coldStartLoop_idle (viewName : GoString) (pre : List SelectEvent)
    (hpre : ∀ e ∈ pre, e.isIdleTick viewName = true) :
    (coldStartLoop viewName pre).1 = none := by
  have := coldStartLoop_idle_append viewName pre [] hpre
  simpa [coldStartLoop] using this

/-- The run of `Check` on the cold-start path once the workload call succeeded. -/
theorem Check_cold_start {σ : Type} (s : ExtAuthzServer σ) (store : ViewStore)
    (schedule : List SelectEvent) (req : CheckRequest) (c c1 : σ) (view : ViewState)
    (hname : parseViewName s.baseHostname req.Host ≠ [])
    (hview : store.GetView (parseViewName s.baseHostname req.Host) = some view)
    (hcold : (store.ReadyEndpoints (parseViewName s.baseHostname req.Host)).length = 0)
    (hjob : s.k8s.CreateViewJob (parseViewName s.baseHostname req.Host) view.Subset c
      = (none, c1)) :
    s.Check store schedule req c
      = { response := (coldStartLoop (parseViewName s.baseHostname req.Host) schedule).1
          effects := [.GetView (parseViewName s.baseHostname req.Host),
              .ReadyEndpoints (parseViewName s.baseHostname req.Host),
              .CreateViewJob (parseViewName s.baseHostname req.Host) view.Subset]
            ++ (coldStartLoop (parseViewName s.baseHostname req.Host) schedule).2
          cluster := c1 } := by
  simp only [ExtAuthzServer.Check, hname, if_false, hview, hcold, hjob]
  simp

/-- The run of `Check` on the cold-start path when the workload call failed. -/
theorem Check_cold_start_failed {σ : Type} (s : ExtAuthzServer σ) (store : ViewStore)
    (schedule : List SelectEvent) (req : CheckRequest) (c c1 : σ) (view : ViewState)
    (err : WrappedError)
    (hname : parseViewName s.baseHostname req.Host ≠ [])
    (hview : store.GetView (parseViewName s.baseHostname req.Host) = some view)
    (hcold : (store.ReadyEndpoints (parseViewName s.baseHostname req.Host)).length = 0)
    (hjob : s.k8s.CreateViewJob (parseViewName s.baseHostname req.Host) view.Subset c
      = (some err, c1)) :
    s.Check store schedule req c
      = { response := some (deniedResponse codes.Internal 503 "failed to create workload".toList)
          effects := [.GetView (parseViewName s.baseHostname req.Host),
              .ReadyEndpoints (parseViewName s.baseHostname req.Host),
              .CreateViewJob (parseViewName s.baseHostname req.Host) view.Subset]
          cluster := c1 } := by
  simp only [ExtAuthzServer.Check, hname, if_false, hview, hcold, hjob]
  simp

/-- Claim C7: in a cold start (view present, no ready endpoint, workload call
succeeded) the response is that of the first round of the wait loop that is not an
idle tick: a tick with a ready endpoint allows, the deadline denies with 503
`workload not ready`, a done context denies with 504 `request cancelled`; idle
ticks alone give no response yet.  A context cancelled before the call makes the
first round the done context, and the status is then not OK. -/
theorem Check_cold_start_outcome {σ : Type} (s : ExtAuthzServer σ) (store : ViewStore)
    (req : CheckRequest) (c c1 : σ) (view : ViewState)
    (pre rest : List SelectEvent) (st : ViewStore)
    (hname : parseViewName s.baseHostname req.Host ≠ [])
    (hview : store.GetView (parseViewName s.baseHostname req.Host) = some view)
    (hcold : (store.ReadyEndpoints (parseViewName s.baseHostname req.Host)).length = 0)
    (hjob : s.k8s.CreateViewJob (parseViewName s.baseHostname req.Host) view.Subset c
      = (none, c1))
    (hpre : ∀ e ∈ pre, e.isIdleTick (parseViewName s.baseHostname req.Host) = true)
    (hst : 0 < (st.ReadyEndpoints (parseViewName s.baseHostname req.Host)).length) :
    (s.Check store (pre ++ .tick st :: rest) req c).response = some okResponse ∧
      (s.Check store (pre ++ .deadline :: rest) req c).response
        = some { Status := codes.DeadlineExceeded
                 DeniedResponse := some { Status := 503, Body := "workload not ready".toList } } ∧
      (s.Check store (pre ++ .ctxDone :: rest) req c).response
        = some { Status := codes.DeadlineExceeded
                 DeniedResponse := some { Status := 504, Body := "request cancelled".toList } } ∧
      (s.Check store pre req c).response = none ∧
      (∃ r, (s.Check store (.ctxDone :: rest) req c).response = some r ∧
        r.Status ≠ codes.OK) := by
  have hrun := fun schedule =>
    Check_cold_start s store schedule req c c1 view hname hview hcold hjob
  refine ⟨?_, ?_, ?_, ?_, ?_⟩
  · rw [hrun]
    show (coldStartLoop _ _).1 = _
    rw [coldStartLoop_idle_append _ pre _ hpre]
    simp [coldStartLoop, hst]
  · rw [hrun]
    show (coldStartLoop _ _).1 = _
    rw [coldStartLoop_idle_append _ pre _ hpre]
    rfl
  · rw [hrun]
    show (coldStartLoop _ _).1 = _
    rw [coldStartLoop_idle_append _ pre _ hpre]
    rfl
  · rw [hrun]
    exact coldStartLoop_idle _ pre hpre
  · rw [hrun]
    exact ⟨_, rfl, by decide⟩

theorem Check_cold_start_outcome_witness :
    (parseViewName newTestExtAuthz.baseHostname (CheckRequest.mk "cold.gateway.test".toList).Host
        ≠ [] ∧
      coldStore.GetView (parseViewName newTestExtAuthz.baseHostname
          (CheckRequest.mk "cold.gateway.test".toList).Host)
        = some ⟨"cold".toList, ⟨"dev".toList, []⟩, []⟩ ∧
      (coldStore.ReadyEndpoints (parseViewName newTestExtAuthz.baseHostname
          (CheckRequest.mk "cold.gateway.test".toList).Host)).length = 0 ∧
      newTestExtAuthz.k8s.CreateViewJob (parseViewName newTestExtAuthz.baseHostname
          (CheckRequest.mk "cold.gateway.test".toList).Host)
          (ViewState.mk "cold".toList ⟨"dev".toList, []⟩ []).Subset emptyCluster
        = (none, { emptyCluster with jobs := [viewJob viewNamespace "cold".toList
            ⟨"dev".toList, []⟩] }) ∧
      (∀ e ∈ [SelectEvent.tick coldStore, SelectEvent.tick coldStore],
        e.isIdleTick (parseViewName newTestExtAuthz.baseHostname
          (CheckRequest.mk "cold.gateway.test".toList).Host) = true) ∧
      0 < (warmStore.ReadyEndpoints (parseViewName newTestExtAuthz.baseHostname
          (CheckRequest.mk "cold.gateway.test".toList).Host)).length) ∧
    ((newTestExtAuthz.Check coldStore
        ([.tick coldStore, .tick coldStore] ++ .tick warmStore :: [.deadline])
        ⟨"cold.gateway.test".toList⟩ emptyCluster).response = some okResponse ∧
      (newTestExtAuthz.Check coldStore
        ([.tick coldStore, .tick coldStore] ++ .deadline :: [.deadline])
        ⟨"cold.gateway.test".toList⟩ emptyCluster).response
        = some { Status := codes.DeadlineExceeded
                 DeniedResponse := some { Status := 503, Body := "workload not ready".toList } } ∧
      (newTestExtAuthz.Check coldStore
        ([.tick coldStore, .tick coldStore] ++ .ctxDone :: [.deadline])
        ⟨"cold.gateway.test".toList⟩ emptyCluster).response
        = some { Status := codes.DeadlineExceeded
                 DeniedResponse := some { Status := 504, Body := "request cancelled".toList } } ∧
      (newTestExtAuthz.Check coldStore [.tick coldStore, .tick coldStore]
        ⟨"cold.gateway.test".toList⟩ emptyCluster).response = none ∧
      (∃ r, (newTestExtAuthz.Check coldStore (.ctxDone :: [.deadline])
        ⟨"cold.gateway.test".toList⟩ emptyCluster).response = some r ∧ r.Status ≠ codes.OK)) :=
  ⟨by decide,
    Check_cold_start_outcome newTestExtAuthz coldStore ⟨"cold.gateway.test".toList⟩
      emptyCluster { emptyCluster with jobs := [viewJob viewNamespace "cold".toList
        ⟨"dev".toList, []⟩] }
      ⟨"cold".toList, ⟨"dev".toList, []⟩, []⟩
      [.tick coldStore, .tick coldStore] [.deadline] warmStore
      (by decide) (by decide) (by decide) (by decide) (by decide) (by decide)⟩

/-- Claim C8: for a view that is present and has no ready endpoint, when the
orchestrator fails the creation of the workload with an error `e`: if `e` is not
`AlreadyExists` the check denies with 503 and runs no round of the wait loop; if
`e` is `AlreadyExists` the check goes on to the wait loop and answers what the
loop answers. -/
theorem Check_create_failure {σ : Type} (s : ExtAuthzServer σ) (store : ViewStore)
    (schedule : List SelectEvent) (req : CheckRequest) (c c1 : σ) (view : ViewState)
    (e : APIError)
    (hname : parseViewName s.baseHostname req.Host ≠ [])
    (hview : store.GetView (parseViewName s.baseHostname req.Host) = some view)
    (hcold : (store.ReadyEndpoints (parseViewName s.baseHostname req.Host)).length = 0)
    (hcreate : s.k8s.client.JobsCreate s.k8s.namespace_
        (viewJob s.k8s.namespace_ (parseViewName s.baseHostname req.Host) view.Subset) c
      = (some e, c1)) :
    (s.Check store schedule req c).response
        = (if e = .AlreadyExists then
            (coldStartLoop (parseViewName s.baseHostname req.Host) schedule).1
          else
            some { Status := codes.Internal
                   DeniedResponse := some
                     { Status := 503, Body := "failed to create workload".toList } }) ∧
      (s.Check store schedule req c).effects
        = [.GetView (parseViewName s.baseHostname req.Host),
            .ReadyEndpoints (parseViewName s.baseHostname req.Host),
            .CreateViewJob (parseViewName s.baseHostname req.Host) view.Subset]
          ++ (if e = .AlreadyExists then
            (coldStartLoop (parseViewName s.baseHostname req.Host) schedule).2
          else []) := by
  by_cases he : e = .AlreadyExists
  · have hjob : s.k8s.CreateViewJob (parseViewName s.baseHostname req.Host) view.Subset c
        = (none, c1) := by
      simp [K8sClient.CreateViewJob, hcreate, he, IsAlreadyExists]
    rw [Check_cold_start s store schedule req c c1 view hname hview hcold hjob]
    simp [he]
  · have hjob : s.k8s.CreateViewJob (parseViewName s.baseHostname req.Host) view.Subset c
        = (some ⟨"failed to create job for view ".toList
            ++ parseViewName s.baseHostname req.Host ++ ": ".toList, e⟩, c1) := by
      cases e with
      | AlreadyExists => exact absurd rfl he
      | NotFound => simp [K8sClient.CreateViewJob, hcreate, IsAlreadyExists]
      | Other m => simp [K8sClient.CreateViewJob, hcreate, IsAlreadyExists]
    rw [Check_cold_start_failed s store schedule req c c1 view _ hname hview hcold hjob]
    simp [he, deniedResponse]

theorem Check_create_failure_witness :
    ((parseViewName newTestExtAuthz.baseHostname
          (CheckRequest.mk "cold.gateway.test".toList).Host ≠ [] ∧
        coldStore.GetView (parseViewName newTestExtAuthz.baseHostname
            (CheckRequest.mk "cold.gateway.test".toList).Host)
          = some ⟨"cold".toList, ⟨"dev".toList, []⟩, []⟩ ∧
        (coldStore.ReadyEndpoints (parseViewName newTestExtAuthz.baseHostname
            (CheckRequest.mk "cold.gateway.test".toList).Host)).length = 0 ∧
        newTestExtAuthz.k8s.client.JobsCreate newTestExtAuthz.k8s.namespace_
            (viewJob newTestExtAuthz.k8s.namespace_ (parseViewName newTestExtAuthz.baseHostname
              (CheckRequest.mk "cold.gateway.test".toList).Host)
              (ViewState.mk "cold".toList ⟨"dev".toList, []⟩ []).Subset)
            { emptyCluster with
              jobs := [viewJob viewNamespace "cold".toList ⟨"dev".toList, []⟩] }
          = (some .AlreadyExists, { emptyCluster with
              jobs := [viewJob viewNamespace "cold".toList ⟨"dev".toList, []⟩] })) ∧
      (newTestExtAuthz.Check coldStore [.tick warmStore] ⟨"cold.gateway.test".toList⟩
          { emptyCluster with
            jobs := [viewJob viewNamespace "cold".toList ⟨"dev".toList, []⟩] }).response
        = some okResponse ∧
      (newTestExtAuthz.Check coldStore [.tick warmStore] ⟨"cold.gateway.test".toList⟩
          { emptyCluster with
            jobs := [viewJob viewNamespace "cold".toList ⟨"dev".toList, []⟩] }).effects
        = [.GetView "cold".toList, .ReadyEndpoints "cold".toList,
            .CreateViewJob "cold".toList ⟨"dev".toList, []⟩,
            .Select .tick, .ReadyEndpoints "cold".toList]) ∧
    (((NewK8sClient (failingClientset (.Other "forbidden".toList))).client.JobsCreate
          viewNamespace (viewJob viewNamespace "cold".toList ⟨"dev".toList, []⟩) emptyCluster
        = (some (.Other "forbidden".toList), emptyCluster)) ∧
      ((NewExtAuthzServer (NewK8sClient (failingClientset (.Other "forbidden".toList)))
          "gateway.test".toList).Check coldStore [.tick warmStore]
          ⟨"cold.gateway.test".toList⟩ emptyCluster).response
        = some { Status := codes.Internal
                 DeniedResponse := some
                   { Status := 503, Body := "failed to create workload".toList } } ∧
      ((NewExtAuthzServer (NewK8sClient (failingClientset (.Other "forbidden".toList)))
          "gateway.test".toList).Check coldStore [.tick warmStore]
          ⟨"cold.gateway.test".toList⟩ emptyCluster).effects
        = [.GetView "cold".toList, .ReadyEndpoints "cold".toList,
            .CreateViewJob "cold".toList ⟨"dev".toList, []⟩]) :=
  ⟨⟨by decide,
    Check_create_failure newTestExtAuthz coldStore [.tick warmStore]
      ⟨"cold.gateway.test".toList⟩
      { emptyCluster with jobs := [viewJob viewNamespace "cold".toList ⟨"dev".toList, []⟩] }
      { emptyCluster with jobs := [viewJob viewNamespace "cold".toList ⟨"dev".toList, []⟩] }
      ⟨"cold".toList, ⟨"dev".toList, []⟩, []⟩ .AlreadyExists
      (by decide) (by decide) (by decide) (by decide)⟩,
    by decide,
    Check_create_failure
      (NewExtAuthzServer (NewK8sClient (failingClientset (.Other "forbidden".toList)))
        "gateway.test".toList) coldStore [.tick warmStore]
      ⟨"cold.gateway.test".toList⟩ emptyCluster emptyCluster
      ⟨"cold".toList, ⟨"dev".toList, []⟩, []⟩ (.Other "forbidden".toList)
      (by decide) (by decide) (by decide) (by decide)⟩

/-! ## Route validation -/

theorem mem_matches_charClass (cs : List Char) (x : List Char) :
    x ∈ (charClass cs).matches' ↔ ∃ c ∈ cs, x = [c] := by
  induction cs with
  | nil => simp [charClass, Language.not_mem_zero]
  | cons c cs ih =>
    have : charClass (c :: cs) = RegularExpression.char c + charClass cs := rfl
    rw [this, RegularExpression.matches'_add, Language.mem_add, ih,
      RegularExpression.matches'_char, Set.mem_singleton_iff]
    simp

theorem mem_kstar_charClass (cs : List Char) (x : List Char) :
    x ∈ (charClass cs).star.matches' ↔ ∀ c ∈ x, c ∈ cs := by
  rw [RegularExpression.matches'_star, Language.mem_kstar]
  constructor
  · rintro ⟨L, rfl, hL⟩ c hc
    obtain ⟨y, hy, hcy⟩ := List.mem_flatten.mp hc
    obtain ⟨d, hd, rfl⟩ := (mem_matches_charClass cs y).mp (hL y hy)
    simp at hcy
    exact hcy ▸ hd
  · intro h
    refine ⟨x.map (fun c => [c]), ?_, ?_⟩
    · clear h
      induction x with
      | nil => rfl
      | cons a as ih => simpa using ih
    · intro y hy
      obtain ⟨c, hc, rfl⟩ := List.mem_map.mp hy
      exact (mem_matches_charClass cs [c]).mpr ⟨c, h c hc, rfl⟩

theorem nameRegexMatchString_iff (s : GoString) :
    nameRegexMatchString s = true ↔
      ∃ c mid l, s = c :: (mid ++ [l]) ∧ c ∈ lowerChars ∧
        (∀ m ∈ mid, m ∈ lowerChars ++ digitChars ++ ['-']) ∧ l ∈ lowerChars ++ digitChars := by
  unfold nameRegexMatchString nameRegex
  rw [RegularExpression.rmatch_iff_matches', RegularExpression.matches'_mul,
    RegularExpression.matches'_mul]
  simp only [Language.mem_mul, mem_matches_charClass, mem_kstar_charClass]
  constructor
  · rintro ⟨_, ⟨_, ⟨c, hc, rfl⟩, mid, hmid, rfl⟩, _, ⟨l, hl, rfl⟩, rfl⟩
    exact ⟨c, mid, l, by simp, hc, hmid, hl⟩
  · rintro ⟨c, mid, l, rfl, hc, hmid, hl⟩
    exact ⟨[c] ++ mid, ⟨[c], ⟨c, hc, rfl⟩, mid, hmid, rfl⟩, [l], ⟨l, hl, rfl⟩, by simp⟩

theorem mem_lowerChars (c : Char) : c ∈ lowerChars ↔ c.isLower = true := by
  constructor
  · revert c; decide
  · intro h
    simp only [Char.isLower, Bool.and_eq_true, decide_eq_true_eq] at h
    have h1 : 97 ≤ c.toNat := h.1
    have h2 : c.toNat ≤ 122 := h.2
    rw [← Char.ofNat_toNat c]
    generalize c.toNat = n at h1 h2
    interval_cases n <;> decide

theorem mem_digitChars (c : Char) : c ∈ digitChars ↔ c.isDigit = true := by
  constructor
  · revert c; decide
  · intro h
    simp only [Char.isDigit, Bool.and_eq_true, decide_eq_true_eq] at h
    have h1 : 48 ≤ c.toNat := h.1
    have h2 : c.toNat ≤ 57 := h.2
    rw [← Char.ofNat_toNat c]
    generalize c.toNat = n at h1 h2
    interval_cases n <;> decide

theorem len_eq_length_of_ascii (s : GoString)
    (h : ∀ c ∈ s, c ∈ lowerChars ++ digitChars ++ ['-']) : len s = s.length := by
  have hsize : ∀ c ∈ lowerChars ++ digitChars ++ ['-'], c.utf8Size = 1 := by decide
  induction s with
  | nil => rfl
  | cons a as ih =>
    have ha := hsize a (h a (List.mem_cons_self _ _))
    have := ih (fun c hc => h c (List.mem_cons_of_mem _ hc))
    simp only [len, List.map_cons, List.sum_cons, List.length_cons] at *
    omega

theorem mem_nameChars (c : Char) :
    c ∈ lowerChars ++ digitChars ++ ['-'] ↔ (c.isLower = true ∨ c.isDigit = true ∨ c = '-') := by
  simp only [List.mem_append, List.mem_singleton, mem_lowerChars, mem_digitChars, or_assoc]

/-- The three tests of `ValidateRoute` in turn. -/
theorem ValidateRoute_eq_none (r : Route) :
    ValidateRoute r = none ↔
      (3 ≤ len r.Name ∧ len r.Name ≤ 8) ∧ nameRegexMatchString r.Name = true ∧
        r.Subset.Cluster ≠ [] := by
  unfold ValidateRoute
  by_cases h1 : len r.Name < 3 ∨ len r.Name > 8
  · simp only [h1, if_true]
    constructor
    · intro h; cases h
    · rintro ⟨⟨h3, h8⟩, _⟩; omega
  · by_cases h2 : nameRegexMatchString r.Name = true
    · by_cases h3 : r.Subset.Cluster = []
      · simp [h1, h2, h3]
      · simp only [h1, h2, h3, if_false]
        simp only [not_or, not_lt, gt_iff_lt] at h1
        simp [h1.1, h1.2, h3]
    · simp [h1, h2]

/-- Claim C9: `ValidateRoute` accepts a route exactly when its name has 3 to 8
characters, all of them lowercase ASCII letters, digits or `-`, the first a
lowercase letter and the last not `-`, and its subset cluster is not empty. -/
theorem ValidateRoute_accepts_iff (r : Route) :
    ValidateRoute r = none ↔
      3 ≤ r.Name.length ∧ r.Name.length ≤ 8 ∧
        (∀ c ∈ r.Name, c.isLower = true ∨ c.isDigit = true ∨ c = '-') ∧
        (∃ c, r.Name.head? = some c ∧ c.isLower = true) ∧
        (∃ c, r.Name.getLast? = some c ∧ c ≠ '-') ∧
        r.Subset.Cluster ≠ [] := by
  rw [ValidateRoute_eq_none, nameRegexMatchString_iff]
  constructor
  · rintro ⟨⟨h3, h8⟩, ⟨c, mid, l, hs, hc, hmid, hl⟩, hcl⟩
    have hall : ∀ x ∈ r.Name, x ∈ lowerChars ++ digitChars ++ ['-'] := by
      intro x hx
      rw [hs] at hx
      simp only [List.mem_cons, List.mem_append, List.not_mem_nil, or_false] at hx
      rcases hx with rfl | hx | rfl
      · simp [hc]
      · exact hmid x hx
      · simp only [List.mem_append] at hl ⊢
        exact Or.inl hl
    have hlen := len_eq_length_of_ascii r.Name hall
    refine ⟨by omega, by omega, fun x hx => (mem_nameChars x).mp (hall x hx),
      ⟨c, by simp [hs], (mem_lowerChars c).mp hc⟩, ⟨l, ?_, ?_⟩, hcl⟩
    · rw [hs, ← List.cons_append, List.getLast?_append]
      simp
    · rintro rfl
      revert hl
      decide
  · rintro ⟨h3, h8, hall, ⟨c, hhead, hc⟩, ⟨l, hlast, hl⟩, hcl⟩
    have hall2 : ∀ x ∈ r.Name, x ∈ lowerChars ++ digitChars ++ ['-'] :=
      fun x hx => (mem_nameChars x).mpr (hall x hx)
    have hlen := len_eq_length_of_ascii r.Name hall2
    refine ⟨by omega, ?_, hcl⟩
    cases hN : r.Name with
    | nil => rw [hN] at h3; simp at h3
    | cons a rest =>
      rw [hN] at hhead hlast h3 hall2
      simp only [List.head?_cons, Option.some.injEq] at hhead
      subst hhead
      have hrest : rest ≠ [] := by
        rintro rfl
        simp at h3
      have hlast2 : rest.getLast hrest = l := by
        rw [List.getLast?_eq_getLast _ (List.cons_ne_nil a rest), List.getLast_cons hrest] at hlast
        exact Option.some.inj hlast
      refine ⟨a, rest.dropLast, l, ?_, (mem_lowerChars a).mpr hc, ?_, ?_⟩
      · rw [← hlast2, List.dropLast_append_getLast hrest]
      · intro m hm
        exact hall2 m (List.mem_cons_of_mem _ (List.dropLast_subset _ hm))
      · have hl2 := hall l (by rw [hN, ← hlast2]; exact List.mem_cons_of_mem _ (List.getLast_mem hrest))
        rcases hl2 with h | h | h
        · exact List.mem_append_left _ ((mem_lowerChars l).mpr h)
        · exact List.mem_append_right _ ((mem_digitChars l).mpr h)
        · exact absurd h hl

/-! ## Resource builders -/

theorem foldl_append_singleton {α β : Type} (f : α → β) (init : List β) (l : List α) :
    l.foldl (fun acc v => acc ++ [f v]) init = init ++ l.map f := by
  induction l generalizing init with
  | nil => simp
  | cons a as ih => simp [ih]

/-- The cluster list is `sidecar_api` followed by one EDS cluster per view. -/
theorem buildClusters_eq (sm : SnapshotManager) (views : List ViewState) :
    sm.buildClusters views = sidecarApiCluster :: views.map (fun v =>
      { Name := viewNamePrefix ++ v.Name
        ConnectTimeout := 5000000000
        ClusterDiscoveryType := .EDS
        LoadAssignment := none
        EdsClusterConfig := some { Ads := true, ResourceApiVersion := "V3".toList } }) := by
  simp only [SnapshotManager.buildClusters]
  rw [foldl_append_singleton]
  rfl

/-- The endpoint list is one assignment per view, holding its ready endpoints. -/
theorem buildEndpoints_eq (sm : SnapshotManager) (views : List ViewState) :
    sm.buildEndpoints views = views.map (fun v =>
      { ClusterName := viewNamePrefix ++ v.Name
        Endpoints := [{ LbEndpoints :=
          match sm.store with
          | some store => (store.ReadyEndpoints v.Name).map (fun ep =>
              { SocketAddress := { Address := ep.Address, PortValue := uint32 ep.Port } })
          | none => [] }] }) := by
  simp only [SnapshotManager.buildEndpoints]
  rw [foldl_append_singleton]
  simp only [List.nil_append]
  congr 1
  funext v
  cases sm.store with
  | none => rfl
  | some store => simp only [foldl_append_singleton, List.nil_append]

theorem countP_eq_one_of_nodup {α : Type} [DecidableEq α] {l : List α} (h : l.Nodup)
    {a : α} (ha : a ∈ l) : l.countP (fun x => decide (x = a)) = 1 := by
  induction l with
  | nil => cases ha
  | cons b bs ih =>
    rw [List.nodup_cons] at h
    by_cases hb : b = a
    · subst hb
      have : bs.countP (fun x => decide (x = b)) = 0 := by
        rw [List.countP_eq_zero]
        intro x hx
        simp only [decide_eq_true_eq]
        rintro rfl
        exact h.1 hx
      simp [List.countP_cons, this]
    · have hmem : a ∈ bs := by
        rcases List.mem_cons.mp ha with rfl | hm
        · exact absurd rfl hb
        · exact hm
      simp [List.countP_cons, hb, ih h.2 hmem]

/-- With distinct view names, exactly one of the prefixed names is that of a view. -/
theorem countP_prefixed_name (views : List ViewState)
    (hdistinct : (views.map (·.Name)).Nodup) (v : ViewState) (hv : v ∈ views) :
    views.countP (fun w => decide (viewNamePrefix ++ w.Name = viewNamePrefix ++ v.Name)) = 1 := by
  have hnodup : (views.map (fun w => viewNamePrefix ++ w.Name)).Nodup := by
    have := hdistinct.map (List.append_right_injective viewNamePrefix)
    simpa [List.map_map, Function.comp] using this
  have := countP_eq_one_of_nodup hnodup (List.mem_map.mpr ⟨v, hv, rfl⟩)
  rw [List.countP_map] at this
  exact this

/-- Claim C10: for views with distinct names the cluster list is `sidecar_api`
followed by one EDS cluster `view-<name>` per view (1 + n clusters, exactly one of
each name), the endpoint list is one assignment `view-<name>` per view (n
assignments, none for no views, exactly one of each name), and a view without
ready endpoints has the assignment of one locality group with no endpoint. -/
theorem buildClusters_buildEndpoints_shape (sm : SnapshotManager) (views : List ViewState)
    (hdistinct : (views.map (·.Name)).Nodup) :
    (∃ cs, sm.buildClusters views = sidecarApiCluster :: cs ∧
        cs.map (·.Name) = views.map (fun v => viewNamePrefix ++ v.Name) ∧
        ∀ c ∈ cs, c.ClusterDiscoveryType = .EDS) ∧
      sidecarApiCluster.Name = "sidecar_api".toList ∧
      sidecarApiCluster.ClusterDiscoveryType = .STATIC ∧
      (sm.buildClusters views).length = 1 + views.length ∧
      (∀ v ∈ views, (sm.buildClusters views).countP
        (fun c => decide (c.Name = viewNamePrefix ++ v.Name)) = 1) ∧
      (sm.buildEndpoints views).map (·.ClusterName)
        = views.map (fun v => viewNamePrefix ++ v.Name) ∧
      (sm.buildEndpoints views).length = views.length ∧
      sm.buildEndpoints [] = [] ∧
      (∀ v ∈ views, (sm.buildEndpoints views).countP
        (fun a => decide (a.ClusterName = viewNamePrefix ++ v.Name)) = 1) ∧
      (∀ v ∈ views, (∀ store, sm.store = some store → store.ReadyEndpoints v.Name = []) →
        { ClusterName := viewNamePrefix ++ v.Name, Endpoints := [{ LbEndpoints := [] }] }
          ∈ sm.buildEndpoints views) := by
  refine ⟨⟨_, buildClusters_eq sm views, by simp [List.map_map, Function.comp], by simp⟩,
    rfl, rfl, by simp [buildClusters_eq, Nat.add_comm], ?_,
    by simp [buildEndpoints_eq, List.map_map, Function.comp], by simp [buildEndpoints_eq],
    rfl, ?_, ?_⟩
  · intro v hv
    have hside : ¬ sidecarApiCluster.Name = viewNamePrefix ++ v.Name := by
      intro h
      have h2 : some 's' = some 'v' := congrArg List.head? h
      exact absurd h2 (by decide)
    rw [buildClusters_eq, List.countP_cons, List.countP_map]
    simp only [hside, decide_False, Bool.false_eq_true, if_false, Nat.add_zero]
    exact countP_prefixed_name views hdistinct v hv
  · intro v hv
    rw [buildEndpoints_eq, List.countP_map]
    exact countP_prefixed_name views hdistinct v hv
  · intro v hv hnone
    rw [buildEndpoints_eq]
    refine List.mem_map.mpr ⟨v, hv, ?_⟩
    cases hs : sm.store with
    | none => rfl
    | some store => simp [hnone store hs]

theorem buildClusters_buildEndpoints_shape_witness :
    (mixedStore.ListViews.map (·.Name)).Nodup ∧
    ((∃ cs, mixedManager.buildClusters mixedStore.ListViews = sidecarApiCluster :: cs ∧
        cs.map (·.Name) = mixedStore.ListViews.map (fun v => viewNamePrefix ++ v.Name) ∧
        ∀ c ∈ cs, c.ClusterDiscoveryType = .EDS) ∧
      sidecarApiCluster.Name = "sidecar_api".toList ∧
      sidecarApiCluster.ClusterDiscoveryType = .STATIC ∧
      (mixedManager.buildClusters mixedStore.ListViews).length = 1 + mixedStore.ListViews.length ∧
      (∀ v ∈ mixedStore.ListViews, (mixedManager.buildClusters mixedStore.ListViews).countP
        (fun c => decide (c.Name = viewNamePrefix ++ v.Name)) = 1) ∧
      (mixedManager.buildEndpoints mixedStore.ListViews).map (·.ClusterName)
        = mixedStore.ListViews.map (fun v => viewNamePrefix ++ v.Name) ∧
      (mixedManager.buildEndpoints mixedStore.ListViews).length = mixedStore.ListViews.length ∧
      mixedManager.buildEndpoints [] = [] ∧
      (∀ v ∈ mixedStore.ListViews, (mixedManager.buildEndpoints mixedStore.ListViews).countP
        (fun a => decide (a.ClusterName = viewNamePrefix ++ v.Name)) = 1) ∧
      (∀ v ∈ mixedStore.ListViews,
        (∀ store, mixedManager.store = some store → store.ReadyEndpoints v.Name = []) →
        { ClusterName := viewNamePrefix ++ v.Name, Endpoints := [{ LbEndpoints := [] }] }
          ∈ mixedManager.buildEndpoints mixedStore.ListViews)) :=
  ⟨by decide,
    buildClusters_buildEndpoints_shape mixedManager mixedStore.ListViews (by decide)⟩

/-! ## The unit tests of the repository, replayed on the embedding -/

/-- Go `TestParseViewName`. -/
theorem test_parseViewName :
    parseViewName newTestExtAuthz.baseHostname "test01.gateway.test".toList = "test01".toList ∧
      parseViewName newTestExtAuthz.baseHostname "test01.gateway.test:8080".toList
        = "test01".toList ∧
      parseViewName newTestExtAuthz.baseHostname "test01.anything".toList = "test01".toList ∧
      parseViewName newTestExtAuthz.baseHostname "gateway.test".toList = [] ∧
      parseViewName newTestExtAuthz.baseHostname "test01".toList = [] := by
  decide

/-- Go `TestCheckPassthrough`, `TestCheckNoService`, `TestCheckReadyEndpoints` and
`TestCheckColdStartTimeout` (the cancelled context is the first round). -/
theorem test_Check :
    (newTestExtAuthz.Check ⟨[]⟩ [] ⟨"gateway.test".toList⟩ emptyCluster).response
        = some okResponse ∧
      (newTestExtAuthz.Check ⟨[]⟩ [] ⟨"test01.gateway.test".toList⟩ emptyCluster).response
        = some (deniedResponse codes.NotFound 404 "view not found".toList) ∧
      (newTestExtAuthz.Check readyStore [] ⟨"test01.gateway.test".toList⟩ emptyCluster).response
        = some okResponse ∧
      (newTestExtAuthz.Check coldStore [.ctxDone] ⟨"cold.gateway.test".toList⟩
          emptyCluster).response
        = some (deniedResponse codes.DeadlineExceeded 504 "request cancelled".toList) := by
  decide

/-- Go `TestValidateRoute`. -/
theorem test_ValidateRoute :
    ValidateRoute ⟨"abc".toList, ⟨"dev".toList, []⟩⟩ = none ∧
      ValidateRoute ⟨"test01".toList, ⟨"prod".toList, []⟩⟩ = none ∧
      ValidateRoute ⟨"my-view".toList, ⟨"dev".toList, []⟩⟩ = none ∧
      ValidateRoute ⟨"ab".toList, ⟨"dev".toList, []⟩⟩ ≠ none ∧
      ValidateRoute ⟨"abcdefghi".toList, ⟨"dev".toList, []⟩⟩ ≠ none ∧
      ValidateRoute ⟨"ABC".toList, ⟨"dev".toList, []⟩⟩ ≠ none ∧
      ValidateRoute ⟨"ab_c".toList, ⟨"dev".toList, []⟩⟩ ≠ none ∧
      ValidateRoute ⟨"1abc".toList, ⟨"dev".toList, []⟩⟩ ≠ none ∧
      ValidateRoute ⟨"abc-".toList, ⟨"dev".toList, []⟩⟩ ≠ none ∧
      ValidateRoute ⟨"abc".toList, ⟨[], []⟩⟩ ≠ none := by
  decide

/-- Go `TestEDSEmptyEndpoints`, and the clusters and endpoints checked by
`TestSnapshotManagerWithView`. -/
theorem test_buildEndpoints :
    (NewSnapshotManager "gateway.test".toList (some coldStore)).buildEndpoints
        coldStore.ListViews
        = [{ ClusterName := "view-cold".toList, Endpoints := [{ LbEndpoints := [] }] }] ∧
      ((NewSnapshotManager "gateway.test".toList (some readyStore)).buildClusters
        readyStore.ListViews).map (·.Name) = ["sidecar_api".toList, "view-test01".toList] ∧
      (NewSnapshotManager "gateway.test".toList (some readyStore)).buildEndpoints
        readyStore.ListViews
        = [{ ClusterName := "view-test01".toList
             Endpoints := [{ LbEndpoints :=
               [{ SocketAddress := { Address := "10.0.0.1".toList, PortValue := 8080 } }] }] }] := by
  decide

/-! ## Endpoint assignments, routes and the consistency of the built resources -/

theorem uint32_injOn {x y : Int} (hx : -2 ^ 31 ≤ x ∧ x < 2 ^ 31) (hy : -2 ^ 31 ≤ y ∧ y < 2 ^ 31)
    (h : uint32 x = uint32 y) : x = y := by
  unfold uint32 at h
  omega

/-- Claim C11, as the code has it: for a view stored under its own name, every
assignment built for it lists the ready endpoints of its state, by address and
port, in stored order and as often as the state lists them; it lists no endpoint
twice exactly when the state lists no ready endpoint twice. -/
theorem buildEndpoints_ready_endpoints (sm : SnapshotManager) (store : ViewStore)
    (views : List ViewState) (v : ViewState)
    (hstore : sm.store = some store) (hv : store.GetView v.Name = some v) (hmem : v ∈ views)
    (hport : ∀ ep ∈ v.Endpoints, -2 ^ 31 ≤ ep.Port ∧ ep.Port < 2 ^ 31) :
    (∃ a ∈ sm.buildEndpoints views, a.ClusterName = viewNamePrefix ++ v.Name) ∧
      (∀ a ∈ sm.buildEndpoints views, a.ClusterName = viewNamePrefix ++ v.Name →
        a.Endpoints = [⟨(v.Endpoints.filter (fun ep => ep.Ready)).map (·.toLbEndpoint)⟩]) ∧
      (∀ lb, lb ∈ (v.Endpoints.filter (fun ep => ep.Ready)).map (·.toLbEndpoint) ↔
        ∃ ep ∈ v.Endpoints, ep.Ready = true ∧
          lb.SocketAddress.Address = ep.Address ∧ lb.SocketAddress.PortValue = uint32 ep.Port) ∧
      (((v.Endpoints.filter (fun ep => ep.Ready)).map (·.toLbEndpoint)).Nodup ↔
        ((v.Endpoints.filter (fun ep => ep.Ready)).map (fun ep => (ep.Address, ep.Port))).Nodup) := by
  have hready : ∀ w : ViewState, w.Name = v.Name →
      store.ReadyEndpoints w.Name = v.Endpoints.filter (fun ep => ep.Ready) := by
    intro w hw
    rw [hw]
    exact ReadyEndpoints_of_GetView hv
  refine ⟨?_, ?_, ?_, ?_⟩
  · rw [buildEndpoints_eq]
    exact ⟨_, List.mem_map.mpr ⟨v, hmem, rfl⟩, rfl⟩
  · intro a ha hname
    rw [buildEndpoints_eq] at ha
    obtain ⟨w, _, rfl⟩ := List.mem_map.mp ha
    have hw : w.Name = v.Name := List.append_cancel_left hname
    simp only [hstore, hready w hw]
    rfl
  · intro lb
    simp only [List.mem_map, List.mem_filter]
    constructor
    · rintro ⟨ep, ⟨hep, hr⟩, rfl⟩
      exact ⟨ep, hep, hr, rfl, rfl⟩
    · rintro ⟨ep, hep, hr, ha, hp⟩
      refine ⟨ep, ⟨hep, hr⟩, ?_⟩
      cases lb with
      | mk sa =>
        cases sa with
        | mk a p =>
          simp only at ha hp
          simp [ViewEndpoint.toLbEndpoint, ha, hp]
  · have hfac : (v.Endpoints.filter (fun ep => ep.Ready)).map (·.toLbEndpoint)
        = ((v.Endpoints.filter (fun ep => ep.Ready)).map (fun ep => (ep.Address, ep.Port))).map
          (fun p => (⟨⟨p.1, uint32 p.2⟩⟩ : LbEndpoint)) := by
      simp [List.map_map, Function.comp, ViewEndpoint.toLbEndpoint]
    rw [hfac]
    constructor
    · exact fun h => h.of_map _
    · intro h
      refine List.Nodup.map_on ?_ h
      intro p hp q hq hpq
      obtain ⟨ep, hep, rfl⟩ := List.mem_map.mp hp
      obtain ⟨eq, heq, rfl⟩ := List.mem_map.mp hq
      have hp1 := hport ep (List.mem_filter.mp hep).1
      have hq1 := hport eq (List.mem_filter.mp heq).1
      simp only [LbEndpoint.mk.injEq, SocketAddress.mk.injEq] at hpq
      exact Prod.ext hpq.1 (uint32_injOn hp1 hq1 hpq.2)

theorem buildEndpoints_ready_endpoints_witness :
    (mixedManager.store = some mixedStore ∧ mixedStore.GetView test01View.Name = some test01View ∧
      test01View ∈ mixedStore.ListViews ∧
      ∀ ep ∈ test01View.Endpoints, -2 ^ 31 ≤ ep.Port ∧ ep.Port < 2 ^ 31) ∧
    ((∃ a ∈ mixedManager.buildEndpoints mixedStore.ListViews,
        a.ClusterName = viewNamePrefix ++ test01View.Name) ∧
      (∀ a ∈ mixedManager.buildEndpoints mixedStore.ListViews,
        a.ClusterName = viewNamePrefix ++ test01View.Name →
        a.Endpoints
          = [⟨(test01View.Endpoints.filter (fun ep => ep.Ready)).map (·.toLbEndpoint)⟩]) ∧
      (∀ lb, lb ∈ (test01View.Endpoints.filter (fun ep => ep.Ready)).map (·.toLbEndpoint) ↔
        ∃ ep ∈ test01View.Endpoints, ep.Ready = true ∧
          lb.SocketAddress.Address = ep.Address ∧ lb.SocketAddress.PortValue = uint32 ep.Port) ∧
      (((test01View.Endpoints.filter (fun ep => ep.Ready)).map (·.toLbEndpoint)).Nodup ↔
        ((test01View.Endpoints.filter (fun ep => ep.Ready)).map
          (fun ep => (ep.Address, ep.Port))).Nodup)) :=
  ⟨by decide,
    buildEndpoints_ready_endpoints mixedManager mixedStore mixedStore.ListViews test01View
      (by decide) (by decide) (by decide) (by decide)⟩

/-- Claim C11 fails as stated: the view `dup` is stored under its own name with the
ready endpoint `10.0.0.1:8080` listed twice, and the assignment built for it
lists that endpoint twice. -/
theorem buildEndpoints_duplicate_endpoint :
    dupStore.GetView "dup".toList
        = some { Name := "dup".toList, Subset := { Cluster := "dev".toList, Namespace := [] },
                 Endpoints := [{ Address := "10.0.0.1".toList, Port := 8080, Ready := true },
                               { Address := "10.0.0.1".toList, Port := 8080, Ready := true }] } ∧
      (NewSnapshotManager "gateway.test".toList (some dupStore)).buildEndpoints dupStore.ListViews
        = [{ ClusterName := "view-dup".toList
             Endpoints := [⟨[⟨⟨"10.0.0.1".toList, 8080⟩⟩, ⟨⟨"10.0.0.1".toList, 8080⟩⟩]⟩] }] ∧
      ¬ ([⟨⟨"10.0.0.1".toList, 8080⟩⟩, ⟨⟨"10.0.0.1".toList, 8080⟩⟩] : List LbEndpoint).Nodup := by
  decide

theorem foldl_append_singleton_cons {α β : Type} (f : α → β) (b : β) (l : List α) :
    l.foldl (fun acc v => acc ++ [f v]) [b] = b :: l.map f := by
  rw [foldl_append_singleton]
  rfl

/-- The virtual hosts are the default one followed by one per view. -/
theorem buildRouteConfig_eq (sm : SnapshotManager) (views : List ViewState) :
    sm.buildRouteConfig views =
      { Name := "local_route".toList
        VirtualHosts := sm.buildDefaultVirtualHost :: views.map (fun v =>
          { Name := viewNamePrefix ++ v.Name
            Domains := [v.Name ++ ".".toList ++ sm.baseHostname, v.Name ++ ".*".toList]
            Routes :=
              [{ MatchPrefix := "/".toList
                 Action := .Route
                   { Cluster := viewNamePrefix ++ v.Name
                     HostRewriteLiteral := some "localhost".toList
                     Timeout := some 0
                     RetryPolicy := some
                       { RetryOn := "connect-failure,reset".toList, NumRetries := 3 } }
                 TypedPerFilterConfig := [] }] }) } := by
  simp only [SnapshotManager.buildRouteConfig]
  rw [foldl_append_singleton_cons]

/-- Claim C12: the route configuration is named `local_route`; its virtual hosts
are the default one (`local`, domains `*`) followed, in input order, by one per
view named `view-<name>` with domains `<name>.<b>` and `<name>.*`; so there are
n + 1 of them, exactly one named `local`, and only the default one for no view. -/
theorem buildRouteConfig_shape (sm : SnapshotManager) (views : List ViewState) :
    (sm.buildRouteConfig views).Name = "local_route".toList ∧
      (∃ vhs, (sm.buildRouteConfig views).VirtualHosts = sm.buildDefaultVirtualHost :: vhs ∧
        vhs.map (fun vh => (vh.Name, vh.Domains)) = views.map (fun v =>
          (viewNamePrefix ++ v.Name,
            [v.Name ++ ".".toList ++ sm.baseHostname, v.Name ++ ".*".toList]))) ∧
      sm.buildDefaultVirtualHost.Name = "local".toList ∧
      sm.buildDefaultVirtualHost.Domains = ["*".toList] ∧
      (sm.buildRouteConfig views).VirtualHosts.length = views.length + 1 ∧
      (sm.buildRouteConfig views).VirtualHosts.countP
        (fun vh => decide (vh.Name = "local".toList)) = 1 ∧
      (sm.buildRouteConfig []).VirtualHosts = [sm.buildDefaultVirtualHost] := by
  refine ⟨by rw [buildRouteConfig_eq], ⟨_, by rw [buildRouteConfig_eq], ?_⟩, rfl, rfl,
    by rw [buildRouteConfig_eq]; simp, ?_, rfl⟩
  · simp [List.map_map, Function.comp]
  · rw [buildRouteConfig_eq]
    simp only [List.countP_cons, List.countP_map]
    have hzero : views.countP ((fun vh : VirtualHost => decide (vh.Name = "local".toList)) ∘
        fun v => { Name := viewNamePrefix ++ v.Name
                   Domains := [v.Name ++ ".".toList ++ sm.baseHostname, v.Name ++ ".*".toList]
                   Routes :=
                     [{ MatchPrefix := "/".toList
                        Action := .Route
                          { Cluster := viewNamePrefix ++ v.Name
                            HostRewriteLiteral := some "localhost".toList
                            Timeout := some 0
                            RetryPolicy := some
                              { RetryOn := "connect-failure,reset".toList, NumRetries := 3 } }
                        TypedPerFilterConfig := [] }] }) = 0 := by
      rw [List.countP_eq_zero]
      intro v _
      simp only [Function.comp, decide_eq_true_eq]
      intro h
      have h2 : some 'v' = some 'l' := congrArg List.head? h
      exact absurd h2 (by decide)
    rw [hzero]
    rfl

/-- The clusters the built routes refer to: `sidecar_api` and one per view. -/
theorem clusterReferences_buildRouteConfig (sm : SnapshotManager) (views : List ViewState) :
    (sm.buildRouteConfig views).clusterReferences
      = "sidecar_api".toList :: views.map (fun v => viewNamePrefix ++ v.Name) := by
  rw [buildRouteConfig_eq]
  simp only [RouteConfiguration.clusterReferences, List.flatMap_cons,
    SnapshotManager.buildDefaultVirtualHost, List.filterMap_cons, List.filterMap_nil]
  simp only [List.singleton_append, List.cons.injEq, true_and]
  induction views with
  | nil => rfl
  | cons v vs ih =>
    simp only [List.map_cons, List.flatMap_cons, List.filterMap_cons, List.filterMap_nil,
      List.singleton_append]
    rw [ih]

theorem map_Name_buildClusters (sm : SnapshotManager) (views : List ViewState) :
    (sm.buildClusters views).map (·.Name)
      = "sidecar_api".toList :: views.map (fun v => viewNamePrefix ++ v.Name) := by
  rw [buildClusters_eq]
  simp [List.map_map, Function.comp, sidecarApiCluster]

theorem map_ClusterName_buildEndpoints (sm : SnapshotManager) (views : List ViewState) :
    (sm.buildEndpoints views).map (·.ClusterName)
      = views.map (fun v => viewNamePrefix ++ v.Name) := by
  rw [buildEndpoints_eq]
  simp [List.map_map, Function.comp]

/-- The resources built from one list of views are internally consistent. -/
theorem built_InternallyConsistent (sm : SnapshotManager) (views : List ViewState) :
    SnapshotResources.InternallyConsistent
      { Listeners := [sm.buildListener], Routes := [sm.buildRouteConfig views]
        Clusters := sm.buildClusters views, Endpoints := sm.buildEndpoints views } := by
  have hmem : ∀ {β : Type} (l : List β) (f : β → GoString) (n : GoString),
      n ∈ l.map f → ∃ x ∈ l, f x = n :=
    fun l f n h => by
      obtain ⟨x, hx, rfl⟩ := List.mem_map.mp h
      exact ⟨x, hx, rfl⟩
  refine ⟨?_, ?_, ?_⟩
  · intro rc hrc n hn
    simp only [List.mem_singleton] at hrc
    subst hrc
    apply hmem
    rw [map_Name_buildClusters, ← clusterReferences_buildRouteConfig]
    exact hn
  · intro c hc heds
    apply hmem
    rw [map_ClusterName_buildEndpoints]
    rw [buildClusters_eq] at hc
    rcases List.mem_cons.mp hc with rfl | hc
    · simp [sidecarApiCluster] at heds
    · obtain ⟨v, hv, rfl⟩ := List.mem_map.mp hc
      exact List.mem_map.mpr ⟨v, hv, rfl⟩
  · intro a ha
    apply hmem
    rw [map_Name_buildClusters]
    have := List.mem_map_of_mem (·.ClusterName) ha
    rw [map_ClusterName_buildEndpoints] at this
    exact List.mem_cons_of_mem _ this

/-! ## The snapshot cache in memory accepts the built resources -/

theorem keys_mapSet {β : Type} (m : List (GoString × β)) (k : GoString) (v : β) :
    (mapSet m k v).map (·.1) = insertKey (m.map (·.1)) k := by
  unfold mapSet insertKey
  by_cases h : k ∈ m.map (·.1)
  · have hany : m.any (fun e => decide (e.1 = k)) = true := by
      obtain ⟨e, he, hk⟩ := List.mem_map.mp h
      exact List.any_eq_true.mpr ⟨e, he, by simpa using hk⟩
    simp only [hany, if_true, h, List.map_map]
    apply List.map_congr_left
    intro e _
    by_cases hek : e.1 = k
    · simp [hek]
    · simp [hek]
  · have hany : ¬ (m.any (fun e => decide (e.1 = k)) = true) := by
      intro ha
      obtain ⟨e, he, hk⟩ := List.any_eq_true.mp ha
      exact h (List.mem_map.mpr ⟨e, he, by simpa using hk⟩)
    simp [hany, h]

theorem mem_mapSet {β : Type} {m : List (GoString × β)} {k : GoString} {v : β}
    {e : GoString × β} (h : e ∈ mapSet m k v) : e ∈ m ∨ e = (k, v) := by
  unfold mapSet at h
  split at h
  · obtain ⟨x, hx, rfl⟩ := List.mem_map.mp h
    by_cases hxk : x.1 = k
    · simp [hxk]
    · simp [hxk, hx]
  · rcases List.mem_append.mp h with h | h
    · exact Or.inl h
    · exact Or.inr (List.mem_singleton.mp h)

theorem keys_foldl_mapSet {α : Type} (name : α → GoString) (items : List α)
    (m : List (GoString × α)) :
    (items.foldl (fun m r => mapSet m (name r) r) m).map (·.1)
      = (items.map name).foldl insertKey (m.map (·.1)) := by
  induction items generalizing m with
  | nil => rfl
  | cons r rs ih => simp only [List.foldl_cons, List.map_cons, ih, keys_mapSet]

theorem keys_indexByName {α : Type} (name : α → GoString) (items : List α) :
    (indexByName name items).map (·.1) = (items.map name).foldl insertKey [] :=
  keys_foldl_mapSet name items []

theorem forall_foldl_mapSet {α : Type} (name : α → GoString) (P : GoString → α → Prop)
    (items : List α) (m : List (GoString × α))
    (hm : ∀ e ∈ m, P e.1 e.2) (hitems : ∀ r ∈ items, P (name r) r) :
    ∀ e ∈ items.foldl (fun m r => mapSet m (name r) r) m, P e.1 e.2 := by
  induction items generalizing m with
  | nil => exact hm
  | cons r rs ih =>
    refine ih _ ?_ (fun x hx => hitems x (List.mem_cons_of_mem _ hx))
    intro e he
    rcases mem_mapSet he with he | rfl
    · exact hm e he
    · exact hitems r (List.mem_cons_self _ _)

theorem mem_foldl_insertKey {names acc : List GoString} {k : GoString}
    (h : k ∈ names.foldl insertKey acc) : k ∈ acc ∨ k ∈ names := by
  induction names generalizing acc with
  | nil => exact Or.inl h
  | cons n ns ih =>
    rcases ih h with h | h
    · unfold insertKey at h
      split at h
      · exact Or.inl h
      · rcases List.mem_append.mp h with h | h
        · exact Or.inl h
        · exact Or.inr (by simp [List.mem_singleton.mp h])
    · exact Or.inr (List.mem_cons_of_mem _ h)

theorem foldl_insertKey_cons {names acc : List GoString} {s : GoString} (hs : s ∉ names) :
    names.foldl insertKey (s :: acc) = s :: names.foldl insertKey acc := by
  induction names generalizing acc with
  | nil => rfl
  | cons n ns ih =>
    have hn : n ≠ s := fun h => hs (by simp [h])
    have hns : s ∉ ns := fun h => hs (List.mem_cons_of_mem _ h)
    have : insertKey (s :: acc) n = s :: insertKey acc n := by
      unfold insertKey
      by_cases hmem : n ∈ acc
      · simp [hmem]
      · simp [hmem, hn]
    simp only [List.foldl_cons, this, ih hns]

theorem sidecar_api_ne_prefixed (n : GoString) : "sidecar_api".toList ≠ viewNamePrefix ++ n := by
  intro h
  have h2 : some 's' = some 'v' := congrArg List.head? h
  exact absurd h2 (by decide)

theorem sidecar_api_not_mem_prefixed (views : List ViewState) :
    "sidecar_api".toList ∉ views.map (fun v => viewNamePrefix ++ v.Name) := by
  intro h
  obtain ⟨v, _, hv⟩ := List.mem_map.mp h
  exact sidecar_api_ne_prefixed v.Name hv.symm

/-- The endpoint assignments the built clusters refer to are the names of the
views, each once. -/
theorem endpointReferences_built (sm : SnapshotManager) (views : List ViewState)
    (version : GoString) (listeners : List Listener) (routes : List RouteConfiguration)
    (endpoints : List ClusterLoadAssignment) :
    (Snapshot.mk version
        { Listeners := listeners, Routes := routes, Clusters := sm.buildClusters views
          Endpoints := endpoints }).endpointReferences
      = (views.map (fun v => viewNamePrefix ++ v.Name)).foldl insertKey [] := by
  unfold Snapshot.endpointReferences
  simp only
  have hP : ∀ e ∈ indexByName (·.Name) (sm.buildClusters views),
      (e.2.ClusterDiscoveryType = .EDS ↔ e.1 ≠ "sidecar_api".toList) := by
    refine forall_foldl_mapSet (fun c : Cluster => c.Name)
      (fun k c => (c.ClusterDiscoveryType = .EDS ↔ k ≠ "sidecar_api".toList))
      (sm.buildClusters views) [] ?_ ?_
    · intro e he
      cases he
    · intro c hc
      rw [buildClusters_eq] at hc
      rcases List.mem_cons.mp hc with rfl | hc
      · simp [sidecarApiCluster]
      · obtain ⟨v, _, rfl⟩ := List.mem_map.mp hc
        simp only [true_iff]
        exact fun h => sidecar_api_ne_prefixed v.Name h.symm
  have hfilter : (indexByName (·.Name) (sm.buildClusters views)).filter
        (fun e => decide (e.2.ClusterDiscoveryType = .EDS))
      = (indexByName (·.Name) (sm.buildClusters views)).filter
        ((fun k => decide (k ≠ "sidecar_api".toList)) ∘ (·.1)) := by
    apply List.filter_congr
    intro e he
    simp only [Function.comp]
    exact decide_eq_decide.mpr (hP e he)
  rw [hfilter, ← List.filter_map, keys_indexByName, map_Name_buildClusters, List.foldl_cons]
  have hins : insertKey [] "sidecar_api".toList = ["sidecar_api".toList] := rfl
  rw [hins, foldl_insertKey_cons (sidecar_api_not_mem_prefixed views), List.filter_cons]
  simp only [ne_eq, not_true_eq_false, decide_False, Bool.false_eq_true, if_false]
  rw [List.filter_eq_self]
  intro k hk
  rcases mem_foldl_insertKey hk with hk | hk
  · cases hk
  · simp only [decide_eq_true_eq]
    rintro rfl
    exact sidecar_api_not_mem_prefixed views hk

/-- The consistency check of the snapshot cache accepts the resources that
`pushSnapshot` builds, whatever the views. -/
theorem Consistent_built (sm : SnapshotManager) (views : List ViewState) (version : GoString) :
    Snapshot.Consistent
      { Version := version
        Resources :=
          { Listeners := [sm.buildListener], Routes := [sm.buildRouteConfig views]
            Clusters := sm.buildClusters views, Endpoints := sm.buildEndpoints views } }
      = none := by
  have hkeys : (indexByName (·.ClusterName) (sm.buildEndpoints views)).map (·.1)
      = (views.map (fun v => viewNamePrefix ++ v.Name)).foldl insertKey [] := by
    rw [keys_indexByName, map_ClusterName_buildEndpoints]
  have hrefs := endpointReferences_built sm views version [sm.buildListener]
    [sm.buildRouteConfig views] (sm.buildEndpoints views)
  have hlen : (Snapshot.mk version
        { Listeners := [sm.buildListener], Routes := [sm.buildRouteConfig views]
          Clusters := sm.buildClusters views
          Endpoints := sm.buildEndpoints views }).endpointReferences.length
      = (indexByName (·.ClusterName) (sm.buildEndpoints views)).length := by
    rw [hrefs, ← hkeys, List.length_map]
  have hall : (indexByName (·.ClusterName) (sm.buildEndpoints views)).all
      (fun e => decide (e.1 ∈ (Snapshot.mk version
        { Listeners := [sm.buildListener], Routes := [sm.buildRouteConfig views]
          Clusters := sm.buildClusters views
          Endpoints := sm.buildEndpoints views }).endpointReferences)) = true := by
    rw [List.all_eq_true]
    intro e he
    rw [hrefs, ← hkeys]
    simp only [decide_eq_true_eq]
    exact List.mem_map_of_mem (·.1) he
  have hroutes : indexByName (·.Name) [sm.buildRouteConfig views]
      = [("local_route".toList, sm.buildRouteConfig views)] := rfl
  have hrr : (Snapshot.mk version
        { Listeners := [sm.buildListener], Routes := [sm.buildRouteConfig views]
          Clusters := sm.buildClusters views
          Endpoints := sm.buildEndpoints views }).routeReferences
      = ["local_route".toList] := rfl
  unfold Snapshot.Consistent
  simp only [hlen, hall, hroutes, hrr]
  simp

/-! ## The snapshot push -/

/-- What `pushSnapshot` does to the manager, whatever the library answers: the
counter grows by one, the store and the base hostname stay, and the version
string is the new counter in decimal. -/
theorem pushSnapshot_sm {κ : Type} (lib : SnapshotLibrary κ) (sm : SnapshotManager) (cache : κ) :
    (sm.pushSnapshot lib cache).sm = { sm with version := sm.version + 1 } ∧
      (sm.pushSnapshot lib cache).versionStr = sprintfInt (sm.version + 1) := by
  unfold SnapshotManager.pushSnapshot
  simp only
  split
  · exact ⟨rfl, rfl⟩
  · split
    · exact ⟨rfl, rfl⟩
    · split <;> exact ⟨rfl, rfl⟩

/-- Over the snapshot cache in memory every push succeeds and installs the
snapshot of the built resources under the node `gateway`. -/
theorem pushSnapshot_snapshotCache (sm : SnapshotManager) (cache : List (GoString × Snapshot)) :
    ∃ snapshot : Snapshot,
      snapshot.Version = sprintfInt (sm.version + 1) ∧
      snapshot.Resources.InternallyConsistent ∧
      (sm.pushSnapshot snapshotCache cache).err = none ∧
      (sm.pushSnapshot snapshotCache cache).setSnapshot = some snapshot ∧
      (sm.pushSnapshot snapshotCache cache).cache = mapSet cache nodeID snapshot := by
  refine ⟨{ Version := sprintfInt (sm.version + 1)
            Resources :=
              { Listeners := [sm.buildListener]
                Routes := [SnapshotManager.buildRouteConfig { sm with version := sm.version + 1 }
                  (match sm.store with
                    | some store => store.ListViews
                    | none => [])]
                Clusters := SnapshotManager.buildClusters { sm with version := sm.version + 1 }
                  (match sm.store with
                    | some store => store.ListViews
                    | none => [])
                Endpoints := SnapshotManager.buildEndpoints { sm with version := sm.version + 1 }
                  (match sm.store with
                    | some store => store.ListViews
                    | none => []) } }, rfl,
    built_InternallyConsistent { sm with version := sm.version + 1 } _, ?_⟩
  unfold SnapshotManager.pushSnapshot
  simp only [snapshotCache, Consistent_built]
  exact ⟨trivial, rfl, rfl⟩

theorem find?_map_replace {β : Type} (m : List (GoString × β)) (k : GoString) (v : β)
    (hany : m.any (fun e => decide (e.1 = k)) = true) :
    (m.map (fun e => if e.1 = k then (k, v) else e)).find? (fun e => decide (e.1 = k))
      = some (k, v) := by
  induction m with
  | nil => cases hany
  | cons e es ih =>
    rw [List.map_cons]
    by_cases hek : e.1 = k
    · rw [if_pos hek, List.find?_cons_of_pos]
      exact decide_eq_true rfl
    · rw [if_neg hek, List.find?_cons_of_neg]
      · apply ih
        rw [List.any_cons] at hany
        rcases Bool.or_eq_true _ _ ▸ hany with h | h
        · exact absurd (of_decide_eq_true h) hek
        · exact h
      · exact fun h => hek (of_decide_eq_true h)

theorem mapGet_mapSet {β : Type} (m : List (GoString × β)) (k : GoString) (v : β) :
    mapGet (mapSet m k v) k = some v := by
  unfold mapSet mapGet
  split
  · rename_i hany
    rw [find?_map_replace m k v hany]
    rfl
  · rename_i hany
    have hnone : m.find? (fun e => decide (e.1 = k)) = none := by
      rw [List.find?_eq_none]
      intro e he hk
      exact hany (List.any_eq_true.mpr ⟨e, he, hk⟩)
    rw [List.find?_append, hnone]
    rw [List.find?_cons_of_pos]
    · rfl
    · exact decide_eq_true rfl

/-- Claim C13: for every list of views, every cluster a built route refers to is a
built cluster, every built EDS cluster has a built endpoint assignment of its
name, and every built assignment has a built cluster of its name; the snapshot
that `pushSnapshot` installs in the snapshot cache holds resources built this way
from one view list. -/
theorem built_resources_consistent (sm : SnapshotManager) (views : List ViewState) :
    (∀ n ∈ (sm.buildRouteConfig views).clusterReferences,
        ∃ c ∈ sm.buildClusters views, c.Name = n) ∧
      (∀ c ∈ sm.buildClusters views, c.ClusterDiscoveryType = .EDS →
        ∃ a ∈ sm.buildEndpoints views, a.ClusterName = c.Name) ∧
      (∀ a ∈ sm.buildEndpoints views, ∃ c ∈ sm.buildClusters views, c.Name = a.ClusterName) ∧
      (∀ cache : List (GoString × Snapshot), ∃ snapshot : Snapshot,
        (sm.pushSnapshot snapshotCache cache).setSnapshot = some snapshot ∧
        snapshot.Resources.InternallyConsistent) := by
  obtain ⟨h1, h2, h3⟩ := built_InternallyConsistent sm views
  refine ⟨fun n hn => h1 _ (List.mem_singleton.mpr rfl) n hn, h2, h3, ?_⟩
  intro cache
  obtain ⟨snapshot, _, hcons, _, hset, _⟩ := pushSnapshot_snapshotCache sm cache
  exact ⟨snapshot, hset, hcons⟩

/-! ## Version strings -/

theorem toDigitsCore_append (fuel n : Nat) (ds : List Char) :
    Nat.toDigitsCore 10 fuel n ds = Nat.toDigitsCore 10 fuel n [] ++ ds := by
  induction fuel generalizing n ds with
  | zero => simp [Nat.toDigitsCore]
  | succ f ih =>
    simp only [Nat.toDigitsCore]
    split
    · simp
    · rw [ih (n / 10) ((n % 10).digitChar :: ds), ih (n / 10) [(n % 10).digitChar]]
      simp

theorem digitChar_toNat {m : Nat} (h : m < 10) : (Nat.digitChar m).toNat - 48 = m := by
  interval_cases m <;> rfl

theorem decimalValue_toDigitsCore (fuel n : Nat) (h : n < fuel) :
    decimalValue (Nat.toDigitsCore 10 fuel n []) = n := by
  induction fuel generalizing n with
  | zero => omega
  | succ f ih =>
    simp only [Nat.toDigitsCore]
    have hd := digitChar_toNat (Nat.mod_lt n (by norm_num : 0 < 10))
    split
    · rename_i h0
      simp only [decimalValue, List.foldl_cons, List.foldl_nil, hd]
      omega
    · rename_i h0
      rw [toDigitsCore_append]
      have := ih (n / 10) (by omega)
      simp only [decimalValue, List.foldl_append, List.foldl_cons, List.foldl_nil] at this ⊢
      rw [this, hd]
      omega

theorem sprintfInt_natCast (n : Nat) : sprintfInt (n : Int) = Nat.toDigits 10 n := by
  rfl

/-- The decimal string of a counter value reads back as that value. -/
theorem decimalValue_sprintfInt (n : Nat) : decimalValue (sprintfInt (n : Int)) = n := by
  rw [sprintfInt_natCast]
  exact decimalValue_toDigitsCore (n + 1) n (by omega)

theorem sprintfInt_injective_nat {m n : Nat} (h : sprintfInt (m : Int) = sprintfInt (n : Int)) :
    m = n := by
  have h1 := decimalValue_sprintfInt m
  rw [h, decimalValue_sprintfInt] at h1
  exact h1.symm

/-! ## The version counter -/

theorem rebuildEach_length {κ : Type} (lib : SnapshotLibrary κ)
    (stores : List (Option ViewStore)) (sm : SnapshotManager) (cache : κ) :
    (rebuildEach lib stores sm cache).length = stores.length := by
  induction stores generalizing sm cache with
  | nil => rfl
  | cons st rest ih => simp [rebuildEach, ih]

/-- The counter after the `i`-th of successive rebuilds is the counter before
them plus `i + 1`. -/
theorem rebuildEach_versions {κ : Type} (lib : SnapshotLibrary κ)
    (stores : List (Option ViewStore)) (sm : SnapshotManager) (cache : κ) :
    (rebuildEach lib stores sm cache).map (fun r => (r.sm.version, r.versionStr))
      = (List.range stores.length).map
          (fun i => (sm.version + ((i : Nat) : Int) + 1,
            sprintfInt (sm.version + ((i : Nat) : Int) + 1))) := by
  induction stores generalizing sm cache with
  | nil => rfl
  | cons st rest ih =>
    have hsm := pushSnapshot_sm lib { sm with store := st } cache
    simp only [rebuildEach, SnapshotManager.Rebuild, List.map_cons, List.length_cons,
      List.range_succ_eq_map, List.map_map, ih]
    refine congrArg₂ List.cons ?_ ?_
    · rw [hsm.1, hsm.2]
      simp
    · apply List.map_congr_left
      intro i _
      simp only [Function.comp, hsm.1, Nat.succ_eq_add_one, Nat.cast_add, Nat.cast_one]
      have : sm.version + 1 + (i : Int) + 1 = sm.version + ((i : Int) + 1) + 1 := by ring
      rw [this]

theorem rebuildEach_version_fresh {κ : Type} (lib : SnapshotLibrary κ) (b : GoString)
    (store : Option ViewStore) (stores : List (Option ViewStore)) (cache : κ) :
    (rebuildEach lib stores (NewSnapshotManager b store) cache).map (fun r => r.sm.version)
        = (List.range stores.length).map (fun i => ((i : Nat) : Int) + 1) ∧
      (rebuildEach lib stores (NewSnapshotManager b store) cache).map (fun r => r.versionStr)
        = (List.range stores.length).map (fun i => sprintfInt (((i : Nat) : Int) + 1)) := by
  have h := rebuildEach_versions lib stores (NewSnapshotManager b store) cache
  have h1 := congrArg (List.map Prod.fst) h
  have h2 := congrArg (List.map Prod.snd) h
  simp only [List.map_map, Function.comp, NewSnapshotManager, zero_add] at h1 h2
  exact ⟨h1, h2⟩

/-- Claim C14: on a fresh manager `Initialize` sets the counter to 1 and uses the
version string `1`, which the snapshot cache then publishes; every `Rebuild`
adds exactly 1 to the counter whatever the library answers; so the `i`-th of k
successive calls runs with counter and version `i`, the counter ends at k, the
versions of the snapshots that were published are strictly increasing, and no
version string is used twice. -/
theorem version_counter {κ : Type} (lib : SnapshotLibrary κ) (b : GoString)
    (store : Option ViewStore) (stores : List (Option ViewStore)) (cache : κ) :
    ((NewSnapshotManager b store).Initialize lib cache).sm.version = 1 ∧
      ((NewSnapshotManager b store).Initialize lib cache).versionStr = "1".toList ∧
      (∃ snapshot : Snapshot,
        ((NewSnapshotManager b store).Initialize snapshotCache []).err = none ∧
        snapshotCache.GetSnapshot nodeID
          ((NewSnapshotManager b store).Initialize snapshotCache []).cache = some snapshot ∧
        snapshot.Version = "1".toList) ∧
      (∀ (sm : SnapshotManager) (c : κ), (sm.Rebuild lib c).sm.version = sm.version + 1) ∧
      (rebuildEach lib stores (NewSnapshotManager b store) cache).length = stores.length ∧
      (rebuildEach lib stores (NewSnapshotManager b store) cache).map (fun r => r.sm.version)
        = (List.range stores.length).map (fun i => ((i : Nat) : Int) + 1) ∧
      (rebuildEach lib stores (NewSnapshotManager b store) cache).map (fun r => r.versionStr)
        = (List.range stores.length).map (fun i => sprintfInt (((i : Nat) : Int) + 1)) ∧
      (∀ r, (rebuildEach lib stores (NewSnapshotManager b store) cache).getLast? = some r →
        r.sm.version = stores.length) ∧
      (((rebuildEach lib stores (NewSnapshotManager b store) cache).filter
        (fun r => r.err.isNone)).map (fun r => r.sm.version)).Pairwise (· < ·) ∧
      ((rebuildEach lib stores (NewSnapshotManager b store) cache).map
        (fun r => r.versionStr)).Nodup := by
  obtain ⟨hver, hstr⟩ := rebuildEach_version_fresh lib b store stores cache
  have hpair : ((List.range stores.length).map (fun i => ((i : Nat) : Int) + 1)).Pairwise
      (· < ·) := by
    rw [List.pairwise_map]
    exact (List.pairwise_lt_range stores.length).imp (fun {i j} hij => by omega)
  refine ⟨?_, ?_, ?_, ?_, rebuildEach_length _ _ _ _, hver, hstr, ?_, ?_, ?_⟩
  · exact (pushSnapshot_sm lib (NewSnapshotManager b store) cache).1 ▸ rfl
  · exact (pushSnapshot_sm lib (NewSnapshotManager b store) cache).2
  · obtain ⟨snapshot, hv, _, herr, _, hcache⟩ :=
      pushSnapshot_snapshotCache (NewSnapshotManager b store) []
    refine ⟨snapshot, herr, ?_, hv⟩
    show mapGet ((NewSnapshotManager b store).pushSnapshot snapshotCache []).cache nodeID = _
    rw [hcache]
    exact mapGet_mapSet _ _ _
  · intro sm c
    exact (pushSnapshot_sm lib sm c).1 ▸ rfl
  · intro r hr
    have hlast := congrArg List.getLast? hver
    rw [List.getLast?_map, hr] at hlast
    cases hk : stores.length with
    | zero =>
      have hnil := rebuildEach_length lib stores (NewSnapshotManager b store) cache
      rw [hk, List.length_eq_zero] at hnil
      rw [hnil] at hr
      cases hr
    | succ k =>
      rw [hk, List.range_succ, List.map_append, List.getLast?_append] at hlast
      simp only [List.map_cons, List.map_nil, List.getLast?_singleton, Option.map_some',
        Option.or_some, Option.some.injEq] at hlast
      rw [hlast]
      push_cast
      rfl
  · have hsub : (((rebuildEach lib stores (NewSnapshotManager b store) cache).filter
        (fun r => r.err.isNone)).map (fun r => r.sm.version)).Sublist
        ((rebuildEach lib stores (NewSnapshotManager b store) cache).map
          (fun r => r.sm.version)) :=
      (List.filter_sublist _).map _
    rw [hver] at hsub
    exact hpair.sublist hsub
  · rw [hstr]
    refine List.Nodup.map_on ?_ (List.nodup_range _)
    intro i _ j _ hij
    have hi : ((i : Nat) : Int) + 1 = ((i + 1 : Nat) : Int) := by push_cast; rfl
    have hj : ((j : Nat) : Int) + 1 = ((j + 1 : Nat) : Int) := by push_cast; rfl
    rw [hi, hj] at hij
    have := sprintfInt_injective_nat hij
    omega

/-! ## Failed rebuilds -/

/-- Claim C15, as the code has it: `Rebuild` answers by the first step of the
library that fails.  When `NewSnapshot` or the consistency check fails, `Rebuild`
returns that error, `SetSnapshot` is not called and the cache is left as it was,
so the snapshot published for `gateway` is the one before the call.  When
`SetSnapshot` fails, `Rebuild` returns that error and leaves the cache as
`SetSnapshot` left it.  `SetSnapshot` is called only with a snapshot that was
constructed and passed the consistency check. -/
theorem Rebuild_outcome {κ : Type} (lib : SnapshotLibrary κ) (sm : SnapshotManager) (cache : κ) :
    (∀ e, lib.NewSnapshot (sprintfInt (sm.version + 1))
          (SnapshotManager.snapshotResources { sm with version := sm.version + 1 }) = .error e →
        (sm.Rebuild lib cache).err = some ⟨"failed to create snapshot: ".toList, e⟩ ∧
        (sm.Rebuild lib cache).setSnapshot = none ∧
        (sm.Rebuild lib cache).cache = cache ∧
        lib.GetSnapshot nodeID (sm.Rebuild lib cache).cache = lib.GetSnapshot nodeID cache) ∧
      (∀ snapshot e, lib.NewSnapshot (sprintfInt (sm.version + 1))
          (SnapshotManager.snapshotResources { sm with version := sm.version + 1 })
            = .ok snapshot →
        lib.Consistent snapshot = some e →
        (sm.Rebuild lib cache).err = some ⟨"snapshot inconsistent: ".toList, e⟩ ∧
        (sm.Rebuild lib cache).setSnapshot = none ∧
        (sm.Rebuild lib cache).cache = cache ∧
        lib.GetSnapshot nodeID (sm.Rebuild lib cache).cache = lib.GetSnapshot nodeID cache) ∧
      (∀ snapshot e cache1, lib.NewSnapshot (sprintfInt (sm.version + 1))
          (SnapshotManager.snapshotResources { sm with version := sm.version + 1 })
            = .ok snapshot →
        lib.Consistent snapshot = none →
        lib.SetSnapshot nodeID snapshot cache = (some e, cache1) →
        (sm.Rebuild lib cache).err = some ⟨"failed to set snapshot: ".toList, e⟩ ∧
        (sm.Rebuild lib cache).setSnapshot = some snapshot ∧
        (sm.Rebuild lib cache).cache = cache1) ∧
      (∀ snapshot cache1, lib.NewSnapshot (sprintfInt (sm.version + 1))
          (SnapshotManager.snapshotResources { sm with version := sm.version + 1 })
            = .ok snapshot →
        lib.Consistent snapshot = none →
        lib.SetSnapshot nodeID snapshot cache = (none, cache1) →
        (sm.Rebuild lib cache).err = none ∧
        (sm.Rebuild lib cache).setSnapshot = some snapshot ∧
        (sm.Rebuild lib cache).cache = cache1) ∧
      (∀ snapshot, (sm.Rebuild lib cache).setSnapshot = some snapshot →
        lib.NewSnapshot (sprintfInt (sm.version + 1))
          (SnapshotManager.snapshotResources { sm with version := sm.version + 1 })
            = .ok snapshot ∧
        lib.Consistent snapshot = none) := by
  have hunfold : sm.Rebuild lib cache =
      match lib.NewSnapshot (sprintfInt (sm.version + 1))
          (SnapshotManager.snapshotResources { sm with version := sm.version + 1 }) with
      | .error e =>
        { err := some ⟨"failed to create snapshot: ".toList, e⟩
          sm := { sm with version := sm.version + 1 }
          versionStr := sprintfInt (sm.version + 1), setSnapshot := none, cache := cache }
      | .ok snapshot =>
        match lib.Consistent snapshot with
        | some e =>
          { err := some ⟨"snapshot inconsistent: ".toList, e⟩
            sm := { sm with version := sm.version + 1 }
            versionStr := sprintfInt (sm.version + 1), setSnapshot := none, cache := cache }
        | none =>
          match lib.SetSnapshot nodeID snapshot cache with
          | (some e, cache1) =>
            { err := some ⟨"failed to set snapshot: ".toList, e⟩
              sm := { sm with version := sm.version + 1 }
              versionStr := sprintfInt (sm.version + 1), setSnapshot := some snapshot
              cache := cache1 }
          | (none, cache1) =>
            { err := none
              sm := { sm with version := sm.version + 1 }
              versionStr := sprintfInt (sm.version + 1), setSnapshot := some snapshot
              cache := cache1 } := rfl
  rw [hunfold]
  refine ⟨?_, ?_, ?_, ?_, ?_⟩
  · intro e h1
    rw [h1]
    exact ⟨rfl, rfl, rfl, rfl⟩
  · intro snapshot e h1 h2
    rw [h1]
    simp only [h2, and_self]
  · intro snapshot e cache1 h1 h2 h3
    rw [h1]
    simp only [h2, h3, and_self]
  · intro snapshot cache1 h1 h2 h3
    rw [h1]
    simp only [h2, h3, and_self]
  · intro snapshot hset
    cases h1 : lib.NewSnapshot (sprintfInt (sm.version + 1))
        (SnapshotManager.snapshotResources { sm with version := sm.version + 1 }) with
    | error e =>
      rw [h1] at hset
      cases hset
    | ok s0 =>
      rw [h1] at hset
      cases h2 : lib.Consistent s0 with
      | some e =>
        simp only [h2] at hset
        cases hset
      | none =>
        simp only [h2] at hset
        cases h3 : lib.SetSnapshot nodeID s0 cache with
        | mk err cache1 =>
          cases err with
          | some e =>
            simp only [h3, Option.some.injEq] at hset
            exact ⟨by rw [hset], hset ▸ h2⟩
          | none =>
            simp only [h3, Option.some.injEq] at hset
            exact ⟨by rw [hset], hset ▸ h2⟩

theorem Rebuild_outcome_witness :
    ((failingNewSnapshot "no memory".toList).NewSnapshot
          (sprintfInt (initializedManager.version + 1))
          (SnapshotManager.snapshotResources
            { initializedManager with version := initializedManager.version + 1 })
        = .error "no memory".toList ∧
      (initializedManager.Rebuild (failingNewSnapshot "no memory".toList) initializedCache).err
        = some ⟨"failed to create snapshot: ".toList, "no memory".toList⟩ ∧
      (initializedManager.Rebuild (failingNewSnapshot "no memory".toList)
        initializedCache).setSnapshot = none ∧
      (initializedManager.Rebuild (failingNewSnapshot "no memory".toList)
        initializedCache).cache = initializedCache ∧
      (failingNewSnapshot "no memory".toList).GetSnapshot nodeID
          (initializedManager.Rebuild (failingNewSnapshot "no memory".toList)
            initializedCache).cache
        = (failingNewSnapshot "no memory".toList).GetSnapshot nodeID initializedCache) ∧
    ((failingConsistent "mismatch".toList).NewSnapshot
          (sprintfInt (initializedManager.version + 1))
          (SnapshotManager.snapshotResources
            { initializedManager with version := initializedManager.version + 1 })
        = .ok ⟨sprintfInt (initializedManager.version + 1),
            SnapshotManager.snapshotResources
              { initializedManager with version := initializedManager.version + 1 }⟩ ∧
      (failingConsistent "mismatch".toList).Consistent
          ⟨sprintfInt (initializedManager.version + 1),
            SnapshotManager.snapshotResources
              { initializedManager with version := initializedManager.version + 1 }⟩
        = some "mismatch".toList ∧
      (initializedManager.Rebuild (failingConsistent "mismatch".toList) initializedCache).err
        = some ⟨"snapshot inconsistent: ".toList, "mismatch".toList⟩ ∧
      (initializedManager.Rebuild (failingConsistent "mismatch".toList)
        initializedCache).setSnapshot = none ∧
      (initializedManager.Rebuild (failingConsistent "mismatch".toList)
        initializedCache).cache = initializedCache ∧
      (failingConsistent "mismatch".toList).GetSnapshot nodeID
          (initializedManager.Rebuild (failingConsistent "mismatch".toList)
            initializedCache).cache
        = (failingConsistent "mismatch".toList).GetSnapshot nodeID initializedCache) ∧
    ((initializedManager.Rebuild (watchFailingCache "watch closed".toList)
        initializedCache).err
        = some ⟨"failed to set snapshot: ".toList, "watch closed".toList⟩ ∧
      (initializedManager.Rebuild (watchFailingCache "watch closed".toList)
        initializedCache).setSnapshot
        = some ⟨sprintfInt (initializedManager.version + 1),
            SnapshotManager.snapshotResources
              { initializedManager with version := initializedManager.version + 1 }⟩ ∧
      (initializedManager.Rebuild (watchFailingCache "watch closed".toList)
        initializedCache).cache
        = mapSet initializedCache nodeID
            ⟨sprintfInt (initializedManager.version + 1),
              SnapshotManager.snapshotResources
                { initializedManager with version := initializedManager.version + 1 }⟩) ∧
    ((initializedManager.Rebuild snapshotCache initializedCache).err = none ∧
      (initializedManager.Rebuild snapshotCache initializedCache).setSnapshot
        = some ⟨sprintfInt (initializedManager.version + 1),
            SnapshotManager.snapshotResources
              { initializedManager with version := initializedManager.version + 1 }⟩ ∧
      (initializedManager.Rebuild snapshotCache initializedCache).cache
        = mapSet initializedCache nodeID
            ⟨sprintfInt (initializedManager.version + 1),
              SnapshotManager.snapshotResources
                { initializedManager with version := initializedManager.version + 1 }⟩) :=
  ⟨⟨rfl, (Rebuild_outcome (failingNewSnapshot "no memory".toList) initializedManager
      initializedCache).1 "no memory".toList rfl⟩,
    ⟨rfl, rfl, (Rebuild_outcome (failingConsistent "mismatch".toList) initializedManager
      initializedCache).2.1 _ "mismatch".toList rfl rfl⟩,
    (Rebuild_outcome (watchFailingCache "watch closed".toList) initializedManager
      initializedCache).2.2.1 _ "watch closed".toList _ rfl (by decide) rfl,
    (Rebuild_outcome snapshotCache initializedManager initializedCache).2.2.2.1 _ _ rfl
      (by decide) rfl⟩

/-- Claim C15 fails as stated: version `1` is published for node `gateway`; a
rebuild whose `SetSnapshot` stores the snapshot and then reports an error returns
that error, and the snapshot published for `gateway` is then version `2`, not the
one before the call. -/
theorem Rebuild_install_failure_replaces_snapshot :
    (initializedManager.Rebuild (watchFailingCache "watch closed".toList) initializedCache).err
        = some ⟨"failed to set snapshot: ".toList, "watch closed".toList⟩ ∧
      ((watchFailingCache "watch closed".toList).GetSnapshot nodeID initializedCache).map
        (fun snapshot => snapshot.Version) = some "1".toList ∧
      ((watchFailingCache "watch closed".toList).GetSnapshot nodeID
        (initializedManager.Rebuild (watchFailingCache "watch closed".toList)
          initializedCache).cache).map (fun snapshot => snapshot.Version) = some "2".toList ∧
      (watchFailingCache "watch closed".toList).GetSnapshot nodeID
          (initializedManager.Rebuild (watchFailingCache "watch closed".toList)
            initializedCache).cache
        ≠ (watchFailingCache "watch closed".toList).GetSnapshot nodeID initializedCache := by
  decide

/-! ## The orchestrator client -/

/-- What `CreateViewJob` returns for each answer of the orchestrator. -/
theorem CreateViewJob_eq {σ : Type} (k : K8sClient σ) (name : GoString) (subset : Subset)
    (c c1 : σ) (err : Option APIError)
    (h : k.client.JobsCreate k.namespace_ (viewJob k.namespace_ name subset) c = (err, c1)) :
    k.CreateViewJob name subset c
      = (match err with
          | none => none
          | some .AlreadyExists => none
          | some e => some ⟨"failed to create job for view ".toList ++ name ++ ": ".toList, e⟩,
        c1) := by
  unfold K8sClient.CreateViewJob
  simp only [h]
  cases err with
  | none => rfl
  | some e => cases e <;> rfl

theorem fake_JobsCreate (ns : GoString) (job : Job) (fc : FakeCluster) :
    fakeClientset.JobsCreate ns job fc
      = if fc.jobs.any (fun j => j.ObjectMeta.isNamed ns job.ObjectMeta.Name) then
          (some .AlreadyExists, fc)
        else (none, { fc with jobs := fc.jobs ++ [job] }) := rfl

/-- The in-memory cluster refuses a second job of a name and stays as it is. -/
theorem fake_CreateViewJob_twice (name : GoString) (subset subset2 : Subset) (fc : FakeCluster) :
    ((NewK8sClient fakeClientset).CreateViewJob name subset fc).1 = none ∧
      (NewK8sClient fakeClientset).CreateViewJob name subset2
          ((NewK8sClient fakeClientset).CreateViewJob name subset fc).2
        = (none, ((NewK8sClient fakeClientset).CreateViewJob name subset fc).2) ∧
      fakeClientset.JobsCreate viewNamespace (viewJob viewNamespace name subset2)
          ((NewK8sClient fakeClientset).CreateViewJob name subset fc).2
        = (some .AlreadyExists, ((NewK8sClient fakeClientset).CreateViewJob name subset fc).2) := by
  have hname : ∀ sub : Subset, (viewJob viewNamespace name sub).ObjectMeta.Name
      = viewNamePrefix ++ name := fun _ => rfl
  have hexists : ∀ (sub : Subset) (c : FakeCluster),
      c.jobs.any (fun j => j.ObjectMeta.isNamed viewNamespace (viewNamePrefix ++ name)) = true →
      fakeClientset.JobsCreate viewNamespace (viewJob viewNamespace name sub) c
          = (some .AlreadyExists, c) ∧
        (NewK8sClient fakeClientset).CreateViewJob name sub c = (none, c) := by
    intro sub c hc
    have hcreate : fakeClientset.JobsCreate viewNamespace (viewJob viewNamespace name sub) c
        = (some .AlreadyExists, c) := by
      rw [fake_JobsCreate, hname, if_pos hc]
    exact ⟨hcreate, CreateViewJob_eq (NewK8sClient fakeClientset) name sub c c _ hcreate⟩
  by_cases hany : fc.jobs.any
      (fun j => j.ObjectMeta.isNamed viewNamespace (viewNamePrefix ++ name)) = true
  · rw [(hexists subset fc hany).2]
    exact ⟨rfl, (hexists subset2 fc hany).2, (hexists subset2 fc hany).1⟩
  · have hcreate : fakeClientset.JobsCreate viewNamespace (viewJob viewNamespace name subset) fc
        = (none, { fc with jobs := fc.jobs ++ [viewJob viewNamespace name subset] }) := by
      rw [fake_JobsCreate, hname, if_neg hany]
    have h1 := CreateViewJob_eq (NewK8sClient fakeClientset) name subset fc _ _ hcreate
    have hany2 : (fc.jobs ++ [viewJob viewNamespace name subset]).any
        (fun j => j.ObjectMeta.isNamed viewNamespace (viewNamePrefix ++ name)) = true := by
      rw [List.any_append, Bool.or_eq_true]
      right
      rw [List.any_cons, Bool.or_eq_true]
      left
      simp only [ObjectMeta.isNamed, Bool.and_eq_true, decide_eq_true_eq]
      exact ⟨rfl, rfl⟩
    rw [h1]
    exact ⟨rfl, (hexists subset2 _ hany2).2, (hexists subset2 _ hany2).1⟩

/-- Claim C18: when the orchestrator answers the creation with `AlreadyExists`,
`CreateViewJob` returns no error; any other error of the creation is returned,
wrapped; on the in-memory cluster two calls for one name both return no error
and the second leaves the cluster, and so the workload, as the first left it. -/
theorem CreateViewJob_idempotent {σ : Type} (k : K8sClient σ) (name : GoString)
    (subset subset2 : Subset) (c : σ) (fc : FakeCluster) :
    (∀ c1, k.client.JobsCreate k.namespace_ (viewJob k.namespace_ name subset) c
          = (some .AlreadyExists, c1) →
        k.CreateViewJob name subset c = (none, c1)) ∧
      (∀ e c1, k.client.JobsCreate k.namespace_ (viewJob k.namespace_ name subset) c
          = (some e, c1) → e ≠ .AlreadyExists →
        k.CreateViewJob name subset c
          = (some ⟨"failed to create job for view ".toList ++ name ++ ": ".toList, e⟩, c1)) ∧
      (∀ c1, k.client.JobsCreate k.namespace_ (viewJob k.namespace_ name subset) c
          = (none, c1) →
        k.CreateViewJob name subset c = (none, c1)) ∧
      ((NewK8sClient fakeClientset).CreateViewJob name subset fc).1 = none ∧
      (NewK8sClient fakeClientset).CreateViewJob name subset2
          ((NewK8sClient fakeClientset).CreateViewJob name subset fc).2
        = (none, ((NewK8sClient fakeClientset).CreateViewJob name subset fc).2) ∧
      fakeClientset.JobsCreate viewNamespace (viewJob viewNamespace name subset2)
          ((NewK8sClient fakeClientset).CreateViewJob name subset fc).2
        = (some .AlreadyExists, ((NewK8sClient fakeClientset).CreateViewJob name subset fc).2) := by
  refine ⟨?_, ?_, ?_, fake_CreateViewJob_twice name subset subset2 fc⟩
  · intro c1 h
    rw [CreateViewJob_eq k name subset c c1 _ h]
  · intro e c1 h he
    rw [CreateViewJob_eq k name subset c c1 _ h]
    cases e with
    | AlreadyExists => exact absurd rfl he
    | NotFound => rfl
    | Other m => rfl
  · intro c1 h
    rw [CreateViewJob_eq k name subset c c1 _ h]

theorem CreateViewJob_idempotent_witness :
    ((NewK8sClient fakeClientset).client.JobsCreate (NewK8sClient fakeClientset).namespace_
          (viewJob (NewK8sClient fakeClientset).namespace_ "test01".toList ⟨"dev".toList, []⟩)
          { emptyCluster with jobs := [viewJob viewNamespace "test01".toList ⟨"dev".toList, []⟩] }
        = (some .AlreadyExists,
          { emptyCluster with
            jobs := [viewJob viewNamespace "test01".toList ⟨"dev".toList, []⟩] }) ∧
      (NewK8sClient fakeClientset).CreateViewJob "test01".toList ⟨"dev".toList, []⟩
          { emptyCluster with jobs := [viewJob viewNamespace "test01".toList ⟨"dev".toList, []⟩] }
        = (none, { emptyCluster with
            jobs := [viewJob viewNamespace "test01".toList ⟨"dev".toList, []⟩] })) ∧
    ((NewK8sClient (failingClientset (.Other "forbidden".toList))).client.JobsCreate
          (NewK8sClient (failingClientset (.Other "forbidden".toList))).namespace_
          (viewJob (NewK8sClient (failingClientset (.Other "forbidden".toList))).namespace_
            "test01".toList ⟨"dev".toList, []⟩) emptyCluster
        = (some (.Other "forbidden".toList), emptyCluster) ∧
      APIError.Other "forbidden".toList ≠ .AlreadyExists ∧
      (NewK8sClient (failingClientset (.Other "forbidden".toList))).CreateViewJob
          "test01".toList ⟨"dev".toList, []⟩ emptyCluster
        = (some ⟨"failed to create job for view ".toList ++ "test01".toList ++ ": ".toList,
            .Other "forbidden".toList⟩, emptyCluster)) ∧
    ((NewK8sClient fakeClientset).CreateViewJob "test01".toList ⟨"dev".toList, []⟩
          emptyCluster).1 = none ∧
      (NewK8sClient fakeClientset).CreateViewJob "test01".toList ⟨"prod".toList, []⟩
          ((NewK8sClient fakeClientset).CreateViewJob "test01".toList ⟨"dev".toList, []⟩
            emptyCluster).2
        = (none, ((NewK8sClient fakeClientset).CreateViewJob "test01".toList
            ⟨"dev".toList, []⟩ emptyCluster).2) :=
  ⟨⟨rfl, (CreateViewJob_idempotent (NewK8sClient fakeClientset) "test01".toList
      ⟨"dev".toList, []⟩ ⟨"prod".toList, []⟩
      { emptyCluster with jobs := [viewJob viewNamespace "test01".toList ⟨"dev".toList, []⟩] }
      emptyCluster).1 _ (by decide)⟩,
    ⟨rfl, by decide, (CreateViewJob_idempotent
      (NewK8sClient (failingClientset (.Other "forbidden".toList))) "test01".toList
      ⟨"dev".toList, []⟩ ⟨"prod".toList, []⟩ emptyCluster emptyCluster).2.1 _ _ rfl
      (by decide)⟩,
    (CreateViewJob_idempotent (NewK8sClient fakeClientset) "test01".toList
      ⟨"dev".toList, []⟩ ⟨"prod".toList, []⟩ emptyCluster emptyCluster).2.2.2.1,
    (CreateViewJob_idempotent (NewK8sClient fakeClientset) "test01".toList
      ⟨"dev".toList, []⟩ ⟨"prod".toList, []⟩ emptyCluster emptyCluster).2.2.2.2.1⟩

/-- Claim C20: for every view name n and subset s the service and the workload
that the client creates are named `view-<n>` in the fixed namespace, carry the
labels `app = lakeview` and view-name = n and the annotations cluster =
`s.Cluster` and namespace = `s.Namespace`; the pod template of the workload
carries the labels of the selector of the service, which is view-name = n; the
workload has an active deadline of 3600 seconds and a backoff limit of 0. -/
theorem view_objects {σ : Type} (client : KubeInterface σ) (n : GoString) (s : Subset) :
    (NewK8sClient client).namespace_ = viewNamespace ∧
      viewNamespace = "ui".toList ∧ labelApp = "lakeview".toList ∧
      (∀ c, (NewK8sClient client).CreateViewService n s c
        = (match client.ServicesCreate viewNamespace (viewService viewNamespace n s) c with
            | (some e, c1) =>
              (some ⟨"failed to create service for view ".toList ++ n ++ ": ".toList, e⟩, c1)
            | (none, c1) => (none, c1))) ∧
      (∀ c c1 err, client.JobsCreate viewNamespace (viewJob viewNamespace n s) c = (err, c1) →
        ((NewK8sClient client).CreateViewJob n s c).2 = c1) ∧
      ((NewK8sClient fakeClientset).CreateViewService n s emptyCluster).2.services
        = [viewService viewNamespace n s] ∧
      ((NewK8sClient fakeClientset).CreateViewJob n s emptyCluster).2.jobs
        = [viewJob viewNamespace n s] ∧
      (viewService viewNamespace n s).ObjectMeta.Name = "view-".toList ++ n ∧
      (viewService viewNamespace n s).ObjectMeta.Namespace = viewNamespace ∧
      mapGet (viewService viewNamespace n s).ObjectMeta.Labels "app".toList = some labelApp ∧
      mapGet (viewService viewNamespace n s).ObjectMeta.Labels labelViewName = some n ∧
      mapGet (viewService viewNamespace n s).ObjectMeta.Annotations annoCluster
        = some s.Cluster ∧
      mapGet (viewService viewNamespace n s).ObjectMeta.Annotations annoNamespace
        = some s.Namespace ∧
      (viewJob viewNamespace n s).ObjectMeta.Name = "view-".toList ++ n ∧
      (viewJob viewNamespace n s).ObjectMeta.Namespace = viewNamespace ∧
      mapGet (viewJob viewNamespace n s).ObjectMeta.Labels "app".toList = some labelApp ∧
      mapGet (viewJob viewNamespace n s).ObjectMeta.Labels labelViewName = some n ∧
      mapGet (viewJob viewNamespace n s).ObjectMeta.Annotations annoCluster = some s.Cluster ∧
      mapGet (viewJob viewNamespace n s).ObjectMeta.Annotations annoNamespace
        = some s.Namespace ∧
      (viewService viewNamespace n s).Spec.Selector = [(labelViewName, n)] ∧
      (∀ kv ∈ (viewService viewNamespace n s).Spec.Selector,
        mapGet (viewJob viewNamespace n s).Spec.Template.Labels kv.1 = some kv.2) ∧
      (viewJob viewNamespace n s).Spec.ActiveDeadlineSeconds = some 3600 ∧
      (viewJob viewNamespace n s).Spec.BackoffLimit = some 0 := by
  refine ⟨rfl, rfl, rfl, fun c => rfl, ?_, rfl, rfl, rfl, rfl, rfl, rfl, rfl, rfl, rfl, rfl,
    rfl, rfl, rfl, rfl, rfl, ?_, rfl, rfl⟩
  · intro c c1 err h
    have := CreateViewJob_eq (NewK8sClient client) n s c c1 err h
    rw [this]
  · intro kv hkv
    have hsel : (viewService viewNamespace n s).Spec.Selector = [(labelViewName, n)] := rfl
    rw [hsel, List.mem_singleton] at hkv
    subst hkv
    rfl

/-! ## Deletion -/

/-- What `DeleteViewJob` returns for each answer of the orchestrator. -/
theorem DeleteViewJob_eq {σ : Type} (k : K8sClient σ) (name : GoString) (c c1 : σ)
    (err : Option APIError)
    (h : k.client.JobsDelete k.namespace_ (viewNamePrefix ++ name) c = (err, c1)) :
    k.DeleteViewJob name c
      = (err.map (fun e => ⟨"failed to delete job for view ".toList ++ name ++ ": ".toList, e⟩),
        c1) := by
  unfold K8sClient.DeleteViewJob
  rw [h]
  cases err <;> rfl

/-- What `DeleteViewService` returns for each answer of the orchestrator. -/
theorem DeleteViewService_eq {σ : Type} (k : K8sClient σ) (name : GoString) (c c1 : σ)
    (err : Option APIError)
    (h : k.client.ServicesDelete k.namespace_ (viewNamePrefix ++ name) c = (err, c1)) :
    k.DeleteViewService name c
      = (err.map (fun e =>
          ⟨"failed to delete service for view ".toList ++ name ++ ": ".toList, e⟩), c1) := by
  unfold K8sClient.DeleteViewService
  rw [h]
  cases err <;> rfl

theorem any_filter_not {α : Type} (p : α → Bool) (l : List α) :
    (l.filter (fun x => !p x)).any p = false := by
  induction l with
  | nil => rfl
  | cons a as ih =>
    by_cases ha : p a = true
    · simp [List.filter_cons, ha, ih]
    · simp only [Bool.not_eq_true] at ha
      simp [List.filter_cons, ha, ih]

/-- After a delete of a job the in-memory cluster has no job of that name, and
its services are as before; a delete of an absent job fails with `NotFound` and
changes nothing. -/
theorem fake_JobsDelete (ns name : GoString) (fc : FakeCluster) :
    (fakeClientset.JobsDelete ns name fc).2.jobs.any (fun j => j.ObjectMeta.isNamed ns name)
        = false ∧
      (fakeClientset.JobsDelete ns name fc).2.services = fc.services ∧
      (fc.jobs.any (fun j => j.ObjectMeta.isNamed ns name) = false →
        fakeClientset.JobsDelete ns name fc = (some .NotFound, fc)) := by
  have hdef : fakeClientset.JobsDelete ns name fc
      = if fc.jobs.any (fun j => j.ObjectMeta.isNamed ns name) then
          (none, { fc with jobs := fc.jobs.filter (fun j => !j.ObjectMeta.isNamed ns name) })
        else (some .NotFound, fc) := rfl
  rw [hdef]
  by_cases hany : fc.jobs.any (fun j => j.ObjectMeta.isNamed ns name) = true
  · rw [if_pos hany]
    refine ⟨any_filter_not _ _, rfl, ?_⟩
    intro h
    rw [h] at hany
    cases hany
  · rw [if_neg hany]
    simp only [Bool.not_eq_true] at hany
    exact ⟨hany, rfl, fun _ => rfl⟩

/-- The same for services. -/
theorem fake_ServicesDelete (ns name : GoString) (fc : FakeCluster) :
    (fakeClientset.ServicesDelete ns name fc).2.services.any
        (fun x => x.ObjectMeta.isNamed ns name) = false ∧
      (fakeClientset.ServicesDelete ns name fc).2.jobs = fc.jobs ∧
      (fc.services.any (fun x => x.ObjectMeta.isNamed ns name) = false →
        fakeClientset.ServicesDelete ns name fc = (some .NotFound, fc)) := by
  have hdef : fakeClientset.ServicesDelete ns name fc
      = if fc.services.any (fun x => x.ObjectMeta.isNamed ns name) then
          (none, { fc with
            services := fc.services.filter (fun x => !x.ObjectMeta.isNamed ns name) })
        else (some .NotFound, fc) := rfl
  rw [hdef]
  by_cases hany : fc.services.any (fun x => x.ObjectMeta.isNamed ns name) = true
  · rw [if_pos hany]
    refine ⟨any_filter_not _ _, rfl, ?_⟩
    intro h
    rw [h] at hany
    cases hany
  · rw [if_neg hany]
    simp only [Bool.not_eq_true] at hany
    exact ⟨hany, rfl, fun _ => rfl⟩

/-- The run of `deleteView` for a name given by the path value. -/
theorem deleteView_eq {σ : Type} (h : APIHandler σ) (name path : GoString) (c : σ)
    (hname : name ≠ []) :
    h.deleteView ⟨name, path⟩ c
      = { response := { Status := StatusOK, Body := .deleted name }
          calls := [.DeleteViewJob name, .DeleteViewService name]
          cluster := (h.k8s.DeleteViewService name (h.k8s.DeleteViewJob name c).2).2 } := by
  unfold APIHandler.deleteView
  simp only [hname, if_false]

theorem fake_DeleteViewJob_snd (name : GoString) (fc : FakeCluster) :
    ((NewK8sClient fakeClientset).DeleteViewJob name fc).2
      = (fakeClientset.JobsDelete viewNamespace (viewNamePrefix ++ name) fc).2 := by
  rw [DeleteViewJob_eq (NewK8sClient fakeClientset) name fc
    (fakeClientset.JobsDelete viewNamespace (viewNamePrefix ++ name) fc).2
    (fakeClientset.JobsDelete viewNamespace (viewNamePrefix ++ name) fc).1 rfl]

theorem fake_DeleteViewService_snd (name : GoString) (fc : FakeCluster) :
    ((NewK8sClient fakeClientset).DeleteViewService name fc).2
      = (fakeClientset.ServicesDelete viewNamespace (viewNamePrefix ++ name) fc).2 := by
  rw [DeleteViewService_eq (NewK8sClient fakeClientset) name fc
    (fakeClientset.ServicesDelete viewNamespace (viewNamePrefix ++ name) fc).2
    (fakeClientset.ServicesDelete viewNamespace (viewNamePrefix ++ name) fc).1 rfl]

/-- Claim C19, as the code has it: `DeleteViewJob` and `DeleteViewService` return
the `NotFound` of the orchestrator as an error, so on a cluster that holds no
workload (no service) of the name they fail and change nothing; the handler of
`DELETE /_api/views/<name>` does not look at these errors and answers 200, so a
second delete of a view is answered 200 and leaves the cluster as it was. -/
theorem delete_not_found {σ : Type} (k : K8sClient σ) (name path : GoString) (c : σ)
    (fc : FakeCluster) :
    (∀ c1, k.client.JobsDelete k.namespace_ (viewNamePrefix ++ name) c = (some .NotFound, c1) →
        k.DeleteViewJob name c
          = (some ⟨"failed to delete job for view ".toList ++ name ++ ": ".toList, .NotFound⟩,
            c1)) ∧
      (∀ c1, k.client.ServicesDelete k.namespace_ (viewNamePrefix ++ name) c
          = (some .NotFound, c1) →
        k.DeleteViewService name c
          = (some ⟨"failed to delete service for view ".toList ++ name ++ ": ".toList,
              .NotFound⟩, c1)) ∧
      (fc.jobs.any (fun j => j.ObjectMeta.isNamed viewNamespace (viewNamePrefix ++ name))
          = false →
        (NewK8sClient fakeClientset).DeleteViewJob name fc
          = (some ⟨"failed to delete job for view ".toList ++ name ++ ": ".toList, .NotFound⟩,
            fc)) ∧
      (fc.services.any (fun x => x.ObjectMeta.isNamed viewNamespace (viewNamePrefix ++ name))
          = false →
        (NewK8sClient fakeClientset).DeleteViewService name fc
          = (some ⟨"failed to delete service for view ".toList ++ name ++ ": ".toList,
              .NotFound⟩, fc)) ∧
      (name ≠ [] →
        ((NewAPIHandler k).deleteView ⟨name, path⟩ c).response
          = { Status := StatusOK, Body := .deleted name }) ∧
      (name ≠ [] →
        ((NewAPIHandler (NewK8sClient fakeClientset)).deleteView ⟨name, path⟩
            ((NewAPIHandler (NewK8sClient fakeClientset)).deleteView ⟨name, path⟩ fc).cluster
          ).response = { Status := StatusOK, Body := .deleted name } ∧
        ((NewAPIHandler (NewK8sClient fakeClientset)).deleteView ⟨name, path⟩
            ((NewAPIHandler (NewK8sClient fakeClientset)).deleteView ⟨name, path⟩ fc).cluster
          ).cluster
          = ((NewAPIHandler (NewK8sClient fakeClientset)).deleteView ⟨name, path⟩ fc).cluster)
    := by
  refine ⟨?_, ?_, ?_, ?_, ?_, ?_⟩
  · intro c1 h
    rw [DeleteViewJob_eq k name c c1 _ h]
    rfl
  · intro c1 h
    rw [DeleteViewService_eq k name c c1 _ h]
    rfl
  · intro habsent
    rw [DeleteViewJob_eq (NewK8sClient fakeClientset) name fc fc (some .NotFound)
      ((fake_JobsDelete viewNamespace _ fc).2.2 habsent)]
    rfl
  · intro habsent
    rw [DeleteViewService_eq (NewK8sClient fakeClientset) name fc fc (some .NotFound)
      ((fake_ServicesDelete viewNamespace _ fc).2.2 habsent)]
    rfl
  · intro hname
    rw [deleteView_eq (NewAPIHandler k) name path c hname]
  · intro hname
    rw [deleteView_eq _ name path fc hname, deleteView_eq _ name path _ hname]
    refine ⟨rfl, ?_⟩
    show ((NewK8sClient fakeClientset).DeleteViewService name
        ((NewK8sClient fakeClientset).DeleteViewJob name
          ((NewK8sClient fakeClientset).DeleteViewService name
            ((NewK8sClient fakeClientset).DeleteViewJob name fc).2).2).2).2
      = ((NewK8sClient fakeClientset).DeleteViewService name
          ((NewK8sClient fakeClientset).DeleteViewJob name fc).2).2
    simp only [fake_DeleteViewJob_snd, fake_DeleteViewService_snd]
    obtain ⟨hj1, _, _⟩ := fake_JobsDelete viewNamespace (viewNamePrefix ++ name) fc
    obtain ⟨hs2, hj2, _⟩ := fake_ServicesDelete viewNamespace (viewNamePrefix ++ name)
      (fakeClientset.JobsDelete viewNamespace (viewNamePrefix ++ name) fc).2
    rw [← hj2] at hj1
    rw [(fake_JobsDelete viewNamespace (viewNamePrefix ++ name) _).2.2 hj1,
      (fake_ServicesDelete viewNamespace (viewNamePrefix ++ name) _).2.2 hs2]

theorem delete_not_found_witness :
    ((NewK8sClient fakeClientset).client.JobsDelete (NewK8sClient fakeClientset).namespace_
          (viewNamePrefix ++ "test01".toList) emptyCluster = (some .NotFound, emptyCluster) ∧
      (NewK8sClient fakeClientset).DeleteViewJob "test01".toList emptyCluster
        = (some ⟨"failed to delete job for view ".toList ++ "test01".toList ++ ": ".toList,
            .NotFound⟩, emptyCluster)) ∧
    ((NewK8sClient fakeClientset).client.ServicesDelete (NewK8sClient fakeClientset).namespace_
          (viewNamePrefix ++ "test01".toList) emptyCluster = (some .NotFound, emptyCluster) ∧
      (NewK8sClient fakeClientset).DeleteViewService "test01".toList emptyCluster
        = (some ⟨"failed to delete service for view ".toList ++ "test01".toList ++ ": ".toList,
            .NotFound⟩, emptyCluster)) ∧
    ("test01".toList ≠ [] ∧
      ((NewAPIHandler (NewK8sClient fakeClientset)).deleteView
          ⟨"test01".toList, "/_api/views/test01".toList⟩ emptyCluster).response
        = { Status := StatusOK, Body := .deleted "test01".toList }) :=
  ⟨⟨rfl, (delete_not_found (NewK8sClient fakeClientset) "test01".toList
      "/_api/views/test01".toList emptyCluster emptyCluster).1 _ rfl⟩,
    ⟨rfl, (delete_not_found (NewK8sClient fakeClientset) "test01".toList
      "/_api/views/test01".toList emptyCluster emptyCluster).2.1 _ rfl⟩,
    by decide, (delete_not_found (NewK8sClient fakeClientset) "test01".toList
      "/_api/views/test01".toList emptyCluster emptyCluster).2.2.2.2.1 (by decide)⟩

/-- Claim C19 fails as stated: on a cluster without objects `DeleteViewJob` and
`DeleteViewService` return an error; and after a job was created and deleted, a
second `DeleteViewJob` returns an error. -/
theorem delete_absent_returns_error :
    ((NewK8sClient fakeClientset).DeleteViewJob "test01".toList emptyCluster).1
        = some ⟨"failed to delete job for view test01: ".toList, .NotFound⟩ ∧
      ((NewK8sClient fakeClientset).DeleteViewService "test01".toList emptyCluster).1
        = some ⟨"failed to delete service for view test01: ".toList, .NotFound⟩ ∧
      ((NewK8sClient fakeClientset).DeleteViewJob "test01".toList
        ((NewK8sClient fakeClientset).CreateViewJob "test01".toList ⟨"dev".toList, []⟩
          emptyCluster).2).1 = none ∧
      ((NewK8sClient fakeClientset).DeleteViewJob "test01".toList
        ((NewK8sClient fakeClientset).DeleteViewJob "test01".toList
          ((NewK8sClient fakeClientset).CreateViewJob "test01".toList ⟨"dev".toList, []⟩
            emptyCluster).2).2).1 ≠ none := by
  decide

/-! ## Creation through the admin API -/

/-- The run of `createView` for a body that `ValidateRoute` accepts and a name the
store does not have. -/
theorem createView_new {σ : Type} (h : APIHandler σ) (store : ViewStore) (route : Route)
    (c : σ) (hvalid : ValidateRoute route = none)
    (hnew : store.HasService route.Name = false) :
    h.createView store (some route) c
      = (match h.k8s.CreateViewService route.Name route.Subset c with
          | (some _, c1) =>
            { response := { Status := StatusInternalServerError
                            Body := .error "failed to create service".toList }
              calls := [.CreateViewService route.Name route.Subset], cluster := c1 }
          | (none, c1) =>
            { response := { Status := StatusCreated
                            Body := .view { Name := route.Name, Subset := route.Subset,
                                            Ready := false } }
              calls := [.CreateViewService route.Name route.Subset], cluster := c1 }) := by
  unfold APIHandler.createView
  simp only [hvalid, hnew, Bool.false_eq_true, if_false]

/-- The run of `createView` for a body that `ValidateRoute` rejects. -/
theorem createView_invalid {σ : Type} (h : APIHandler σ) (store : ViewStore) (route : Route)
    (c : σ) (err : GoString) (herr : ValidateRoute route = some err) :
    h.createView store (some route) c
      = { response := { Status := StatusBadRequest, Body := .error err }
          calls := [], cluster := c } := by
  unfold APIHandler.createView
  simp only [herr]

/-- The run of `createView` for an accepted body whose name the store has. -/
theorem createView_conflict {σ : Type} (h : APIHandler σ) (store : ViewStore) (route : Route)
    (c : σ) (hvalid : ValidateRoute route = none) (hhas : store.HasService route.Name = true) :
    h.createView store (some route) c
      = { response := { Status := StatusConflict, Body := .error "view already exists".toList }
          calls := [], cluster := c } := by
  unfold APIHandler.createView
  simp only [hvalid, hhas, if_true]

/-- Claim C16: the answer to `POST /_api/views` for a decoded body: a body that
`ValidateRoute` rejects gets 400 and no call; otherwise a name the store has gets
409 with error `view already exists` and no call; otherwise `CreateViewService`
is called once, and when it returns no error the answer is 201 with the name and
subset of the body; no run calls `CreateViewJob`. -/
theorem createView_status {σ : Type} (h : APIHandler σ) (store : ViewStore) (route : Route)
    (c : σ) :
    (∀ err, ValidateRoute route = some err →
        (h.createView store (some route) c).response
          = { Status := 400, Body := .error err } ∧
        (h.createView store (some route) c).calls = [] ∧
        (h.createView store (some route) c).cluster = c) ∧
      (ValidateRoute route = none → store.HasService route.Name = true →
        (h.createView store (some route) c).response
          = { Status := 409, Body := .error "view already exists".toList } ∧
        (h.createView store (some route) c).calls = [] ∧
        (h.createView store (some route) c).cluster = c) ∧
      (ValidateRoute route = none → store.HasService route.Name = false →
        (h.createView store (some route) c).calls
          = [.CreateViewService route.Name route.Subset] ∧
        (h.createView store (some route) c).cluster
          = (h.k8s.CreateViewService route.Name route.Subset c).2 ∧
        ((h.k8s.CreateViewService route.Name route.Subset c).1 = none →
          (h.createView store (some route) c).response
            = { Status := 201
                Body := .view { Name := route.Name, Subset := route.Subset, Ready := false } })) ∧
      (∀ n sub, K8sCall.CreateViewJob n sub ∉ (h.createView store (some route) c).calls) := by
  refine ⟨?_, ?_, ?_, ?_⟩
  · intro err herr
    rw [createView_invalid h store route c err herr]
    exact ⟨rfl, rfl, rfl⟩
  · intro hvalid hhas
    rw [createView_conflict h store route c hvalid hhas]
    exact ⟨rfl, rfl, rfl⟩
  · intro hvalid hnew
    rw [createView_new h store route c hvalid hnew]
    cases hres : h.k8s.CreateViewService route.Name route.Subset c with
    | mk err c1 =>
      cases err with
      | none => exact ⟨rfl, rfl, fun _ => rfl⟩
      | some e => exact ⟨rfl, rfl, fun he => by cases he⟩
  · intro n sub
    cases hv : ValidateRoute route with
    | some err =>
      rw [createView_invalid h store route c err hv]
      exact List.not_mem_nil _
    | none =>
      cases hhas : store.HasService route.Name with
      | true =>
        rw [createView_conflict h store route c hv hhas]
        exact List.not_mem_nil _
      | false =>
        rw [createView_new h store route c hv hhas]
        cases hres : h.k8s.CreateViewService route.Name route.Subset c with
        | mk err c1 =>
          cases err with
          | none =>
            intro hmem
            cases List.mem_singleton.mp hmem
          | some e =>
            intro hmem
            cases List.mem_singleton.mp hmem

theorem createView_status_witness :
    (ValidateRoute ⟨"ab".toList, ⟨"dev".toList, []⟩⟩
        = some "name must be 3-8 characters, got 2".toList ∧
      ((NewAPIHandler (NewK8sClient fakeClientset)).createView newTestStore
          (some ⟨"ab".toList, ⟨"dev".toList, []⟩⟩) emptyCluster).response
        = { Status := 400, Body := .error "name must be 3-8 characters, got 2".toList } ∧
      ((NewAPIHandler (NewK8sClient fakeClientset)).createView newTestStore
          (some ⟨"ab".toList, ⟨"dev".toList, []⟩⟩) emptyCluster).calls = [] ∧
      ((NewAPIHandler (NewK8sClient fakeClientset)).createView newTestStore
          (some ⟨"ab".toList, ⟨"dev".toList, []⟩⟩) emptyCluster).cluster = emptyCluster) ∧
    ((ValidateRoute abcRoute = none ∧ abcStore.HasService abcRoute.Name = true) ∧
      ((NewAPIHandler (NewK8sClient fakeClientset)).createView abcStore (some abcRoute)
          emptyCluster).response
        = { Status := 409, Body := .error "view already exists".toList } ∧
      ((NewAPIHandler (NewK8sClient fakeClientset)).createView abcStore (some abcRoute)
          emptyCluster).calls = [] ∧
      ((NewAPIHandler (NewK8sClient fakeClientset)).createView abcStore (some abcRoute)
          emptyCluster).cluster = emptyCluster) ∧
    ((ValidateRoute abcRoute = none ∧ newTestStore.HasService abcRoute.Name = false ∧
        ((NewAPIHandler (NewK8sClient fakeClientset)).k8s.CreateViewService abcRoute.Name
          abcRoute.Subset emptyCluster).1 = none) ∧
      ((NewAPIHandler (NewK8sClient fakeClientset)).createView newTestStore (some abcRoute)
          emptyCluster).calls = [.CreateViewService abcRoute.Name abcRoute.Subset] ∧
      ((NewAPIHandler (NewK8sClient fakeClientset)).createView newTestStore (some abcRoute)
          emptyCluster).response
        = { Status := 201
            Body := .view { Name := abcRoute.Name, Subset := abcRoute.Subset, Ready := false } }) :=
  ⟨⟨by decide, (createView_status (NewAPIHandler (NewK8sClient fakeClientset)) newTestStore
      ⟨"ab".toList, ⟨"dev".toList, []⟩⟩ emptyCluster).1 _ (by decide)⟩,
    ⟨by decide, (createView_status (NewAPIHandler (NewK8sClient fakeClientset)) abcStore
      abcRoute emptyCluster).2.1 (by decide) (by decide)⟩,
    ⟨by decide,
      ((createView_status (NewAPIHandler (NewK8sClient fakeClientset)) newTestStore abcRoute
        emptyCluster).2.2.1 (by decide) (by decide)).1,
      ((createView_status (NewAPIHandler (NewK8sClient fakeClientset)) newTestStore abcRoute
        emptyCluster).2.2.1 (by decide) (by decide)).2.2 (by decide)⟩⟩

/-- What `CreateViewService` returns for each answer of the orchestrator. -/
theorem CreateViewService_eq {σ : Type} (k : K8sClient σ) (name : GoString) (subset : Subset)
    (c c1 : σ) (err : Option APIError)
    (h : k.client.ServicesCreate k.namespace_ (viewService k.namespace_ name subset) c
      = (err, c1)) :
    k.CreateViewService name subset c
      = (err.map (fun e =>
          ⟨"failed to create service for view ".toList ++ name ++ ": ".toList, e⟩), c1) := by
  unfold K8sClient.CreateViewService
  simp only [h]
  cases err <;> rfl

theorem fake_ServicesCreate (ns : GoString) (svc : Service) (fc : FakeCluster) :
    fakeClientset.ServicesCreate ns svc fc
      = if fc.services.any (fun x => x.ObjectMeta.isNamed ns svc.ObjectMeta.Name) then
          (some .AlreadyExists, fc)
        else (none, { fc with services := fc.services ++ [svc] }) := rfl

/-- What `createView` does with a failed service creation: for a valid view whose
name the store does not have, every error of `CreateViewService`, `AlreadyExists`
included, is answered 500 with error `failed to create service`; the handler
never reads the kind of the error, as `CreateViewJob` does with
`IsAlreadyExists`.  The only 409 is that of the `HasService` guard: on the
in-memory cluster a first post of a valid view is answered 201, and a second post
is answered 409 when the store has the name by then and 500 when it has not. -/
theorem createView_create_failure {σ : Type} (h : APIHandler σ) (store store2 : ViewStore)
    (route : Route) (c c1 : σ) (e : APIError) (fc : FakeCluster)
    (hvalid : ValidateRoute route = none)
    (hnew : store.HasService route.Name = false)
    (hcreate : h.k8s.client.ServicesCreate h.k8s.namespace_
        (viewService h.k8s.namespace_ route.Name route.Subset) c = (some e, c1))
    (habsent : fc.services.any
        (fun x => x.ObjectMeta.isNamed viewNamespace (viewNamePrefix ++ route.Name)) = false)
    (hseen : store2.HasService route.Name = true) :
    (h.createView store (some route) c).response
        = { Status := 500, Body := .error "failed to create service".toList } ∧
      (h.createView store (some route) c).cluster = c1 ∧
      ((NewAPIHandler (NewK8sClient fakeClientset)).createView store (some route) fc).response
        = { Status := 201
            Body := .view { Name := route.Name, Subset := route.Subset, Ready := false } } ∧
      fakeClientset.ServicesCreate viewNamespace
          (viewService viewNamespace route.Name route.Subset)
          ((NewAPIHandler (NewK8sClient fakeClientset)).createView store (some route)
            fc).cluster
        = (some .AlreadyExists,
          ((NewAPIHandler (NewK8sClient fakeClientset)).createView store (some route)
            fc).cluster) ∧
      ((NewAPIHandler (NewK8sClient fakeClientset)).createView store (some route)
          ((NewAPIHandler (NewK8sClient fakeClientset)).createView store (some route)
            fc).cluster).response
        = { Status := 500, Body := .error "failed to create service".toList } ∧
      ((NewAPIHandler (NewK8sClient fakeClientset)).createView store2 (some route)
          ((NewAPIHandler (NewK8sClient fakeClientset)).createView store (some route)
            fc).cluster).response
        = { Status := 409, Body := .error "view already exists".toList } := by
  have hname : (viewService viewNamespace route.Name route.Subset).ObjectMeta.Name
      = viewNamePrefix ++ route.Name := rfl
  have hfirst : fakeClientset.ServicesCreate viewNamespace
      (viewService viewNamespace route.Name route.Subset) fc
      = (none, { fc with
          services := fc.services ++ [viewService viewNamespace route.Name route.Subset] }) := by
    rw [fake_ServicesCreate, hname, habsent]
    rfl
  have hrun1 : (NewAPIHandler (NewK8sClient fakeClientset)).createView store (some route) fc
      = { response := { Status := StatusCreated
                        Body := .view { Name := route.Name, Subset := route.Subset,
                                        Ready := false } }
          calls := [.CreateViewService route.Name route.Subset]
          cluster := { fc with
            services := fc.services ++ [viewService viewNamespace route.Name route.Subset] } }
      := by
    rw [createView_new _ store route fc hvalid hnew]
    have := CreateViewService_eq (NewK8sClient fakeClientset) route.Name route.Subset fc _ _
      hfirst
    simp only [NewAPIHandler, this, Option.map_none']
  have hany2 : (fc.services ++ [viewService viewNamespace route.Name route.Subset]).any
      (fun x => x.ObjectMeta.isNamed viewNamespace (viewNamePrefix ++ route.Name)) = true := by
    rw [List.any_append, Bool.or_eq_true]
    right
    rw [List.any_cons, Bool.or_eq_true]
    left
    simp only [ObjectMeta.isNamed, Bool.and_eq_true, decide_eq_true_eq]
    exact ⟨rfl, rfl⟩
  have hsecond : fakeClientset.ServicesCreate viewNamespace
      (viewService viewNamespace route.Name route.Subset)
      { fc with
        services := fc.services ++ [viewService viewNamespace route.Name route.Subset] }
      = (some .AlreadyExists, { fc with
          services := fc.services ++ [viewService viewNamespace route.Name route.Subset] }) := by
    rw [fake_ServicesCreate, hname, if_pos hany2]
  have hfail : ∀ {τ : Type} (g : APIHandler τ) (d d1 : τ) (x : APIError),
      g.k8s.client.ServicesCreate g.k8s.namespace_
        (viewService g.k8s.namespace_ route.Name route.Subset) d = (some x, d1) →
      g.createView store (some route) d
        = { response := { Status := StatusInternalServerError
                          Body := .error "failed to create service".toList }
            calls := [.CreateViewService route.Name route.Subset], cluster := d1 } := by
    intro τ g d d1 x hx
    rw [createView_new g store route d hvalid hnew]
    have := CreateViewService_eq g.k8s route.Name route.Subset d d1 _ hx
    simp only [this, Option.map_some']
  refine ⟨?_, ?_, ?_, ?_, ?_, ?_⟩
  · rw [hfail h c c1 e hcreate]
    rfl
  · rw [hfail h c c1 e hcreate]
  · rw [hrun1]
    rfl
  · rw [hrun1]
    exact hsecond
  · rw [hrun1]
    rw [hfail (NewAPIHandler (NewK8sClient fakeClientset)) _ _ .AlreadyExists hsecond]
    rfl
  · rw [hrun1, createView_conflict _ store2 route _ hvalid hseen]
    rfl

theorem createView_create_failure_witness :
    (ValidateRoute abcRoute = none ∧ newTestStore.HasService abcRoute.Name = false ∧
      testAPIHandler.k8s.client.ServicesCreate testAPIHandler.k8s.namespace_
          (viewService testAPIHandler.k8s.namespace_ abcRoute.Name abcRoute.Subset) abcCluster
        = (some .AlreadyExists, abcCluster) ∧
      emptyCluster.services.any
          (fun x => x.ObjectMeta.isNamed viewNamespace (viewNamePrefix ++ abcRoute.Name))
        = false ∧
      abcStore.HasService abcRoute.Name = true) ∧
    ((testAPIHandler.createView newTestStore (some abcRoute) abcCluster).response
        = { Status := 500, Body := .error "failed to create service".toList } ∧
      (testAPIHandler.createView newTestStore (some abcRoute) abcCluster).cluster
        = abcCluster ∧
      ((NewAPIHandler (NewK8sClient fakeClientset)).createView newTestStore (some abcRoute)
          emptyCluster).response
        = { Status := 201
            Body := .view { Name := abcRoute.Name, Subset := abcRoute.Subset,
                            Ready := false } } ∧
      fakeClientset.ServicesCreate viewNamespace
          (viewService viewNamespace abcRoute.Name abcRoute.Subset)
          ((NewAPIHandler (NewK8sClient fakeClientset)).createView newTestStore
            (some abcRoute) emptyCluster).cluster
        = (some .AlreadyExists,
          ((NewAPIHandler (NewK8sClient fakeClientset)).createView newTestStore
            (some abcRoute) emptyCluster).cluster) ∧
      ((NewAPIHandler (NewK8sClient fakeClientset)).createView newTestStore (some abcRoute)
          ((NewAPIHandler (NewK8sClient fakeClientset)).createView newTestStore
            (some abcRoute) emptyCluster).cluster).response
        = { Status := 500, Body := .error "failed to create service".toList } ∧
      ((NewAPIHandler (NewK8sClient fakeClientset)).createView abcStore (some abcRoute)
          ((NewAPIHandler (NewK8sClient fakeClientset)).createView newTestStore
            (some abcRoute) emptyCluster).cluster).response
        = { Status := 409, Body := .error "view already exists".toList }) :=
  ⟨by decide,
    createView_create_failure testAPIHandler newTestStore abcStore abcRoute abcCluster
      abcCluster .AlreadyExists emptyCluster (by decide) (by decide) (by decide) (by decide)
      (by decide)⟩

/-- Claim C17, on the code: the route `abc` is valid and the store has no view;
the first post is answered 201 and creates the service; the same post again, made
before the store has seen the service, passes the `HasService` guard that answers
duplicates with 409, has its service creation fail with `AlreadyExists`, and is
answered 500 with error `failed to create service`, where the claim reads 409. -/
theorem createView_twice_before_store_update :
    ValidateRoute abcRoute = none ∧
      (testAPIHandler.createView newTestStore (some abcRoute) emptyCluster).response.Status
        = 201 ∧
      testAPIHandler.k8s.client.ServicesCreate testAPIHandler.k8s.namespace_
          (viewService testAPIHandler.k8s.namespace_ abcRoute.Name abcRoute.Subset)
          (testAPIHandler.createView newTestStore (some abcRoute) emptyCluster).cluster
        = (some .AlreadyExists,
          (testAPIHandler.createView newTestStore (some abcRoute) emptyCluster).cluster) ∧
      (testAPIHandler.createView newTestStore (some abcRoute)
          (testAPIHandler.createView newTestStore (some abcRoute) emptyCluster).cluster).response
        = { Status := 500, Body := .error "failed to create service".toList } ∧
      (testAPIHandler.createView newTestStore (some abcRoute)
          (testAPIHandler.createView newTestStore (some abcRoute)
            emptyCluster).cluster).response.Status ≠ 409 := by
  decide

/-! ## More unit tests of the repository, replayed on the embedding -/

/-- Go `TestSnapshotManagerInitialize`: one listener, one route configuration, the
cluster `sidecar_api` alone and no endpoint assignment. -/
theorem test_SnapshotManagerInitialize :
    ((NewSnapshotManager "gateway.test".toList (some newTestStore)).Initialize
        snapshotCache []).err = none ∧
      (snapshotCache.GetSnapshot nodeID initializedCache).map
          (fun snapshot => (snapshot.Resources.Listeners.length,
            snapshot.Resources.Routes.length,
            snapshot.Resources.Clusters.map (·.Name),
            snapshot.Resources.Endpoints))
        = some (1, 1, ["sidecar_api".toList], []) := by
  decide

/-- Go `TestSnapshotManagerRebuild`: with view `abc` added the rebuild publishes two
clusters and two virtual hosts, and with the view removed again one cluster and
the virtual host `local` alone. -/
theorem test_SnapshotManagerRebuild :
    (snapshotCache.GetSnapshot nodeID
        (initializedManager.Rebuild snapshotCache initializedCache).cache).map
          (fun snapshot => (snapshot.Version, snapshot.Resources.Clusters.map (·.Name),
            snapshot.Resources.Routes.map (fun rc => rc.VirtualHosts.map (·.Name))))
        = some ("2".toList, ["sidecar_api".toList, "view-abc".toList],
            [["local".toList, "view-abc".toList]]) ∧
      (snapshotCache.GetSnapshot nodeID
        (SnapshotManager.Rebuild snapshotCache
          { (initializedManager.Rebuild snapshotCache initializedCache).sm with
            store := some newTestStore }
          (initializedManager.Rebuild snapshotCache initializedCache).cache).cache).map
          (fun snapshot => (snapshot.Version, snapshot.Resources.Clusters.map (·.Name),
            snapshot.Resources.Routes.map (fun rc => rc.VirtualHosts.map (·.Name))))
        = some ("3".toList, ["sidecar_api".toList], [["local".toList]]) := by
  decide

/-- Successive rebuilds whose consistency check fails still count: the counters
of three failed rebuilds are 1, 2 and 3. -/
theorem test_failed_rebuilds_count :
    (rebuildEach (failingConsistent "mismatch".toList)
        [some newTestStore, some abcStore, some newTestStore]
        (NewSnapshotManager "gateway.test".toList (some newTestStore)) []).map
          (fun r => (r.err.isSome, r.sm.version, r.versionStr))
      = [(true, 1, "1".toList), (true, 2, "2".toList), (true, 3, "3".toList)] := by
  decide

/-- Go `TestCreateViewService`, `TestCreateViewJobAlreadyExists`, `TestDeleteViewJob`
and `TestDeleteViewService`. -/
theorem test_K8sClient :
    ((NewK8sClient fakeClientset).CreateViewService "test01".toList
        ⟨"dev".toList, "logs".toList⟩ emptyCluster).1 = none ∧
      (((NewK8sClient fakeClientset).CreateViewService "test01".toList
        ⟨"dev".toList, "logs".toList⟩ emptyCluster).2.services.map
          (fun svc => (svc.ObjectMeta.Name, svc.Spec.ClusterIP,
            svc.Spec.PublishNotReadyAddresses, mapGet svc.Spec.Selector labelViewName,
            mapGet svc.ObjectMeta.Annotations annoCluster,
            mapGet svc.ObjectMeta.Annotations annoNamespace,
            svc.Spec.Ports.map (·.Port))))
        = [("view-test01".toList, "None".toList, true, some "test01".toList,
            some "dev".toList, some "logs".toList, [8080])] ∧
      ((NewK8sClient fakeClientset).CreateViewJob "test01".toList ⟨"dev".toList, []⟩
        ((NewK8sClient fakeClientset).CreateViewJob "test01".toList ⟨"dev".toList, []⟩
          emptyCluster).2).1 = none ∧
      (NewK8sClient fakeClientset).DeleteViewJob "test01".toList
          ((NewK8sClient fakeClientset).CreateViewJob "test01".toList ⟨"dev".toList, []⟩
            emptyCluster).2 = (none, emptyCluster) ∧
      (NewK8sClient fakeClientset).DeleteViewService "test01".toList
          ((NewK8sClient fakeClientset).CreateViewService "test01".toList ⟨"dev".toList, []⟩
            emptyCluster).2 = (none, emptyCluster) := by
  refine ⟨by decide, rfl, by decide, by decide, by decide⟩

/-! ## The environment of the first container -/

/-- The first container of the job of every view is `duckdb`, and the job gives
it no environment: no variable and no source of variables. -/
theorem viewJob_first_container (ns name : GoString) (subset : Subset) :
    (viewJob ns name subset).Spec.Template.Spec.Containers.head?.map
        (fun c => (c.Name, c.Env, c.EnvFrom)) = some ("duckdb".toList, [], []) :=
  rfl

/-- Claim C21, on the code: with the calls of `TestCreateViewJob` and of
`TestCreateViewJobClusterOnlySubset` the job that `CreateViewJob` creates has a
first container named `duckdb` whose list of environment variables is empty,
where the claim and both tests read SUBSET_CLUSTER and SUBSET_NAMESPACE. -/
theorem CreateViewJob_duckdb_without_env :
    ((NewK8sClient fakeClientset).CreateViewJob "test01".toList
        ⟨"dev".toList, "logs".toList⟩ emptyCluster).1 = none ∧
      (((NewK8sClient fakeClientset).CreateViewJob "test01".toList
        ⟨"dev".toList, "logs".toList⟩ emptyCluster).2.jobs.map
          (fun job => (job.ObjectMeta.Name,
            job.Spec.Template.Spec.Containers.head?.map (fun c => (c.Name, c.Env)))))
        = [("view-test01".toList, some ("duckdb".toList, []))] ∧
      ((NewK8sClient fakeClientset).CreateViewJob "cluster-only".toList
        ⟨"dev".toList, []⟩ emptyCluster).1 = none ∧
      (((NewK8sClient fakeClientset).CreateViewJob "cluster-only".toList
        ⟨"dev".toList, []⟩ emptyCluster).2.jobs.map
          (fun job => (job.ObjectMeta.Name,
            job.Spec.Template.Spec.Containers.head?.map (fun c => (c.Name, c.Env)))))
        = [("view-cluster-only".toList, some ("duckdb".toList, []))] := by
  refine ⟨by decide, rfl, by decide, rfl⟩

/-! ## The ready endpoints of a view -/

/-- Claim C22: for every store and name, `ReadyEndpoints` returns the endpoints
of the state of the view whose ready flag is true, in their stored order and with
their multiplicity, and the empty list when the store has no view of the name.
The query is a function of the store and the name alone, so the store after it is
the store before it. -/
theorem ReadyEndpoints_outcome (vs : ViewStore) (name : GoString) :
    (∀ state, vs.GetView name = some state →
      vs.ReadyEndpoints name = state.Endpoints.filter (fun ep => ep.Ready) ∧
      (vs.ReadyEndpoints name).Sublist state.Endpoints ∧
      (∀ ep, ep ∈ vs.ReadyEndpoints name ↔ ep ∈ state.Endpoints ∧ ep.Ready = true) ∧
      (∀ ep, ep.Ready = true →
        (vs.ReadyEndpoints name).countP (fun x => decide (x = ep))
          = state.Endpoints.countP (fun x => decide (x = ep)))) ∧
      (vs.GetView name = none → vs.ReadyEndpoints name = []) ∧
      (name ∉ vs.views.map (·.1) → vs.ReadyEndpoints name = []) := by
  refine ⟨?_, ?_, ?_⟩
  · intro state h
    have hre := ReadyEndpoints_of_GetView h
    rw [hre]
    refine ⟨rfl, List.filter_sublist _, ?_, ?_⟩
    · intro ep
      simp [List.mem_filter]
    · intro ep hep
      rw [List.countP_filter]
      congr 1
      funext x
      by_cases hx : x = ep
      · subst hx
        simp [hep]
      · simp [hx]
  · intro h
    simp only [ViewStore.GetView] at h
    simp [ViewStore.ReadyEndpoints, h]
  · intro h
    have hnone := (mapGet_eq_none_iff vs.views name).mpr h
    simp [ViewStore.ReadyEndpoints, hnone]

/-- Claim C22 on a store with a view whose endpoint is ready and a view whose
endpoint is not, and on a name without a view. -/
theorem ReadyEndpoints_outcome_witness :
    twoViewStore.ReadyEndpoints "other".toList
        = [{ Address := "10.0.1.1".toList, Port := 8080, Ready := true }] ∧
      twoViewStore.ReadyEndpoints "test01".toList = [] ∧
      twoViewStore.ReadyEndpoints "absent".toList = [] ∧
      (twoViewStore.GetView "absent".toList = none →
        twoViewStore.ReadyEndpoints "absent".toList = []) :=
  ⟨by decide, by decide, by decide,
    (ReadyEndpoints_outcome twoViewStore "absent".toList).2.1⟩

/-! ## The maps of the store -/

theorem mapGet_mapSet_ne {β : Type} (m : List (GoString × β)) {k k' : GoString} (v : β)
    (h : k' ≠ k) : mapGet (mapSet m k v) k' = mapGet m k' := by
  have hmap : (m.map (fun e => if e.1 = k then (k, v) else e)).find?
      (fun e => decide (e.1 = k')) = m.find? (fun e => decide (e.1 = k')) := by
    induction m with
    | nil => rfl
    | cons e m ih =>
      simp only [List.map_cons, List.find?_cons]
      by_cases he : e.1 = k
      · have hk' : ¬ e.1 = k' := fun h' => h (h'.symm.trans he)
        simp only [he, if_true, decide_eq_false (Ne.symm h), hk', decide_False]
        exact ih
      · simp only [he, if_false]
        by_cases hk' : e.1 = k'
        · simp [hk']
        · simp only [hk', decide_False]
          exact ih
  unfold mapSet mapGet
  split
  · rw [hmap]
  · rw [List.find?_append]
    simp [decide_eq_false (Ne.symm h)]

theorem mem_of_mapGet {β : Type} {m : List (GoString × β)} {k : GoString} {v : β}
    (h : mapGet m k = some v) : (k, v) ∈ m := by
  unfold mapGet at h
  obtain ⟨e, he, hv⟩ := Option.map_eq_some'.mp h
  have hmem := List.mem_of_find?_eq_some he
  have hk := List.find?_some he
  simp only [decide_eq_true_eq] at hk
  rw [← hk, ← hv]
  exact hmem

theorem mapGet_of_mem {β : Type} {m : List (GoString × β)} {k : GoString} {v : β}
    (hnd : (m.map (·.1)).Nodup) (h : (k, v) ∈ m) : mapGet m k = some v := by
  induction m with
  | nil => cases h
  | cons e m ih =>
    simp only [List.map_cons, List.nodup_cons] at hnd
    unfold mapGet
    simp only [List.find?_cons]
    rcases List.mem_cons.mp h with heq | hin
    · subst heq
      simp
    · have hne : ¬ e.1 = k := by
        intro hek
        apply hnd.1
        rw [hek]
        exact List.mem_map.mpr ⟨(k, v), hin, rfl⟩
      simp only [hne, decide_False]
      exact ih hnd.2 hin

theorem keys_mapSet_of_mapGet {β : Type} {m : List (GoString × β)} {k : GoString} {v : β}
    (w : β) (h : mapGet m k = some v) : (mapSet m k w).map (·.1) = m.map (·.1) := by
  rw [keys_mapSet]
  unfold insertKey
  have hk : k ∈ m.map (·.1) := by
    by_contra hn
    rw [(mapGet_eq_none_iff m k).mpr hn] at h
    cases h
  rw [if_pos hk]

theorem nodup_keys_mapSet {β : Type} {m : List (GoString × β)} (k : GoString) (v : β)
    (hnd : (m.map (·.1)).Nodup) : ((mapSet m k v).map (·.1)).Nodup := by
  rw [keys_mapSet]
  unfold insertKey
  split
  · exact hnd
  · rename_i hk
    rw [List.nodup_append]
    refine ⟨hnd, List.nodup_singleton k, ?_⟩
    intro a ha hb
    rw [List.mem_singleton] at hb
    exact hk (hb ▸ ha)

theorem keys_mapDelete {β : Type} (m : List (GoString × β)) (k : GoString) :
    (mapDelete m k).map (·.1) = (m.map (·.1)).filter (fun x => !decide (x = k)) := by
  unfold mapDelete
  rw [List.filter_map]
  rfl

theorem mapGet_mapDelete {β : Type} (m : List (GoString × β)) (k : GoString) :
    mapGet (mapDelete m k) k = none := by
  rw [mapGet_eq_none_iff, keys_mapDelete, List.mem_filter]
  intro h
  have h2 := h.2
  rw [decide_eq_true rfl] at h2
  cases h2

theorem mapGet_mapDelete_ne {β : Type} (m : List (GoString × β)) {k k' : GoString}
    (h : k' ≠ k) : mapGet (mapDelete m k) k' = mapGet m k' := by
  have hfilter : (m.filter (fun e => !decide (e.1 = k))).find?
      (fun e => decide (e.1 = k')) = m.find? (fun e => decide (e.1 = k')) := by
    induction m with
    | nil => rfl
    | cons e m ih =>
      by_cases he : e.1 = k
      · have hk' : ¬ e.1 = k' := fun h' => h (h'.symm.trans he)
        rw [List.filter_cons_of_neg (by simp [he]), List.find?_cons_of_neg _ (by simp [hk'])]
        exact ih
      · rw [List.filter_cons_of_pos (by simp [he])]
        simp only [List.find?_cons]
        by_cases hk' : e.1 = k'
        · simp [hk']
        · simp only [hk', decide_False]
          exact ih
  unfold mapDelete mapGet
  rw [hfilter]

theorem nodup_keys_mapDelete {β : Type} {m : List (GoString × β)} (k : GoString)
    (hnd : (m.map (·.1)).Nodup) : ((mapDelete m k).map (·.1)).Nodup := by
  rw [keys_mapDelete]
  exact hnd.filter _

theorem mem_mapDelete {β : Type} {m : List (GoString × β)} {k : GoString}
    {e : GoString × β} (h : e ∈ mapDelete m k) : e ∈ m ∧ e.1 ≠ k := by
  unfold mapDelete at h
  rw [List.mem_filter] at h
  refine ⟨h.1, ?_⟩
  simpa using h.2

/-! ## The rebuild of the endpoints of a view -/

theorem foldl_eq_append_flatMap {α β : Type} (f : α → List β) (g : List β → α → List β)
    (hg : ∀ acc a, g acc a = acc ++ f a) (l : List α) (init : List β) :
    l.foldl g init = init ++ l.flatMap f := by
  induction l generalizing init with
  | nil => simp
  | cons a l ih =>
    rw [List.foldl_cons, ih, hg, List.flatMap_cons, List.append_assoc]

theorem sliceSelector_eq (viewName : GoString) :
    LabelServiceName ++ "=".toList ++ viewNamePrefix ++ viewName = sliceSelector viewName := by
  unfold sliceSelector
  rw [show LabelServiceName ++ "=".toList ++ viewNamePrefix
    = "kubernetes.io/service-name=view-".toList from by decide]

/-- The three loops of `rebuildEndpoints` collect the endpoints of the listing. -/
theorem rebuildEndpoints_loops (items : List EndpointSlice) :
    items.foldl
        (fun endpoints eps =>
          let port : Int :=
            match eps.Ports with
            | p :: _ =>
              match p.Port with
              | some v => v
              | none => 8080
            | [] => 8080
          eps.Endpoints.foldl
            (fun endpoints ep =>
              let ready : Bool :=
                match ep.Conditions.Serving with
                | some b => b
                | none => false
              ep.Addresses.foldl
                (fun endpoints addr =>
                  endpoints ++ [({ Address := addr, Port := port, Ready := ready } : ViewEndpoint)])
                endpoints)
            endpoints)
        []
      = listedEndpoints items := by
  rw [foldl_eq_append_flatMap (fun eps : EndpointSlice =>
    eps.Endpoints.flatMap (fun ep =>
      ep.Addresses.map (fun addr =>
        ({ Address := addr
           Port := (eps.Ports.head?.bind (fun p => p.Port)).getD 8080
           Ready := decide (ep.Conditions.Serving = some true) } : ViewEndpoint))))]
  · rfl
  · intro acc eps
    have hport : (match eps.Ports with
        | p :: _ =>
          match p.Port with
          | some v => v
          | none => 8080
        | [] => (8080 : Int)) = (eps.Ports.head?.bind (fun p => p.Port)).getD 8080 := by
      cases eps.Ports with
      | nil => rfl
      | cons p ps => cases hp : p.Port <;> simp [hp]
    simp only [hport]
    rw [foldl_eq_append_flatMap (fun ep : Endpoint =>
      ep.Addresses.map (fun addr =>
        ({ Address := addr
           Port := (eps.Ports.head?.bind (fun p => p.Port)).getD 8080
           Ready := decide (ep.Conditions.Serving = some true) } : ViewEndpoint)))]
    intro acc2 ep
    have hready : (match ep.Conditions.Serving with
        | some b => b
        | none => false) = decide (ep.Conditions.Serving = some true) := by
      cases ep.Conditions.Serving with
      | none => rfl
      | some b => cases b <;> rfl
    simp only [hready]
    exact foldl_append_singleton _ acc2 ep.Addresses

theorem rebuildEndpoints_eq {σ : Type} (client : KubeInterface σ) (ns : GoString)
    (vs : ViewStore) (viewName : GoString) (c : σ) :
    vs.rebuildEndpoints client ns viewName c
      = match client.EndpointSlicesList ns (sliceSelector viewName) c with
        | .error _ => vs
        | .ok items =>
          match mapGet vs.views viewName with
          | some state =>
            { views := mapSet vs.views viewName
                { state with Endpoints := listedEndpoints items } }
          | none => vs := by
  unfold ViewStore.rebuildEndpoints
  rw [sliceSelector_eq]
  cases client.EndpointSlicesList ns (sliceSelector viewName) c with
  | error e => rfl
  | ok items =>
    simp only [rebuildEndpoints_loops]

/-- Claim C23: the rebuild of the endpoints of a view lists the endpoint slices
of the namespace of the store with the label `kubernetes.io/service-name` equal
to `view-<name>`.  When the listing returns slices and the store has the view,
the endpoints of the view become one entry per address of every endpoint of every
slice, in the order of the slices, of their endpoints and of their addresses,
with the first port of the slice, or 8080 when the slice has no port or its first
port is unset, and ready exactly when the Serving condition of the endpoint is
present and true, whatever its Ready condition; the name and the subset of the
view, the keys of the store and every other view stay as they were.  A rebuild
for a name without a view and a rebuild whose listing fails leave the store as
it was. -/
theorem rebuildEndpoints_outcome {σ : Type} (client : KubeInterface σ) (ns : GoString)
    (vs : ViewStore) (viewName : GoString) (c : σ) :
    (∀ items state,
      client.EndpointSlicesList ns ("kubernetes.io/service-name=view-".toList ++ viewName) c
        = .ok items →
      vs.GetView viewName = some state →
      (vs.rebuildEndpoints client ns viewName c).GetView viewName
          = some { Name := state.Name, Subset := state.Subset
                   Endpoints := listedEndpoints items } ∧
        listedEndpoints items
          = items.flatMap (fun eps => eps.Endpoints.flatMap (fun ep =>
              ep.Addresses.map (fun addr =>
                { Address := addr
                  Port := match eps.Ports with
                    | [] => 8080
                    | p :: _ => p.Port.getD 8080
                  Ready := match ep.Conditions.Serving with
                    | some true => true
                    | _ => false }))) ∧
        (vs.rebuildEndpoints client ns viewName c).views.map (·.1) = vs.views.map (·.1)) ∧
      (∀ k, k ≠ viewName →
        (vs.rebuildEndpoints client ns viewName c).GetView k = vs.GetView k) ∧
      (vs.GetView viewName = none → vs.rebuildEndpoints client ns viewName c = vs) ∧
      (∀ e,
        client.EndpointSlicesList ns ("kubernetes.io/service-name=view-".toList ++ viewName) c
          = .error e →
        vs.rebuildEndpoints client ns viewName c = vs) := by
  have heq := rebuildEndpoints_eq client ns vs viewName c
  unfold sliceSelector at heq
  refine ⟨?_, ?_, ?_, ?_⟩
  · intro items state hlist hget
    simp only [ViewStore.GetView] at hget
    rw [hlist, hget] at heq
    simp only at heq
    rw [heq]
    refine ⟨?_, ?_, ?_⟩
    · simp only [ViewStore.GetView]
      rw [mapGet_mapSet]
    · unfold listedEndpoints
      congr 1
      funext eps
      congr 1
      funext ep
      congr 1
      funext addr
      have hport : (eps.Ports.head?.bind (fun p => p.Port)).getD 8080
          = (match eps.Ports with
            | [] => (8080 : Int)
            | p :: _ => p.Port.getD 8080) := by
        cases eps.Ports with
        | nil => rfl
        | cons p ps => cases hp : p.Port <;> simp [hp]
      have hready : decide (ep.Conditions.Serving = some true)
          = (match ep.Conditions.Serving with
            | some true => true
            | _ => false) := by
        cases ep.Conditions.Serving with
        | none => rfl
        | some b => cases b <;> rfl
      rw [hport, hready]
    · exact keys_mapSet_of_mapGet _ hget
  · intro k hk
    rw [heq]
    cases client.EndpointSlicesList ns ("kubernetes.io/service-name=view-".toList ++ viewName) c with
    | error e => rfl
    | ok items =>
      cases hget : mapGet vs.views viewName with
      | none => rfl
      | some state =>
        simp only [ViewStore.GetView]
        rw [mapGet_mapSet_ne _ _ hk]
  · intro hget
    simp only [ViewStore.GetView] at hget
    rw [heq, hget]
    cases client.EndpointSlicesList ns ("kubernetes.io/service-name=view-".toList ++ viewName) c with
    | error e => rfl
    | ok items => rfl
  · intro e hlist
    rw [heq, hlist]

/-- Claim C23 on the cluster with three endpoint slices of view `test01` and a
slice of another view: the five addresses are stored in order with the ports
9000, 9000, 9000, 8080 and 8080, ready for the first, the second and the last; the
view `other` is as before; a name without a view and a failing listing leave the
store as it was. -/
theorem rebuildEndpoints_outcome_witness :
    (twoViewStore.rebuildEndpoints fakeClientset viewNamespace "test01".toList
        sliceCluster).GetView "test01".toList
      = some { Name := "test01".toList, Subset := ⟨"dev".toList, "logs".toList⟩
               Endpoints :=
                [ { Address := "10.0.0.1".toList, Port := 9000, Ready := true },
                  { Address := "10.0.0.2".toList, Port := 9000, Ready := true },
                  { Address := "10.0.0.3".toList, Port := 9000, Ready := false },
                  { Address := "10.0.0.4".toList, Port := 8080, Ready := false },
                  { Address := "10.0.0.5".toList, Port := 8080, Ready := true } ] } ∧
      (∀ k, k ≠ "test01".toList →
        (twoViewStore.rebuildEndpoints fakeClientset viewNamespace "test01".toList
          sliceCluster).GetView k = twoViewStore.GetView k) ∧
      twoViewStore.rebuildEndpoints fakeClientset viewNamespace "absent".toList sliceCluster
        = twoViewStore ∧
      twoViewStore.rebuildEndpoints (failingClientset (.Other "boom".toList)) viewNamespace
        "test01".toList sliceCluster = twoViewStore :=
  ⟨by decide,
    (rebuildEndpoints_outcome fakeClientset viewNamespace twoViewStore "test01".toList
      sliceCluster).2.1,
    (rebuildEndpoints_outcome fakeClientset viewNamespace twoViewStore "absent".toList
      sliceCluster).2.2.1 (by decide),
    (rebuildEndpoints_outcome (failingClientset (.Other "boom".toList)) viewNamespace
      twoViewStore "test01".toList sliceCluster).2.2.2 (.Other "boom".toList) rfl⟩

/-! ## Service events -/

theorem onServiceEvent_eq (vs : ViewStore) (svc : Service) :
    vs.onServiceEvent (.Service svc)
      = if mapGetD svc.ObjectMeta.Labels labelViewName = [] then
          { store := vs, notifications := 0 }
        else
          match mapGet vs.views (mapGetD svc.ObjectMeta.Labels labelViewName) with
          | none =>
            ⟨⟨mapSet vs.views (mapGetD svc.ObjectMeta.Labels labelViewName)
                ⟨mapGetD svc.ObjectMeta.Labels labelViewName,
                  ⟨mapGetD svc.ObjectMeta.Annotations annoCluster,
                    mapGetD svc.ObjectMeta.Annotations annoNamespace⟩, []⟩⟩, 1⟩
          | some existing =>
            ⟨⟨mapSet vs.views (mapGetD svc.ObjectMeta.Labels labelViewName)
                ⟨existing.Name,
                  ⟨mapGetD svc.ObjectMeta.Annotations annoCluster,
                    mapGetD svc.ObjectMeta.Annotations annoNamespace⟩,
                  existing.Endpoints⟩⟩, 1⟩ :=
  rfl

/-- Claim C24: let n be the value of the view-name label of the service of an
add or update event, the empty string when the label is missing.  When n is not
empty and the store has no view n, the event adds under the key n the state with
name n, the subset of the cluster and namespace annotations of the service and
no endpoint; when the store has a view n, the event replaces its subset and
keeps its name and its endpoints, and the keys of the store stay as they were.
In both cases every other view is as before and `onChange` is called once.
When n is empty the store is as before and `onChange` is not called. -/
theorem onServiceEvent_outcome (vs : ViewStore) (svc : Service) (n : GoString)
    (hlabel : mapGetD svc.ObjectMeta.Labels labelViewName = n) :
    (n ≠ [] →
      (vs.GetView n = none →
        (vs.onServiceEvent (.Service svc)).store.GetView n
            = some { Name := n
                     Subset := { Cluster := mapGetD svc.ObjectMeta.Annotations annoCluster
                                 Namespace := mapGetD svc.ObjectMeta.Annotations annoNamespace }
                     Endpoints := [] } ∧
          (vs.onServiceEvent (.Service svc)).store.views.map (·.1)
            = vs.views.map (·.1) ++ [n]) ∧
      (∀ existing, vs.GetView n = some existing →
        (vs.onServiceEvent (.Service svc)).store.GetView n
            = some { Name := existing.Name
                     Subset := { Cluster := mapGetD svc.ObjectMeta.Annotations annoCluster
                                 Namespace := mapGetD svc.ObjectMeta.Annotations annoNamespace }
                     Endpoints := existing.Endpoints } ∧
          (vs.onServiceEvent (.Service svc)).store.views.map (·.1) = vs.views.map (·.1)) ∧
      (∀ k, k ≠ n → (vs.onServiceEvent (.Service svc)).store.GetView k = vs.GetView k) ∧
      (vs.onServiceEvent (.Service svc)).notifications = 1) ∧
    (n = [] → vs.onServiceEvent (.Service svc) = { store := vs, notifications := 0 }) := by
  have heq := onServiceEvent_eq vs svc
  rw [hlabel] at heq
  refine ⟨?_, ?_⟩
  · intro hn
    rw [if_neg hn] at heq
    refine ⟨?_, ?_, ?_, ?_⟩
    · intro hget
      simp only [ViewStore.GetView] at hget
      rw [hget] at heq
      simp only at heq
      rw [heq]
      refine ⟨?_, ?_⟩
      · simp only [ViewStore.GetView]
        rw [mapGet_mapSet]
      · simp only
        rw [keys_mapSet]
        unfold insertKey
        rw [if_neg ((mapGet_eq_none_iff vs.views n).mp hget)]
    · intro existing hget
      simp only [ViewStore.GetView] at hget
      rw [hget] at heq
      simp only at heq
      rw [heq]
      refine ⟨?_, ?_⟩
      · simp only [ViewStore.GetView]
        rw [mapGet_mapSet]
      · exact keys_mapSet_of_mapGet _ hget
    · intro k hk
      rw [heq]
      cases hget : mapGet vs.views n with
      | none =>
        simp only [ViewStore.GetView]
        rw [mapGet_mapSet_ne _ _ hk]
      | some existing =>
        simp only [ViewStore.GetView]
        rw [mapGet_mapSet_ne _ _ hk]
    · rw [heq]
      cases hget : mapGet vs.views n with
      | none => rfl
      | some existing => rfl
  · intro hn
    rw [if_pos hn] at heq
    exact heq

/-- Claim C24 on the service of view `test01`: added to the empty store, it
gives the view `test01` with subset `dev/logs` and no endpoint, and one
notification. -/
theorem onServiceEvent_outcome_witness :
    mapGetD test01Service.ObjectMeta.Labels labelViewName = "test01".toList ∧
      (NewViewStore.onServiceEvent (.Service test01Service)).store.GetView "test01".toList
        = some { Name := "test01".toList, Subset := ⟨"dev".toList, "logs".toList⟩
                 Endpoints := [] } ∧
      (NewViewStore.onServiceEvent (.Service test01Service)).store.views.map (·.1)
        = ["test01".toList] ∧
      (NewViewStore.onServiceEvent (.Service test01Service)).notifications = 1 :=
  ⟨by decide,
    ((onServiceEvent_outcome NewViewStore test01Service "test01".toList (by decide)).1
      (by decide)).1 (by decide) |>.1,
    ((onServiceEvent_outcome NewViewStore test01Service "test01".toList (by decide)).1
      (by decide)).1 (by decide) |>.2,
    ((onServiceEvent_outcome NewViewStore test01Service "test01".toList (by decide)).1
      (by decide)).2.2.2⟩

/-- Service events of the kinds of the claims on stores with views: an update
of view `test01` replaces its subset and keeps its endpoint and the view
`other`; a service without the view-name label, and a value that is not a
service, change nothing and notify nobody. -/
theorem test_onServiceEvent :
    twoViewStore.onServiceEvent (.Service test01ServiceProd)
        = { store :=
              { views :=
                  [ ("test01".toList,
                      { Name := "test01".toList, Subset := ⟨"prod".toList, []⟩
                        Endpoints :=
                          [{ Address := "10.0.0.9".toList, Port := 8080, Ready := false }] }),
                    ("other".toList,
                      { Name := "other".toList, Subset := ⟨"prod".toList, []⟩
                        Endpoints :=
                          [{ Address := "10.0.1.1".toList, Port := 8080, Ready := true }] }) ] }
            notifications := 1 } ∧
      twoViewStore.onServiceEvent (.Service unlabelledService)
        = { store := twoViewStore, notifications := 0 } ∧
      twoViewStore.onServiceEvent (.DeletedFinalStateUnknown [] (.Service test01ServiceProd))
        = { store := twoViewStore, notifications := 0 } ∧
      twoViewStore.onServiceEvent .Other = { store := twoViewStore, notifications := 0 } := by
  refine ⟨by decide, by decide, by decide, by decide⟩

/-! ## The keys of the store -/

theorem WellKeyed_mapSet {vs : ViewStore} (h : vs.WellKeyed) (k : GoString) (v : ViewState)
    (hk : k ≠ []) (hv : v.Name = k) : ViewStore.WellKeyed { views := mapSet vs.views k v } := by
  refine ⟨nodup_keys_mapSet k v h.1, ?_⟩
  intro e he
  rcases mem_mapSet he with hin | heq
  · exact h.2 e hin
  · rw [heq]
    exact ⟨hk, hv⟩

theorem WellKeyed_mapDelete {vs : ViewStore} (h : vs.WellKeyed) (k : GoString) :
    ViewStore.WellKeyed { views := mapDelete vs.views k } := by
  refine ⟨nodup_keys_mapDelete k h.1, ?_⟩
  intro e he
  exact h.2 e (mem_mapDelete he).1

theorem WellKeyed_of_mapGet {vs : ViewStore} (h : vs.WellKeyed) {k : GoString}
    {state : ViewState} (hget : mapGet vs.views k = some state) : k ≠ [] ∧ state.Name = k :=
  h.2 (k, state) (mem_of_mapGet hget)

theorem WellKeyed_onServiceEvent {vs : ViewStore} (h : vs.WellKeyed) (obj : InformerObject) :
    (vs.onServiceEvent obj).store.WellKeyed := by
  cases obj with
  | Service svc =>
    rw [onServiceEvent_eq]
    split
    · exact h
    · rename_i hn
      cases hget : mapGet vs.views (mapGetD svc.ObjectMeta.Labels labelViewName) with
      | none => exact WellKeyed_mapSet h _ _ hn rfl
      | some existing => exact WellKeyed_mapSet h _ _ hn (WellKeyed_of_mapGet h hget).2
  | EndpointSlice eps => exact h
  | DeletedFinalStateUnknown key obj => exact h
  | Other => exact h

theorem onServiceDelete_eq (vs : ViewStore) (svc : Service) :
    vs.onServiceDelete (.Service svc)
      = if mapGetD svc.ObjectMeta.Labels labelViewName = [] then
          { store := vs, notifications := 0 }
        else
          ⟨⟨mapDelete vs.views (mapGetD svc.ObjectMeta.Labels labelViewName)⟩, 1⟩ :=
  rfl

theorem onServiceDelete_tombstone (vs : ViewStore) (key : GoString) (svc : Service) :
    vs.onServiceDelete (.DeletedFinalStateUnknown key (.Service svc))
      = vs.onServiceDelete (.Service svc) :=
  rfl

theorem WellKeyed_onServiceDelete {vs : ViewStore} (h : vs.WellKeyed) (obj : InformerObject) :
    (vs.onServiceDelete obj).store.WellKeyed := by
  have hsvc : ∀ svc, (vs.onServiceDelete (.Service svc)).store.WellKeyed := by
    intro svc
    rw [onServiceDelete_eq]
    split
    · exact h
    · exact WellKeyed_mapDelete h _
  cases obj with
  | Service svc => exact hsvc svc
  | EndpointSlice eps => exact h
  | DeletedFinalStateUnknown key obj =>
    cases obj with
    | Service svc =>
      rw [onServiceDelete_tombstone]
      exact hsvc svc
    | EndpointSlice eps => exact h
    | DeletedFinalStateUnknown key2 obj2 => exact h
    | Other => exact h
  | Other => exact h

theorem WellKeyed_rebuildEndpoints {σ : Type} (client : KubeInterface σ) (ns : GoString)
    {vs : ViewStore} (h : vs.WellKeyed) (viewName : GoString) (c : σ) :
    (vs.rebuildEndpoints client ns viewName c).WellKeyed := by
  rw [rebuildEndpoints_eq]
  cases client.EndpointSlicesList ns (sliceSelector viewName) c with
  | error e => exact h
  | ok items =>
    cases hget : mapGet vs.views viewName with
    | none => exact h
    | some state =>
      exact WellKeyed_mapSet h _ _ (WellKeyed_of_mapGet h hget).1 (WellKeyed_of_mapGet h hget).2

theorem WellKeyed_onEndpointSliceEvent {σ : Type} (client : KubeInterface σ) (ns : GoString)
    {vs : ViewStore} (h : vs.WellKeyed) (obj : InformerObject) (c : σ) :
    (vs.onEndpointSliceEvent client ns obj c).store.WellKeyed := by
  unfold ViewStore.onEndpointSliceEvent
  simp only
  split
  · exact h
  · split
    · exact h
    · split
      · exact h
      · split
        · exact h
        · exact WellKeyed_rebuildEndpoints client ns h _ c

theorem WellKeyed_handle {σ : Type} (client : KubeInterface σ) (ns : GoString)
    {vs : ViewStore} (h : vs.WellKeyed) (ev : StoreEvent σ) :
    (vs.handle client ns ev).WellKeyed := by
  cases ev with
  | serviceEvent obj => exact WellKeyed_onServiceEvent h obj
  | serviceDelete obj => exact WellKeyed_onServiceDelete h obj
  | endpointSliceEvent obj c => exact WellKeyed_onEndpointSliceEvent client ns h obj c
  | rebuildEndpoints viewName c => exact WellKeyed_rebuildEndpoints client ns h viewName c

theorem WellKeyed_foldl_handle {σ : Type} (client : KubeInterface σ) (ns : GoString)
    (events : List (StoreEvent σ)) {vs : ViewStore} (h : vs.WellKeyed) :
    (events.foldl (ViewStore.handle client ns) vs).WellKeyed := by
  induction events generalizing vs with
  | nil => exact h
  | cons ev events ih => exact ih (WellKeyed_handle client ns h ev)

theorem WellKeyed_after {σ : Type} (client : KubeInterface σ) (ns : GoString)
    (events : List (StoreEvent σ)) : (ViewStore.after client ns events).WellKeyed :=
  WellKeyed_foldl_handle client ns events ⟨List.nodup_nil, fun _ he => by cases he⟩

/-- Claim C25: in the store reached from the empty store by any sequence of
service add or update events, service delete events, endpoint-slice events and
endpoint rebuilds, whatever the cluster answers, every key is not empty and the
state under a key has the key as its name; the keys are distinct, so the names of
the listed views are distinct, and for each listed view v the store returns v
itself for `v.Name` and `ReadyEndpoints(v.Name)` is the ready endpoints of v.  A
service delete event whose view-name label n is not empty, with the service
itself or a tombstone around it, removes the key n, leaves the other keys and
the state under each of them as they were, and calls `onChange` once. -/
theorem store_keys_invariant {σ : Type} (client : KubeInterface σ) (ns : GoString)
    (events : List (StoreEvent σ)) :
    (∀ k state, (k, state) ∈ (ViewStore.after client ns events).views →
      k ≠ [] ∧ state.Name = k) ∧
      ((ViewStore.after client ns events).views.map (·.1)).Nodup ∧
      ((ViewStore.after client ns events).ListViews.map (·.Name)).Nodup ∧
      (∀ v ∈ (ViewStore.after client ns events).ListViews,
        (ViewStore.after client ns events).GetView v.Name = some v ∧
        (ViewStore.after client ns events).ReadyEndpoints v.Name
          = v.Endpoints.filter (fun ep => ep.Ready)) ∧
      (∀ (vs : ViewStore) (svc : Service) (n key : GoString),
        mapGetD svc.ObjectMeta.Labels labelViewName = n → n ≠ [] →
        (vs.onServiceDelete (.Service svc)).store.GetView n = none ∧
        (vs.onServiceDelete (.Service svc)).store.views.map (·.1)
          = (vs.views.map (·.1)).filter (fun k => !decide (k = n)) ∧
        (∀ k, k ≠ n → (vs.onServiceDelete (.Service svc)).store.GetView k = vs.GetView k) ∧
        (vs.onServiceDelete (.Service svc)).notifications = 1 ∧
        vs.onServiceDelete (.DeletedFinalStateUnknown key (.Service svc))
          = vs.onServiceDelete (.Service svc)) := by
  have hwk := WellKeyed_after client ns events
  have hnames : (ViewStore.after client ns events).ListViews.map (·.Name)
      = (ViewStore.after client ns events).views.map (·.1) := by
    unfold ViewStore.ListViews
    rw [List.map_map]
    apply List.map_congr_left
    intro e he
    exact (hwk.2 e he).2
  refine ⟨fun k state h => hwk.2 (k, state) h, hwk.1, ?_, ?_, ?_⟩
  · rw [hnames]
    exact hwk.1
  · intro v hv
    unfold ViewStore.ListViews at hv
    obtain ⟨e, he, rfl⟩ := List.mem_map.mp hv
    have hget : (ViewStore.after client ns events).GetView e.2.Name = some e.2 := by
      unfold ViewStore.GetView
      rw [(hwk.2 e he).2]
      exact mapGet_of_mem hwk.1 he
    exact ⟨hget, ReadyEndpoints_of_GetView hget⟩
  · intro vs svc n key hlabel hn
    have heq := onServiceDelete_eq vs svc
    rw [hlabel, if_neg hn] at heq
    rw [onServiceDelete_tombstone, heq]
    refine ⟨?_, ?_, ?_, rfl, rfl⟩
    · exact mapGet_mapDelete vs.views n
    · exact keys_mapDelete vs.views n
    · intro k hk
      exact mapGet_mapDelete_ne vs.views hk

/-- Claim C25 on the life of view `test01`: the store holds the one key
`test01`, whose state has that name, the subset of the update and the five
endpoints of the rebuild; a delete event for `test01` on a store with two views
leaves the view `other` alone. -/
theorem store_keys_invariant_witness :
    (ViewStore.after fakeClientset viewNamespace test01Events).views.map
        (fun e => (e.1, e.2.Name, e.2.Subset, e.2.Endpoints.length))
      = [("test01".toList, "test01".toList, ⟨"prod".toList, []⟩, 5)] ∧
      (∀ k state, (k, state) ∈ (ViewStore.after fakeClientset viewNamespace test01Events).views →
        k ≠ [] ∧ state.Name = k) ∧
      (twoViewStore.onServiceDelete (.Service test01Service)).store.GetView "test01".toList
        = none ∧
      (twoViewStore.onServiceDelete (.Service test01Service)).store.views.map (·.1)
        = ["other".toList] ∧
      (twoViewStore.onServiceDelete (.Service test01Service)).store.GetView "other".toList
        = twoViewStore.GetView "other".toList :=
  ⟨by decide,
    (store_keys_invariant fakeClientset viewNamespace test01Events).1,
    ((store_keys_invariant fakeClientset viewNamespace test01Events).2.2.2.2
      twoViewStore test01Service "test01".toList [] (by decide) (by decide)).1,
    by decide,
    ((store_keys_invariant fakeClientset viewNamespace test01Events).2.2.2.2
      twoViewStore test01Service "test01".toList [] (by decide) (by decide)).2.2.1
      "other".toList (by decide)⟩

/-- Events of the store on the fixtures: the life of view `test01` step by step,
a tombstone that deletes the view, an endpoint-slice event of a view of the store
(one notification, whatever the listing gives), of a view that the store does
not have and of a value that is not an endpoint slice (none). -/
theorem test_ViewStore_events :
    (ViewStore.after fakeClientset viewNamespace (test01Events.take 3)).views
        = [("test01".toList,
            { Name := "test01".toList, Subset := ⟨"dev".toList, "logs".toList⟩
              Endpoints := [] })] ∧
      (ViewStore.after fakeClientset viewNamespace test01Events).WellKeyed ∧
      (ViewStore.after fakeClientset viewNamespace test01Events).ReadyEndpoints "test01".toList
        = [ { Address := "10.0.0.1".toList, Port := 9000, Ready := true },
            { Address := "10.0.0.2".toList, Port := 9000, Ready := true },
            { Address := "10.0.0.5".toList, Port := 8080, Ready := true } ] ∧
      (ViewStore.after fakeClientset viewNamespace
        (test01Events ++
          [.serviceDelete (.DeletedFinalStateUnknown [] (.Service test01Service))])).views
        = [] ∧
      (twoViewStore.onEndpointSliceEvent fakeClientset viewNamespace
        (.EndpointSlice otherSlice) sliceCluster).notifications = 1 ∧
      (twoViewStore.onEndpointSliceEvent (failingClientset .NotFound) viewNamespace
        (.EndpointSlice otherSlice) sliceCluster)
        = { store := twoViewStore, notifications := 1 } ∧
      (NewViewStore.onEndpointSliceEvent fakeClientset viewNamespace
        (.EndpointSlice otherSlice) sliceCluster)
        = { store := NewViewStore, notifications := 0 } ∧
      (twoViewStore.onEndpointSliceEvent fakeClientset viewNamespace
        (.Service test01Service) sliceCluster)
        = { store := twoViewStore, notifications := 0 } := by
  refine ⟨by decide, by decide, by decide, by decide, by decide, by decide, by decide,
    by decide⟩

end GatewaySidecar
